import Mathlib

/-!
Verification of the Cadence semantic checker for interface declarations
(package `sema`) and of the runtime value visitor (package `interpreter`).

The Go source is shallowly embedded: Go structs become Lean structures,
Go maps become association lists (a later insertion shadows an earlier
binding, as Go map assignment overwrites), pointer identity of AST
declarations is modelled by an explicit numeric id, pointer identity of
types by a numeric id into an explicit type heap, and a Go `panic`
becomes the error branch of `Except`, with `defer` modelled by a
combinator that applies the deferred state update on both the normal
and the panicking exit path.
-/

namespace Cadence

/-- A source position (offset, line, column), as in the `ast` package. -/
structure Position where
  offset : Nat
  line : Nat
  column : Nat
  deriving DecidableEq, Repr

/-- An identifier together with its source position (`ast.Identifier`). -/
structure Identifier where
  identifier : String
  pos : Position
  deriving DecidableEq, Repr

/-- Access modifiers of declarations (`ast.Access`). -/
inductive Access where
  | notSpecified
  | publicAccess
  | publicSettable
  | privateAccess
  | authAccess
  deriving DecidableEq, Repr

/-- Composite kinds (`common.CompositeKind`). -/
inductive CompositeKind where
  | structureKind
  | resourceKind
  | contractKind
  | eventKind
  | enumKind
  deriving DecidableEq, Repr

/-- Declaration kinds (`common.DeclarationKind`), restricted to the kinds
the interface checker distinguishes.  An interface or composite
declaration's kind carries its composite kind, mirroring
`InterfaceDeclaration.DeclarationKind()` in the source. -/
inductive DeclarationKind where
  | functionKind
  | initializerKind
  | destructorKind
  | fieldKind
  | interfaceOf (kind : CompositeKind)
  | compositeOf (kind : CompositeKind)
  | unknownKind
  deriving DecidableEq, Repr

/-- Static types as they occur in field type annotations.  Containers
carry their own resource-ness, so that resource-field-nesting checking
can recurse over the structure (spec section 4.2 step 11). -/
inductive TypeAnnot where
  | leafType (isResource : Bool)
  | arrayOf (isResource : Bool) (element : TypeAnnot)
  | optionalOf (isResource : Bool) (element : TypeAnnot)
  deriving DecidableEq, Repr

/-- A pre- or post-condition of a function block (`ast.Condition`);
only its presence and position matter to the interface checker. -/
structure Condition where
  pos : Position
  deriving DecidableEq, Repr

/-- An executable statement of a function block; the checker only uses
its start position (`ast.Statement.StartPosition()`). -/
structure Statement where
  startPos : Position
  deriving DecidableEq, Repr

/-- A function block (`ast.FunctionBlock`): statements, pre- and
post-conditions, and its start position. -/
structure FunctionBlock where
  statements : List Statement
  preConditions : List Condition
  postConditions : List Condition
  startPos : Position
  deriving DecidableEq, Repr

/-- A field declaration of an interface (`ast.FieldDeclaration`). -/
structure FieldDeclaration where
  access : Access
  identifier : Identifier
  typeAnnot : TypeAnnot
  startPos : Position
  deriving DecidableEq, Repr

/-- A function declaration of an interface (`ast.FunctionDeclaration`).
`functionBlock` is `none` when the function has no body at all. -/
structure FunctionDeclaration where
  access : Access
  identifier : Identifier
  functionBlock : Option FunctionBlock
  startPos : Position
  deriving DecidableEq, Repr

/-- A special function declaration (initializer or destructor,
`ast.SpecialFunctionDeclaration`): its declaration kind, parameter type
annotations, and optional body. -/
structure SpecialFunctionDeclaration where
  declarationKind : DeclarationKind
  parameterTypeAnnots : List TypeAnnot
  functionBlock : Option FunctionBlock
  startPos : Position
  deriving DecidableEq, Repr

/-- A nested composite or interface declaration, flattened to the data
the enclosing interface checker reads: its (possibly absent) identifier,
whether it is an interface, its composite kind and access.
`identifier` is an `Option` because `ast.Declaration.DeclarationIdentifier()`
returns a pointer that can be nil. -/
structure NestedDeclaration where
  identifier : Option Identifier
  isInterface : Bool
  compositeKind : CompositeKind
  access : Access
  deriving DecidableEq, Repr

/-- The declaration kind of a nested declaration, mirroring
`Declaration.DeclarationKind()`. -/
def NestedDeclaration.declarationKind (d : NestedDeclaration) : DeclarationKind :=
  if d.isInterface then .interfaceOf d.compositeKind else .compositeOf d.compositeKind

/-- The member lists of an interface declaration (`ast.Members`). -/
structure Members where
  fields : List FieldDeclaration
  functions : List FunctionDeclaration
  specialFunctions : List SpecialFunctionDeclaration
  deriving DecidableEq, Repr

/-- The initializers among the special functions (`Members.Initializers()`). -/
def Members.initializers (m : Members) : List SpecialFunctionDeclaration :=
  m.specialFunctions.filter (fun f => f.declarationKind = .initializerKind)

/-- The destructors among the special functions (`Members.Destructors()`). -/
def Members.destructors (m : Members) : List SpecialFunctionDeclaration :=
  m.specialFunctions.filter (fun f => f.declarationKind = .destructorKind)

/-- The fields keyed by identifier (`Members.FieldsByIdentifier()`). -/
def Members.fieldsByIdentifier (m : Members) : List (String × FieldDeclaration) :=
  m.fields.map (fun f => (f.identifier.identifier, f))

/-- An interface declaration (`ast.InterfaceDeclaration`).  `declId`
models the pointer identity that the Go checker uses as a map key. -/
structure InterfaceDeclaration where
  declId : Nat
  access : Access
  compositeKind : CompositeKind
  identifier : Identifier
  members : Members
  interfaceDeclarations : List NestedDeclaration
  compositeDeclarations : List NestedDeclaration
  startPos : Position
  deriving DecidableEq, Repr

/-- The declaration kind of an interface declaration
(`InterfaceDeclaration.DeclarationKind()`). -/
def InterfaceDeclaration.declarationKind (d : InterfaceDeclaration) : DeclarationKind :=
  .interfaceOf d.compositeKind

/-- Recoverable checker diagnostics (the `sema` error types reported via
`checker.report`). -/
inductive CheckerError where
  | invalidImplementation (pos : Position)
      (containerKind implementedKind : DeclarationKind)
  | redeclaration (kind : DeclarationKind) (name : String) (pos : Position)
  | invalidAccess (kind : DeclarationKind) (access : Access) (pos : Position)
  | destructorConsistency (fieldName : String) (pos : Position)
  | unknownSpecialFunction (pos : Position)
  | duplicateInitializer (pos : Position)
  | resourceFieldNesting (fieldName : String) (pos : Position)
  | unsupportedInterfaceKind (kind : CompositeKind) (pos : Position)
  deriving DecidableEq, Repr

/-- Non-recoverable internal faults (Go panics): the unreachable-error
of `errors.NewUnreachableError()` and a nil-pointer dereference. -/
inductive InternalError where
  | unreachableError
  | nilDereference
  deriving DecidableEq, Repr

/-- The translation of `checkInterfaceSpecialFunctionBlock`: if the
block has statements, one invalid-implementation error at the first
statement's start position; otherwise, if it has neither pre- nor
post-conditions, one invalid-implementation error at the block's start
position; otherwise nothing.  Diagnostics are returned as a list rather
than sunk into the checker. -/
def checkInterfaceSpecialFunctionBlock (block : FunctionBlock)
    (containerKind implementedKind : DeclarationKind) : List CheckerError :=
  match block.statements with
  | stmt :: _ =>
      [.invalidImplementation stmt.startPos containerKind implementedKind]
  | [] =>
      if block.preConditions.length = 0 ∧ block.postConditions.length = 0 then
        [.invalidImplementation block.startPos containerKind implementedKind]
      else
        []

/-- Container kinds (`sema.ContainerKind`): whether members are being
checked for an interface or for a concrete composite. -/
inductive ContainerKind where
  | interfaceContainer
  | compositeContainer
  deriving DecidableEq, Repr

/-- A member descriptor of an interface type (`sema.Member`), reduced to
the data this checker produces: kind, access and type. -/
structure MemberInfo where
  declarationKind : DeclarationKind
  access : Access
  typeAnnot : TypeAnnot
  deriving DecidableEq, Repr

/-- A checker type descriptor.  `sema.InterfaceType` and the nested
`sema.CompositeType` are merged into one record distinguished by
`isInterface`; the fields the interface checker touches are kept.
Go pointer identity is modelled by a numeric id into a type heap, so the
cyclic container back-reference (`ContainerType`) is an id.  `members`
and `initializerParameterTypeAnnotations` are `none` until phase 2 sets
them, mirroring the nil zero value of the Go fields. -/
structure TypeData where
  isInterface : Bool
  identifier : String
  compositeKind : CompositeKind
  nestedTypes : List (String × Nat)
  containerType : Option Nat
  members : Option (List (String × MemberInfo))
  initializerParameterTypeAnnotations : Option (List TypeAnnot)
  deriving DecidableEq, Repr

/-- The mutable checker state: the type heap (modelling pointers), the
`containerTypes` flag map, the type and value activation stacks (each a
stack of scopes, innermost first), the accumulated diagnostics, the
elaboration maps keyed by declaration id, member origins keyed by type
id, and recorded identifier occurrences. -/
structure CheckerState where
  nextTypeId : Nat
  typeHeap : List (Nat × TypeData)
  containerTypes : List (Nat × Bool)
  typeActivations : List (List (String × Nat))
  valueActivations : List (List (String × Nat))
  diagnostics : List CheckerError
  interfaceDeclarationTypes : List (Nat × Nat)
  interfaceNestedDeclarations : List (Nat × List (String × NestedDeclaration))
  memberOrigins : List (Nat × List (String × Position))
  occurrences : List (String × Nat)
  deriving DecidableEq, Repr

/-- Lookup in an association list modelling a Go map. -/
def lookupAssoc {α β : Type} [DecidableEq α] : List (α × β) → α → Option β
  | [], _ => none
  | (k2, v) :: rest, k => if k2 = k then some v else lookupAssoc rest k

/-- Insertion into an association list modelling a Go map: an existing
binding for the key is overwritten in place, a new key is appended. -/
def insertAssoc {α β : Type} [DecidableEq α] : List (α × β) → α → β → List (α × β)
  | [], k, v => [(k, v)]
  | (k2, v2) :: rest, k, v =>
      if k2 = k then (k, v) :: rest else (k2, v2) :: insertAssoc rest k v

deriving instance DecidableEq for Except

/-- The checker computation monad: explicit state passing with a Go
panic modelled as the `Except` error branch.  The error carries the
state so that deferred updates can still be applied while unwinding. -/
def Check (α : Type) : Type :=
  CheckerState → Except (InternalError × CheckerState) (α × CheckerState)

/-- Sequencing for `Check`: a fault short-circuits. -/
def Check.bind {α β : Type} (m : Check α) (f : α → Check β) : Check β :=
  fun s =>
    match m s with
    | .ok (a, s1) => f a s1
    | .error e => .error e

/-- Return for `Check`. -/
def Check.pure {α : Type} (a : α) : Check α := fun s => .ok (a, s)

instance : Monad Check where
  pure := Check.pure
  bind := Check.bind

/-- Read the current state. -/
def getState : Check CheckerState := fun s => .ok (s, s)

/-- Apply a state update. -/
def modifyState (f : CheckerState → CheckerState) : Check Unit :=
  fun s => .ok ((), f s)

/-- Abort with an internal fault (a Go panic). -/
def fault {α : Type} (e : InternalError) : Check α := fun s => .error (e, s)

/-- Run a body with a deferred state update applied on every exit path,
normal or panicking, modelling a Go `defer` of a state-mutating call. -/
def withDeferred {α : Type} (body : Check α)
    (finalizer : CheckerState → CheckerState) : Check α :=
  fun s =>
    match body s with
    | .ok (a, s1) => .ok (a, finalizer s1)
    | .error (e, s1) => .error (e, finalizer s1)

/-- Append one diagnostic to the sink (`checker.report` on a non-nil
error). -/
def reportAll (errs : List CheckerError) : Check Unit :=
  modifyState fun s => { s with diagnostics := s.diagnostics ++ errs }

/-- `checker.report`: a nil error is ignored, anything else is appended
to the diagnostics sink. -/
def report (err : Option CheckerError) : Check Unit :=
  match err with
  | none => Check.pure ()
  | some e => reportAll [e]

/-- Push a fresh innermost type scope (`typeActivations.Enter`). -/
def typeActivationsEnter : Check Unit :=
  modifyState fun s => { s with typeActivations := [] :: s.typeActivations }

/-- Pop the innermost type scope (`typeActivations.Leave`), as a pure
state update usable as a deferred finalizer. -/
def typeActivationsLeaveState (s : CheckerState) : CheckerState :=
  { s with typeActivations := s.typeActivations.tail }

/-- Push a fresh innermost value scope (`valueActivations.Enter` /
`enterValueScope`). -/
def valueActivationsEnter : Check Unit :=
  modifyState fun s => { s with valueActivations := [] :: s.valueActivations }

/-- Pop the innermost value scope (`valueActivations.Leave` /
`leaveValueScope`), as a pure state update usable as a deferred
finalizer.  The `checkResourceLoss` argument of `leaveValueScope` is
always `false` at the call sites modelled here and has no further
effect in this model. -/
def valueActivationsLeaveState (s : CheckerState) : CheckerState :=
  { s with valueActivations := s.valueActivations.tail }

/-- Modelled from the spec: `typeActivations.DeclareType` (its body is
not among the given sources).  It reports a redeclaration diagnostic,
built from the declaration's kind, when the identifier collides with an
existing type in the current (innermost) scope, and binds the
identifier in that scope either way. -/
def typeActivationsDeclareType (identifier : Identifier) (typeId : Nat)
    (kind : DeclarationKind) (access : Access) : Check (Option CheckerError) :=
  fun s =>
    let scope := s.typeActivations.headD []
    let err : Option CheckerError :=
      match lookupAssoc scope identifier.identifier with
      | some _ => some (.redeclaration kind identifier.identifier identifier.pos)
      | none => none
    let _ := access
    .ok (err,
      { s with typeActivations :=
          insertAssoc scope identifier.identifier typeId :: s.typeActivations.tail })

/-- Allocate a fresh type on the type heap, modelling Go allocation of
a new `InterfaceType` / `CompositeType` value and taking its pointer. -/
def allocType (d : TypeData) : Check Nat :=
  fun s =>
    .ok (s.nextTypeId,
      { s with
          nextTypeId := s.nextTypeId + 1,
          typeHeap := insertAssoc s.typeHeap s.nextTypeId d })

/-- Dereference a type id; a dangling id is a nil dereference. -/
def heapGet (typeId : Nat) : Check TypeData :=
  fun s =>
    match lookupAssoc s.typeHeap typeId with
    | none => .error (.nilDereference, s)
    | some d => .ok (d, s)

/-- Mutate the type record behind a type id. -/
def heapModify (typeId : Nat) (f : TypeData → TypeData) : Check Unit := do
  let d ← heapGet typeId
  modifyState fun s => { s with typeHeap := insertAssoc s.typeHeap typeId (f d) }

/-- Write the container-checking flag for a type
(`checker.containerTypes[interfaceType] = b`), as a pure state update
usable both inline and as a deferred finalizer. -/
def setContainerFlag (typeId : Nat) (b : Bool) (s : CheckerState) : CheckerState :=
  { s with containerTypes := insertAssoc s.containerTypes typeId b }

/-- `checker.recordVariableDeclarationOccurrence`: record that the
identifier was declared with the given type. -/
def recordVariableDeclarationOccurrence (name : String) (typeId : Nat) : Check Unit :=
  modifyState fun s => { s with occurrences := s.occurrences ++ [(name, typeId)] }

/-- Bind `self` in the innermost value scope
(`checker.declareSelfValue`). -/
def declareSelfValue (typeId : Nat) : Check Unit :=
  modifyState fun s =>
    match s.valueActivations with
    | [] => { s with valueActivations := [[("self", typeId)]] }
    | scope :: rest =>
        { s with valueActivations := insertAssoc scope "self" typeId :: rest }

/-- Modelled from the spec: `checkDeclarationAccessModifier` (not among
the given sources) validates a declaration's own access modifier
against its kind and position; the model reports an invalid-access
diagnostic for an `auth` access modifier, which is never a legal
declaration access here. -/
def checkDeclarationAccessModifier (access : Access) (kind : DeclarationKind)
    (startPos : Position) (isConstant inFunction : Bool) : List CheckerError :=
  let _ := isConstant
  let _ := inFunction
  if access = .authAccess then [.invalidAccess kind access startPos] else []

/-- Modelled from the spec: `checkFieldsAccessModifier` (not among the
given sources) validates each field's access modifier; the model
reports an invalid-access diagnostic for an `auth` field. -/
def checkFieldsAccessModifier (fields : List FieldDeclaration) : List CheckerError :=
  fields.flatMap fun f =>
    if f.access = .authAccess then
      [.invalidAccess .fieldKind f.access f.startPos]
    else []

/-- The identifier entries of the declarations sharing an interface's
member namespace, in source order: fields, functions, nested interface
declarations, nested composite declarations. -/
def nestedIdentifierEntries (fields : List FieldDeclaration)
    (functions : List FunctionDeclaration)
    (interfaceDeclarations compositeDeclarations : List NestedDeclaration) :
    List (String × DeclarationKind × Position) :=
  fields.map (fun f => (f.identifier.identifier, .fieldKind, f.identifier.pos))
    ++ functions.map (fun f => (f.identifier.identifier, .functionKind, f.identifier.pos))
    ++ interfaceDeclarations.filterMap (fun d =>
        d.identifier.map fun i => (i.identifier, d.declarationKind, i.pos))
    ++ compositeDeclarations.filterMap (fun d =>
        d.identifier.map fun i => (i.identifier, d.declarationKind, i.pos))

/-- Report a redeclaration diagnostic for every entry whose identifier
was already seen earlier in the list. -/
def reportDuplicateEntries (seen : List String) :
    List (String × DeclarationKind × Position) → List CheckerError
  | [] => []
  | (name, kind, pos) :: rest =>
      (if name ∈ seen then [CheckerError.redeclaration kind name pos] else [])
        ++ reportDuplicateEntries (name :: seen) rest

/-- Modelled from the spec: `checkNestedIdentifiers` (not among the
given sources) checks that no identifier collides among the fields,
functions and nested declarations of the interface, which share one
namespace; each later duplicate is reported. -/
def checkNestedIdentifiers (fields : List FieldDeclaration)
    (functions : List FunctionDeclaration)
    (interfaceDeclarations compositeDeclarations : List NestedDeclaration) :
    List CheckerError :=
  reportDuplicateEntries []
    (nestedIdentifierEntries fields functions interfaceDeclarations compositeDeclarations)

/-- Modelled from the spec: `membersAndOrigins` (not among the given
sources) computes the member set of the interface from its fields and
functions, together with an origin record per member carrying its
declaration position. -/
def membersAndOrigins (fields : List FieldDeclaration)
    (functions : List FunctionDeclaration) (requireVariableKind : Bool) :
    List (String × MemberInfo) × List (String × Position) :=
  let _ := requireVariableKind
  (fields.map (fun f =>
      (f.identifier.identifier,
        { declarationKind := .fieldKind, access := f.access, typeAnnot := f.typeAnnot }))
    ++ functions.map (fun f =>
      (f.identifier.identifier,
        { declarationKind := .functionKind, access := f.access,
          typeAnnot := .leafType false })),
   fields.map (fun f => (f.identifier.identifier, f.identifier.pos))
    ++ functions.map (fun f => (f.identifier.identifier, f.identifier.pos)))

/-- Modelled from the spec: `initializerParameterTypeAnnotations` (not
among the given sources) takes the parameter type annotations of the
(first) initializer signature; interfaces permit zero or one. -/
def initializerParameterTypeAnnotationsOf
    (initializers : List SpecialFunctionDeclaration) : List TypeAnnot :=
  match initializers with
  | [] => []
  | firstOne :: _ => firstOne.parameterTypeAnnots

/-- The diagnostic for a second initializer signature, if any. -/
def duplicateInitializerDiags : List SpecialFunctionDeclaration → List CheckerError
  | _ :: second :: _ => [.duplicateInitializer second.startPos]
  | _ => []

/-- The interface body-shape diagnostics of one special function's
body, when present. -/
def specialFunctionBodyShapeDiags (containerDeclarationKind : DeclarationKind)
    (implementedKind : DeclarationKind) (containerKind : ContainerKind)
    (f : SpecialFunctionDeclaration) : List CheckerError :=
  match f.functionBlock with
  | some block =>
      match containerKind with
      | .interfaceContainer =>
          checkInterfaceSpecialFunctionBlock block containerDeclarationKind
            implementedKind
      | .compositeContainer => []
  | none => []

/-- Modelled from the spec: `checkInitializers` (not among the given
sources).  A second initializer signature is reported; for an interface
container, an initializer body is checked with the interface body-shape
rule (pre/post conditions only), while an absent body is allowed. -/
def checkInitializers (initializers : List SpecialFunctionDeclaration)
    (fields : List FieldDeclaration) (containerDeclarationKind : DeclarationKind)
    (typeIdentifier : String) (parameterTypeAnnots : List TypeAnnot)
    (containerKind : ContainerKind) : List CheckerError :=
  let _ := fields
  let _ := typeIdentifier
  let _ := parameterTypeAnnots
  duplicateInitializerDiags initializers
    ++ initializers.flatMap
        (specialFunctionBodyShapeDiags containerDeclarationKind .initializerKind
          containerKind)

/-- Modelled from the spec: the destructor-consistency check against
the field set (spec section 4.2 step 8).  A second destructor is
reported as inconsistent, and for an interface container a destructor
body is held to the interface body-shape rule. -/
def duplicateDestructorDiags (fields : List (String × FieldDeclaration)) :
    List SpecialFunctionDeclaration → List CheckerError
  | _ :: second :: _ =>
      [.destructorConsistency ((fields.map Prod.fst).headD "") second.startPos]
  | _ => []

/-- Modelled from the spec: the destructor-consistency check against
the field set (spec section 4.2 step 8), continued: a second destructor
is reported as inconsistent against the field set, and for an interface
container a destructor body is held to the interface body-shape rule. -/
def checkDestructorConsistency (destructors : List SpecialFunctionDeclaration)
    (fields : List (String × FieldDeclaration))
    (containerDeclarationKind : DeclarationKind)
    (containerKind : ContainerKind) : List CheckerError :=
  duplicateDestructorDiags fields destructors
    ++ destructors.flatMap
        (specialFunctionBodyShapeDiags containerDeclarationKind .destructorKind
          containerKind)

/-- Modelled from the spec: `checkDestructors` (not among the given
sources).  Destructor-consistency checking against the field set runs
only when the container's composite kind is the resource kind (spec
section 4.2 step 8); for the other kinds nothing is checked here. -/
def checkDestructors (destructors : List SpecialFunctionDeclaration)
    (fields : List (String × FieldDeclaration))
    (members : List (String × MemberInfo))
    (compositeKind : CompositeKind)
    (containerDeclarationKind : DeclarationKind)
    (typeIdentifier : String)
    (containerKind : ContainerKind) : List CheckerError :=
  let _ := members
  let _ := typeIdentifier
  if compositeKind = .resourceKind then
    checkDestructorConsistency destructors fields containerDeclarationKind containerKind
  else
    []

/-- Modelled from the spec: `checkUnknownSpecialFunctions` (not among
the given sources) rejects any special function that is neither an
initializer nor a destructor. -/
def checkUnknownSpecialFunctions
    (specialFunctions : List SpecialFunctionDeclaration) : List CheckerError :=
  specialFunctions.filterMap fun f =>
    if f.declarationKind = .initializerKind ∨ f.declarationKind = .destructorKind then
      none
    else
      some (.unknownSpecialFunction f.startPos)

/-- The options record passed to `visitFunctionDeclaration`
(`sema.functionDeclarationOptions`). -/
structure FunctionDeclarationOptions where
  mustExit : Bool
  declareFunction : Bool
  checkResourceLoss : Bool
  allowAuthAccessModifier : Bool
  deriving DecidableEq, Repr

/-- Modelled from the spec: `visitFunctionDeclaration` (not among the
given sources) checks the function signature and its pre/post-condition
blocks; the model reports an invalid-access diagnostic for an `auth`
function access unless the options allow it.  It never produces an
invalid-implementation diagnostic: the interface body-shape rule lives
in `checkInterfaceSpecialFunctionBlock` alone. -/
def visitFunctionDeclaration (function : FunctionDeclaration)
    (options : FunctionDeclarationOptions) : List CheckerError :=
  if function.access = .authAccess ∧ ¬options.allowAuthAccessModifier then
    [.invalidAccess .functionKind function.access function.startPos]
  else []

/-- Whether a type contains a resource anywhere in its structure. -/
def TypeAnnot.containsResource : TypeAnnot → Bool
  | .leafType r => r
  | .arrayOf r e => r || e.containsResource
  | .optionalOf r e => r || e.containsResource

/-- Whether a type nests a resource inside a non-resource container
somewhere in its structure. -/
def TypeAnnot.nestsResourceBadly : TypeAnnot → Bool
  | .leafType _ => false
  | .arrayOf r e => (!r && e.containsResource) || e.nestsResourceBadly
  | .optionalOf r e => (!r && e.containsResource) || e.nestsResourceBadly

/-- Modelled from the spec: `checkResourceFieldNesting` (not among the
given sources).  For a resource-kind container, a field whose declared
type nests a resource value inside a non-resource container type is
reported (spec section 4.2 step 11). -/
def checkResourceFieldNesting (fields : List (String × FieldDeclaration))
    (members : List (String × MemberInfo))
    (compositeKind : CompositeKind) : List CheckerError :=
  let _ := members
  if compositeKind = .resourceKind then
    fields.filterMap fun nf =>
      if nf.2.typeAnnot.nestsResourceBadly then
        some (.resourceFieldNesting nf.1 nf.2.identifier.pos)
      else none
  else []

/-- Modelled from the spec: `checkCompositeDeclarationSupport` (not
among the given sources).  Certain composite kinds cannot appear as
interface declarations at all (spec section 4.2 step 12); the model
rejects the event and enum kinds. -/
def checkCompositeDeclarationSupport (compositeKind : CompositeKind)
    (declarationKind : DeclarationKind) (identifier : Identifier) : List CheckerError :=
  let _ := declarationKind
  match compositeKind with
  | .eventKind => [.unsupportedInterfaceKind .eventKind identifier.pos]
  | .enumKind => [.unsupportedInterfaceKind .enumKind identifier.pos]
  | _ => []

/-- Modelled from the spec: the per-declaration body of
`visitNestedDeclarations` (not among the given sources).  Phase 1 runs
over each nested declaration: a placeholder type is created for it,
declared into the current (freshly entered) scope — reporting a
collision when two nested declarations share an identifier — and
recorded in the name-keyed nested-declaration map and in the interface
or composite type-id list.  Deeper nesting is flattened to depth one,
and a nested declaration without an identifier is skipped, since the
real phase 1 keys everything it records by identifier. -/
def visitNestedDeclarationsLoop :
    List NestedDeclaration →
    List (String × NestedDeclaration) → List Nat → List Nat →
    Check (List (String × NestedDeclaration) × List Nat × List Nat)
  | [], declMap, interfaceTypeIds, compositeTypeIds =>
      Check.pure (declMap, interfaceTypeIds, compositeTypeIds)
  | d :: rest, declMap, interfaceTypeIds, compositeTypeIds => do
      match d.identifier with
      | none => visitNestedDeclarationsLoop rest declMap interfaceTypeIds compositeTypeIds
      | some identifier => do
          let typeId ← allocType
            { isInterface := d.isInterface,
              identifier := identifier.identifier,
              compositeKind := d.compositeKind,
              nestedTypes := [],
              containerType := none,
              members := none,
              initializerParameterTypeAnnotations := none }
          let errOpt ← typeActivationsDeclareType identifier typeId
            d.declarationKind d.access
          report errOpt
          visitNestedDeclarationsLoop rest
            (insertAssoc declMap identifier.identifier d)
            (if d.isInterface then interfaceTypeIds ++ [typeId] else interfaceTypeIds)
            (if d.isInterface then compositeTypeIds else compositeTypeIds ++ [typeId])

/-- Modelled from the spec: `visitNestedDeclarations` (not among the
given sources), processing the nested composite declarations and then
the nested interface declarations, returning the nested-declaration
map and the produced interface and composite type ids. -/
def visitNestedDeclarations (compositeKind : CompositeKind)
    (declarationKind : DeclarationKind)
    (compositeDeclarations interfaceDeclarations : List NestedDeclaration) :
    Check (List (String × NestedDeclaration) × List Nat × List Nat) := do
  let _ := compositeKind
  let _ := declarationKind
  let (declMap1, interfaceTypeIds1, compositeTypeIds1) ←
    visitNestedDeclarationsLoop compositeDeclarations [] [] []
  visitNestedDeclarationsLoop interfaceDeclarations declMap1
    interfaceTypeIds1 compositeTypeIds1

/-- The attach loops of `declareInterfaceDeclaration` (source lines
208–216): insert each produced nested type into the enclosing
interface type's nested-type map under its identifier, and set its
container back-reference to the enclosing interface type. -/
def attachNestedTypes (enclosingTypeId : Nat) : List Nat → Check Unit
  | [] => Check.pure ()
  | typeId :: rest => do
      let nestedData ← heapGet typeId
      heapModify enclosingTypeId fun d =>
        { d with nestedTypes := insertAssoc d.nestedTypes nestedData.identifier typeId }
      heapModify typeId fun d => { d with containerType := some enclosingTypeId }
      attachNestedTypes enclosingTypeId rest

/-- The translation of `declareInterfaceDeclaration` (phase 1): build a
placeholder interface type, declare its identifier in the enclosing
type scope (reporting a collision), record the occurrence, process the
nested declarations inside a fresh type and value scope — popped on
every exit path by the deferred `Leave` calls — attach the nested
types, and record the declaration-to-type association. -/
def declareInterfaceDeclaration (declaration : InterfaceDeclaration) : Check Nat := do
  let identifier := declaration.identifier
  -- NOTE: fields and functions might already refer to the interface itself,
  -- so a placeholder type is inserted first and fixed up in phase 2
  let interfaceTypeId ← allocType
    { isInterface := true,
      identifier := identifier.identifier,
      compositeKind := declaration.compositeKind,
      nestedTypes := [],
      containerType := none,
      members := none,
      initializerParameterTypeAnnotations := none }
  let errOpt ← typeActivationsDeclareType identifier interfaceTypeId
    declaration.declarationKind declaration.access
  report errOpt
  recordVariableDeclarationOccurrence identifier.identifier interfaceTypeId
  typeActivationsEnter
  valueActivationsEnter
  withDeferred
    (do
      let (nestedDeclarations, nestedInterfaceTypeIds, nestedCompositeTypeIds) ←
        visitNestedDeclarations declaration.compositeKind
          declaration.declarationKind
          declaration.compositeDeclarations
          declaration.interfaceDeclarations
      modifyState fun s =>
        { s with interfaceNestedDeclarations :=
            (insertAssoc s.interfaceNestedDeclarations declaration.declId
              nestedDeclarations) }
      attachNestedTypes interfaceTypeId nestedInterfaceTypeIds
      attachNestedTypes interfaceTypeId nestedCompositeTypeIds)
    (fun s => typeActivationsLeaveState (valueActivationsLeaveState s))
  modifyState fun s =>
    { s with interfaceDeclarationTypes :=
        insertAssoc s.interfaceDeclarationTypes declaration.declId interfaceTypeId }
  Check.pure interfaceTypeId

/-- The nested-type declaration loop of `VisitInterfaceDeclaration`
(source lines 43–61): for every nested type of the interface type, look
up its recorded nested declaration; a declaration that cannot be found
is a nil dereference, a declaration without an identifier hits the
`should be impossible` branch and panics with an unreachable error;
otherwise the nested type is declared in the current scope and a
collision is reported. -/
def declareNestedTypesLoop (nestedTypes : List (String × Nat))
    (nestedDeclarations : List (String × NestedDeclaration)) : Check Unit :=
  match nestedTypes with
  | [] => Check.pure ()
  | (name, nestedTypeId) :: rest => do
      match lookupAssoc nestedDeclarations name with
      | none => fault .nilDereference
      | some nestedDeclaration =>
          match nestedDeclaration.identifier with
          | none =>
              -- It should be impossible to have a nested declaration
              -- that does not have an identifier
              fault .unreachableError
          | some identifier => do
              let errOpt ← typeActivationsDeclareType identifier nestedTypeId
                nestedDeclaration.declarationKind nestedDeclaration.access
              report errOpt
              declareNestedTypesLoop rest nestedDeclarations

/-- The per-function body of `checkInterfaceFunctions`: a fresh value
scope is entered and left on every exit path, `self` is declared, the
function declaration is visited, and — only when the function has a
body — the interface body-shape rule is applied to it. -/
def checkInterfaceFunction (function : FunctionDeclaration)
    (interfaceTypeId : Nat) (inResource : Bool)
    (declarationKind : DeclarationKind) : Check Unit := do
  -- NOTE: new activation, as function declarations
  -- shouldn't be visible in other function declarations,
  -- and `self` is only visible inside the function
  valueActivationsEnter
  withDeferred
    (do
      declareSelfValue interfaceTypeId
      reportAll (visitFunctionDeclaration function
        { mustExit := false,
          declareFunction := false,
          checkResourceLoss := false,
          allowAuthAccessModifier := inResource })
      match function.functionBlock with
      | some block =>
          reportAll (checkInterfaceSpecialFunctionBlock block declarationKind
            .functionKind)
      | none => Check.pure ())
    valueActivationsLeaveState

/-- The loop of `checkInterfaceFunctions` over the declared functions. -/
def checkInterfaceFunctionsLoop (functions : List FunctionDeclaration)
    (interfaceTypeId : Nat) (inResource : Bool)
    (declarationKind : DeclarationKind) : Check Unit :=
  match functions with
  | [] => Check.pure ()
  | function :: rest => do
      checkInterfaceFunction function interfaceTypeId inResource declarationKind
      checkInterfaceFunctionsLoop rest interfaceTypeId inResource declarationKind

/-- The translation of `checkInterfaceFunctions`: auth access is
allowed on functions exactly when the interface type's composite kind
is the resource kind, and each function is checked in its own value
scope. -/
def checkInterfaceFunctions (functions : List FunctionDeclaration)
    (interfaceTypeId : Nat) (declarationKind : DeclarationKind) : Check Unit := do
  let tyData ← heapGet interfaceTypeId
  let inResource := tyData.compositeKind = .resourceKind
  checkInterfaceFunctionsLoop functions interfaceTypeId inResource declarationKind

/-- The part of `VisitInterfaceDeclaration` that runs inside the nested
type scope (source lines 41–118): declare the nested types, compute and
set the member set, the initializer parameter type annotations and the
member origins, then run the member checks. -/
def visitInterfaceDeclarationInner (declaration : InterfaceDeclaration)
    (interfaceTypeId : Nat) : Check Unit := do
  let interfaceTypeData ← heapGet interfaceTypeId
  let s ← getState
  let nestedDeclarations :=
    (lookupAssoc s.interfaceNestedDeclarations declaration.declId).getD []
  declareNestedTypesLoop interfaceTypeData.nestedTypes nestedDeclarations
  -- Check members
  let mo := membersAndOrigins declaration.members.fields
    declaration.members.functions false
  heapModify interfaceTypeId fun d => { d with members := some mo.1 }
  let parameterTypeAnnots :=
    initializerParameterTypeAnnotationsOf declaration.members.initializers
  heapModify interfaceTypeId fun d =>
    { d with initializerParameterTypeAnnotations := some parameterTypeAnnots }
  modifyState fun st =>
    { st with memberOrigins := insertAssoc st.memberOrigins interfaceTypeId mo.2 }
  reportAll (checkInitializers declaration.members.initializers
    declaration.members.fields declaration.declarationKind
    declaration.identifier.identifier parameterTypeAnnots .interfaceContainer)
  reportAll (checkDestructors declaration.members.destructors
    declaration.members.fieldsByIdentifier mo.1 declaration.compositeKind
    declaration.declarationKind declaration.identifier.identifier
    .interfaceContainer)
  reportAll (checkUnknownSpecialFunctions declaration.members.specialFunctions)
  checkInterfaceFunctions declaration.members.functions interfaceTypeId
    declaration.declarationKind
  reportAll (checkResourceFieldNesting declaration.members.fieldsByIdentifier
    mo.1 declaration.compositeKind)
  reportAll (checkCompositeDeclarationSupport declaration.compositeKind
    declaration.declarationKind declaration.identifier)

/-- The body of `VisitInterfaceDeclaration` between the two outer
`defer`s: the access and identifier checks, then the nested type scope
is entered — and left on every exit path — around the inner part. -/
def visitInterfaceDeclarationBody (declaration : InterfaceDeclaration)
    (interfaceTypeId : Nat) : Check Unit := do
  reportAll (checkDeclarationAccessModifier declaration.access
    declaration.declarationKind declaration.startPos true false)
  -- NOTE: functions are checked separately
  reportAll (checkFieldsAccessModifier declaration.members.fields)
  reportAll (checkNestedIdentifiers declaration.members.fields
    declaration.members.functions declaration.interfaceDeclarations
    declaration.compositeDeclarations)
  -- Activate new scope for nested types
  typeActivationsEnter
  withDeferred (visitInterfaceDeclarationInner declaration interfaceTypeId)
    typeActivationsLeaveState

/-- The translation of `VisitInterfaceDeclaration` (phase 2): look up
the interface type produced by phase 1 — a missing association is a nil
dereference at the first use of the nil type in Go, modelled as an
immediate nil-dereference fault — set the container-checking flag for
it, and run the body with the deferred flag clearing applied on every
exit path, normal or panicking. -/
def VisitInterfaceDeclaration (declaration : InterfaceDeclaration) : Check Unit := do
  let s0 ← getState
  match lookupAssoc s0.interfaceDeclarationTypes declaration.declId with
  | none => fault .nilDereference
  | some interfaceTypeId => do
      modifyState (setContainerFlag interfaceTypeId true)
      withDeferred (visitInterfaceDeclarationBody declaration interfaceTypeId)
        (setContainerFlag interfaceTypeId false)


/-- The interpreter context threaded through every visit; opaque to the
visitor mechanism. -/
structure Interpreter where
  contextId : Nat
  deriving DecidableEq, Repr

/-- The closed set of runtime value variants (`interpreter.Value`).
Leaf variants carry (simplified) payloads; the four container variants
— array, composite record, dictionary, optional-present — carry their
children: array elements in index order, composite fields in
declaration order, dictionary entries in entry order, and the single
wrapped value. -/
inductive Value where
  | typeValue
  | voidValue
  | boolValue (b : Bool)
  | stringValue (s : String)
  | arrayValue (values : List Value)
  | intValue (i : Int)
  | int8Value (i : Int)
  | int16Value (i : Int)
  | int32Value (i : Int)
  | int64Value (i : Int)
  | int128Value (i : Int)
  | int256Value (i : Int)
  | uintValue (n : Nat)
  | uint8Value (n : Nat)
  | uint16Value (n : Nat)
  | uint32Value (n : Nat)
  | uint64Value (n : Nat)
  | uint128Value (n : Nat)
  | uint256Value (n : Nat)
  | word8Value (n : Nat)
  | word16Value (n : Nat)
  | word32Value (n : Nat)
  | word64Value (n : Nat)
  | fix64Value (i : Int)
  | ufix64Value (n : Nat)
  | compositeValue (fields : List (String × Value))
  | dictionaryValue (entries : List (Value × Value))
  | nilValue
  | someValue (value : Value)
  | storageReferenceValue
  | ephemeralReferenceValue
  | addressValue (n : Nat)
  | authAccountValue
  | publicAccountValue
  | pathValue (domain : String) (identifier : String)
  | capabilityValue
  | linkValue
  | interpretedFunctionValue
  | hostFunctionValue
  | boundFunctionValue
  | authAccountContractsValue
  | deployedContractValue

/-- The capability record of optional per-variant callback slots
(`interpreter.EmptyVisitor`): one slot per value variant, each
defaulting to unset.  The Go callbacks receive the variant-specific
value; here each receives the dispatched `Value`, whose variant the
dispatcher guarantees.  Leaf callbacks produce an effect of type `E`
(their Go counterparts return nothing and act by side effect); the four
container callbacks return the continuation decision. -/
structure EmptyVisitor (E : Type) where
  valueVisitor : Option (Interpreter → Value → E) := none
  typeValueVisitor : Option (Interpreter → Value → E) := none
  voidValueVisitor : Option (Interpreter → Value → E) := none
  boolValueVisitor : Option (Interpreter → Value → E) := none
  stringValueVisitor : Option (Interpreter → Value → E) := none
  intValueVisitor : Option (Interpreter → Value → E) := none
  int8ValueVisitor : Option (Interpreter → Value → E) := none
  int16ValueVisitor : Option (Interpreter → Value → E) := none
  int32ValueVisitor : Option (Interpreter → Value → E) := none
  int64ValueVisitor : Option (Interpreter → Value → E) := none
  int128ValueVisitor : Option (Interpreter → Value → E) := none
  int256ValueVisitor : Option (Interpreter → Value → E) := none
  uintValueVisitor : Option (Interpreter → Value → E) := none
  uint8ValueVisitor : Option (Interpreter → Value → E) := none
  uint16ValueVisitor : Option (Interpreter → Value → E) := none
  uint32ValueVisitor : Option (Interpreter → Value → E) := none
  uint64ValueVisitor : Option (Interpreter → Value → E) := none
  uint128ValueVisitor : Option (Interpreter → Value → E) := none
  uint256ValueVisitor : Option (Interpreter → Value → E) := none
  word8ValueVisitor : Option (Interpreter → Value → E) := none
  word16ValueVisitor : Option (Interpreter → Value → E) := none
  word32ValueVisitor : Option (Interpreter → Value → E) := none
  word64ValueVisitor : Option (Interpreter → Value → E) := none
  fix64ValueVisitor : Option (Interpreter → Value → E) := none
  ufix64ValueVisitor : Option (Interpreter → Value → E) := none
  nilValueVisitor : Option (Interpreter → Value → E) := none
  storageReferenceValueVisitor : Option (Interpreter → Value → E) := none
  ephemeralReferenceValueVisitor : Option (Interpreter → Value → E) := none
  addressValueVisitor : Option (Interpreter → Value → E) := none
  authAccountValueVisitor : Option (Interpreter → Value → E) := none
  publicAccountValueVisitor : Option (Interpreter → Value → E) := none
  pathValueVisitor : Option (Interpreter → Value → E) := none
  capabilityValueVisitor : Option (Interpreter → Value → E) := none
  linkValueVisitor : Option (Interpreter → Value → E) := none
  interpretedFunctionValueVisitor : Option (Interpreter → Value → E) := none
  hostFunctionValueVisitor : Option (Interpreter → Value → E) := none
  boundFunctionValueVisitor : Option (Interpreter → Value → E) := none
  authAccountContractsValueVisitor : Option (Interpreter → Value → E) := none
  deployedContractValueVisitor : Option (Interpreter → Value → E) := none
  arrayValueVisitor : Option (Interpreter → Value → Bool) := none
  compositeValueVisitor : Option (Interpreter → Value → Bool) := none
  dictionaryValueVisitor : Option (Interpreter → Value → Bool) := none
  someValueVisitor : Option (Interpreter → Value → Bool) := none

/-- The all-default empty visitor: every slot unset. -/
def EmptyVisitor.empty {E : Type} : EmptyVisitor E := {}

/-- The translation of `EmptyVisitor.VisitValue`: an unset slot is a
no-op that calls nothing (result `none`); a set slot is invoked with
exactly the interpreter and value arguments. -/
def EmptyVisitor.visitValue {E : Type} (v : EmptyVisitor E)
    (interpreter : Interpreter) (value : Value) : Option E :=
  match v.valueVisitor with
  | none => none
  | some f => some (f interpreter value)

/-- The translation of `EmptyVisitor.VisitTypeValue`: an unset slot is a
no-op that calls nothing (result `none`); a set slot is invoked with
exactly the interpreter and value arguments. -/
def EmptyVisitor.visitTypeValue {E : Type} (v : EmptyVisitor E)
    (interpreter : Interpreter) (value : Value) : Option E :=
  match v.typeValueVisitor with
  | none => none
  | some f => some (f interpreter value)

/-- The translation of `EmptyVisitor.VisitVoidValue`: an unset slot is a
no-op that calls nothing (result `none`); a set slot is invoked with
exactly the interpreter and value arguments. -/
def EmptyVisitor.visitVoidValue {E : Type} (v : EmptyVisitor E)
    (interpreter : Interpreter) (value : Value) : Option E :=
  match v.voidValueVisitor with
  | none => none
  | some f => some (f interpreter value)

/-- The translation of `EmptyVisitor.VisitBoolValue`: an unset slot is a
no-op that calls nothing (result `none`); a set slot is invoked with
exactly the interpreter and value arguments. -/
def EmptyVisitor.visitBoolValue {E : Type} (v : EmptyVisitor E)
    (interpreter : Interpreter) (value : Value) : Option E :=
  match v.boolValueVisitor with
  | none => none
  | some f => some (f interpreter value)

/-- The translation of `EmptyVisitor.VisitStringValue`: an unset slot is a
no-op that calls nothing (result `none`); a set slot is invoked with
exactly the interpreter and value arguments. -/
def EmptyVisitor.visitStringValue {E : Type} (v : EmptyVisitor E)
    (interpreter : Interpreter) (value : Value) : Option E :=
  match v.stringValueVisitor with
  | none => none
  | some f => some (f interpreter value)

/-- The translation of `EmptyVisitor.VisitIntValue`: an unset slot is a
no-op that calls nothing (result `none`); a set slot is invoked with
exactly the interpreter and value arguments. -/
def EmptyVisitor.visitIntValue {E : Type} (v : EmptyVisitor E)
    (interpreter : Interpreter) (value : Value) : Option E :=
  match v.intValueVisitor with
  | none => none
  | some f => some (f interpreter value)

/-- The translation of `EmptyVisitor.VisitInt8Value`: an unset slot is a
no-op that calls nothing (result `none`); a set slot is invoked with
exactly the interpreter and value arguments. -/
def EmptyVisitor.visitInt8Value {E : Type} (v : EmptyVisitor E)
    (interpreter : Interpreter) (value : Value) : Option E :=
  match v.int8ValueVisitor with
  | none => none
  | some f => some (f interpreter value)

/-- The translation of `EmptyVisitor.VisitInt16Value`: an unset slot is a
no-op that calls nothing (result `none`); a set slot is invoked with
exactly the interpreter and value arguments. -/
def EmptyVisitor.visitInt16Value {E : Type} (v : EmptyVisitor E)
    (interpreter : Interpreter) (value : Value) : Option E :=
  match v.int16ValueVisitor with
  | none => none
  | some f => some (f interpreter value)

/-- The translation of `EmptyVisitor.VisitInt32Value`: an unset slot is a
no-op that calls nothing (result `none`); a set slot is invoked with
exactly the interpreter and value arguments. -/
def EmptyVisitor.visitInt32Value {E : Type} (v : EmptyVisitor E)
    (interpreter : Interpreter) (value : Value) : Option E :=
  match v.int32ValueVisitor with
  | none => none
  | some f => some (f interpreter value)

/-- The translation of `EmptyVisitor.VisitInt64Value`: an unset slot is a
no-op that calls nothing (result `none`); a set slot is invoked with
exactly the interpreter and value arguments. -/
def EmptyVisitor.visitInt64Value {E : Type} (v : EmptyVisitor E)
    (interpreter : Interpreter) (value : Value) : Option E :=
  match v.int64ValueVisitor with
  | none => none
  | some f => some (f interpreter value)

/-- The translation of `EmptyVisitor.VisitInt128Value`: an unset slot is a
no-op that calls nothing (result `none`); a set slot is invoked with
exactly the interpreter and value arguments. -/
def EmptyVisitor.visitInt128Value {E : Type} (v : EmptyVisitor E)
    (interpreter : Interpreter) (value : Value) : Option E :=
  match v.int128ValueVisitor with
  | none => none
  | some f => some (f interpreter value)

/-- The translation of `EmptyVisitor.VisitInt256Value`: an unset slot is a
no-op that calls nothing (result `none`); a set slot is invoked with
exactly the interpreter and value arguments. -/
def EmptyVisitor.visitInt256Value {E : Type} (v : EmptyVisitor E)
    (interpreter : Interpreter) (value : Value) : Option E :=
  match v.int256ValueVisitor with
  | none => none
  | some f => some (f interpreter value)

/-- The translation of `EmptyVisitor.VisitUIntValue`: an unset slot is a
no-op that calls nothing (result `none`); a set slot is invoked with
exactly the interpreter and value arguments. -/
def EmptyVisitor.visitUIntValue {E : Type} (v : EmptyVisitor E)
    (interpreter : Interpreter) (value : Value) : Option E :=
  match v.uintValueVisitor with
  | none => none
  | some f => some (f interpreter value)

/-- The translation of `EmptyVisitor.VisitUInt8Value`: an unset slot is a
no-op that calls nothing (result `none`); a set slot is invoked with
exactly the interpreter and value arguments. -/
def EmptyVisitor.visitUInt8Value {E : Type} (v : EmptyVisitor E)
    (interpreter : Interpreter) (value : Value) : Option E :=
  match v.uint8ValueVisitor with
  | none => none
  | some f => some (f interpreter value)

/-- The translation of `EmptyVisitor.VisitUInt16Value`: an unset slot is a
no-op that calls nothing (result `none`); a set slot is invoked with
exactly the interpreter and value arguments. -/
def EmptyVisitor.visitUInt16Value {E : Type} (v : EmptyVisitor E)
    (interpreter : Interpreter) (value : Value) : Option E :=
  match v.uint16ValueVisitor with
  | none => none
  | some f => some (f interpreter value)

/-- The translation of `EmptyVisitor.VisitUInt32Value`: an unset slot is a
no-op that calls nothing (result `none`); a set slot is invoked with
exactly the interpreter and value arguments. -/
def EmptyVisitor.visitUInt32Value {E : Type} (v : EmptyVisitor E)
    (interpreter : Interpreter) (value : Value) : Option E :=
  match v.uint32ValueVisitor with
  | none => none
  | some f => some (f interpreter value)

/-- The translation of `EmptyVisitor.VisitUInt64Value`: an unset slot is a
no-op that calls nothing (result `none`); a set slot is invoked with
exactly the interpreter and value arguments. -/
def EmptyVisitor.visitUInt64Value {E : Type} (v : EmptyVisitor E)
    (interpreter : Interpreter) (value : Value) : Option E :=
  match v.uint64ValueVisitor with
  | none => none
  | some f => some (f interpreter value)

/-- The translation of `EmptyVisitor.VisitUInt128Value`: an unset slot is a
no-op that calls nothing (result `none`); a set slot is invoked with
exactly the interpreter and value arguments. -/
def EmptyVisitor.visitUInt128Value {E : Type} (v : EmptyVisitor E)
    (interpreter : Interpreter) (value : Value) : Option E :=
  match v.uint128ValueVisitor with
  | none => none
  | some f => some (f interpreter value)

/-- The translation of `EmptyVisitor.VisitUInt256Value`: an unset slot is a
no-op that calls nothing (result `none`); a set slot is invoked with
exactly the interpreter and value arguments. -/
def EmptyVisitor.visitUInt256Value {E : Type} (v : EmptyVisitor E)
    (interpreter : Interpreter) (value : Value) : Option E :=
  match v.uint256ValueVisitor with
  | none => none
  | some f => some (f interpreter value)

/-- The translation of `EmptyVisitor.VisitWord8Value`: an unset slot is a
no-op that calls nothing (result `none`); a set slot is invoked with
exactly the interpreter and value arguments. -/
def EmptyVisitor.visitWord8Value {E : Type} (v : EmptyVisitor E)
    (interpreter : Interpreter) (value : Value) : Option E :=
  match v.word8ValueVisitor with
  | none => none
  | some f => some (f interpreter value)

/-- The translation of `EmptyVisitor.VisitWord16Value`: an unset slot is a
no-op that calls nothing (result `none`); a set slot is invoked with
exactly the interpreter and value arguments. -/
def EmptyVisitor.visitWord16Value {E : Type} (v : EmptyVisitor E)
    (interpreter : Interpreter) (value : Value) : Option E :=
  match v.word16ValueVisitor with
  | none => none
  | some f => some (f interpreter value)

/-- The translation of `EmptyVisitor.VisitWord32Value`: an unset slot is a
no-op that calls nothing (result `none`); a set slot is invoked with
exactly the interpreter and value arguments. -/
def EmptyVisitor.visitWord32Value {E : Type} (v : EmptyVisitor E)
    (interpreter : Interpreter) (value : Value) : Option E :=
  match v.word32ValueVisitor with
  | none => none
  | some f => some (f interpreter value)

/-- The translation of `EmptyVisitor.VisitWord64Value`: an unset slot is a
no-op that calls nothing (result `none`); a set slot is invoked with
exactly the interpreter and value arguments. -/
def EmptyVisitor.visitWord64Value {E : Type} (v : EmptyVisitor E)
    (interpreter : Interpreter) (value : Value) : Option E :=
  match v.word64ValueVisitor with
  | none => none
  | some f => some (f interpreter value)

/-- The translation of `EmptyVisitor.VisitFix64Value`: an unset slot is a
no-op that calls nothing (result `none`); a set slot is invoked with
exactly the interpreter and value arguments. -/
def EmptyVisitor.visitFix64Value {E : Type} (v : EmptyVisitor E)
    (interpreter : Interpreter) (value : Value) : Option E :=
  match v.fix64ValueVisitor with
  | none => none
  | some f => some (f interpreter value)

/-- The translation of `EmptyVisitor.VisitUFix64Value`: an unset slot is a
no-op that calls nothing (result `none`); a set slot is invoked with
exactly the interpreter and value arguments. -/
def EmptyVisitor.visitUFix64Value {E : Type} (v : EmptyVisitor E)
    (interpreter : Interpreter) (value : Value) : Option E :=
  match v.ufix64ValueVisitor with
  | none => none
  | some f => some (f interpreter value)

/-- The translation of `EmptyVisitor.VisitNilValue`: an unset slot is a
no-op that calls nothing (result `none`); a set slot is invoked with
exactly the interpreter and value arguments. -/
def EmptyVisitor.visitNilValue {E : Type} (v : EmptyVisitor E)
    (interpreter : Interpreter) (value : Value) : Option E :=
  match v.nilValueVisitor with
  | none => none
  | some f => some (f interpreter value)

/-- The translation of `EmptyVisitor.VisitStorageReferenceValue`: an unset slot is a
no-op that calls nothing (result `none`); a set slot is invoked with
exactly the interpreter and value arguments. -/
def EmptyVisitor.visitStorageReferenceValue {E : Type} (v : EmptyVisitor E)
    (interpreter : Interpreter) (value : Value) : Option E :=
  match v.storageReferenceValueVisitor with
  | none => none
  | some f => some (f interpreter value)

/-- The translation of `EmptyVisitor.VisitEphemeralReferenceValue`: an unset slot is a
no-op that calls nothing (result `none`); a set slot is invoked with
exactly the interpreter and value arguments. -/
def EmptyVisitor.visitEphemeralReferenceValue {E : Type} (v : EmptyVisitor E)
    (interpreter : Interpreter) (value : Value) : Option E :=
  match v.ephemeralReferenceValueVisitor with
  | none => none
  | some f => some (f interpreter value)

/-- The translation of `EmptyVisitor.VisitAddressValue`: an unset slot is a
no-op that calls nothing (result `none`); a set slot is invoked with
exactly the interpreter and value arguments. -/
def EmptyVisitor.visitAddressValue {E : Type} (v : EmptyVisitor E)
    (interpreter : Interpreter) (value : Value) : Option E :=
  match v.addressValueVisitor with
  | none => none
  | some f => some (f interpreter value)

/-- The translation of `EmptyVisitor.VisitAuthAccountValue`: an unset slot is a
no-op that calls nothing (result `none`); a set slot is invoked with
exactly the interpreter and value arguments. -/
def EmptyVisitor.visitAuthAccountValue {E : Type} (v : EmptyVisitor E)
    (interpreter : Interpreter) (value : Value) : Option E :=
  match v.authAccountValueVisitor with
  | none => none
  | some f => some (f interpreter value)

/-- The translation of `EmptyVisitor.VisitPublicAccountValue`: an unset slot is a
no-op that calls nothing (result `none`); a set slot is invoked with
exactly the interpreter and value arguments. -/
def EmptyVisitor.visitPublicAccountValue {E : Type} (v : EmptyVisitor E)
    (interpreter : Interpreter) (value : Value) : Option E :=
  match v.publicAccountValueVisitor with
  | none => none
  | some f => some (f interpreter value)

/-- The translation of `EmptyVisitor.VisitPathValue`: an unset slot is a
no-op that calls nothing (result `none`); a set slot is invoked with
exactly the interpreter and value arguments. -/
def EmptyVisitor.visitPathValue {E : Type} (v : EmptyVisitor E)
    (interpreter : Interpreter) (value : Value) : Option E :=
  match v.pathValueVisitor with
  | none => none
  | some f => some (f interpreter value)

/-- The translation of `EmptyVisitor.VisitCapabilityValue`: an unset slot is a
no-op that calls nothing (result `none`); a set slot is invoked with
exactly the interpreter and value arguments. -/
def EmptyVisitor.visitCapabilityValue {E : Type} (v : EmptyVisitor E)
    (interpreter : Interpreter) (value : Value) : Option E :=
  match v.capabilityValueVisitor with
  | none => none
  | some f => some (f interpreter value)

/-- The translation of `EmptyVisitor.VisitLinkValue`: an unset slot is a
no-op that calls nothing (result `none`); a set slot is invoked with
exactly the interpreter and value arguments. -/
def EmptyVisitor.visitLinkValue {E : Type} (v : EmptyVisitor E)
    (interpreter : Interpreter) (value : Value) : Option E :=
  match v.linkValueVisitor with
  | none => none
  | some f => some (f interpreter value)

/-- The translation of `EmptyVisitor.VisitInterpretedFunctionValue`: an unset slot is a
no-op that calls nothing (result `none`); a set slot is invoked with
exactly the interpreter and value arguments. -/
def EmptyVisitor.visitInterpretedFunctionValue {E : Type} (v : EmptyVisitor E)
    (interpreter : Interpreter) (value : Value) : Option E :=
  match v.interpretedFunctionValueVisitor with
  | none => none
  | some f => some (f interpreter value)

/-- The translation of `EmptyVisitor.VisitHostFunctionValue`: an unset slot is a
no-op that calls nothing (result `none`); a set slot is invoked with
exactly the interpreter and value arguments. -/
def EmptyVisitor.visitHostFunctionValue {E : Type} (v : EmptyVisitor E)
    (interpreter : Interpreter) (value : Value) : Option E :=
  match v.hostFunctionValueVisitor with
  | none => none
  | some f => some (f interpreter value)

/-- The translation of `EmptyVisitor.VisitBoundFunctionValue`: an unset slot is a
no-op that calls nothing (result `none`); a set slot is invoked with
exactly the interpreter and value arguments. -/
def EmptyVisitor.visitBoundFunctionValue {E : Type} (v : EmptyVisitor E)
    (interpreter : Interpreter) (value : Value) : Option E :=
  match v.boundFunctionValueVisitor with
  | none => none
  | some f => some (f interpreter value)

/-- The translation of `EmptyVisitor.VisitAuthAccountContractsValue`: an unset slot is a
no-op that calls nothing (result `none`); a set slot is invoked with
exactly the interpreter and value arguments. -/
def EmptyVisitor.visitAuthAccountContractsValue {E : Type} (v : EmptyVisitor E)
    (interpreter : Interpreter) (value : Value) : Option E :=
  match v.authAccountContractsValueVisitor with
  | none => none
  | some f => some (f interpreter value)

/-- The translation of `EmptyVisitor.VisitDeployedContractValue`: an unset slot is a
no-op that calls nothing (result `none`); a set slot is invoked with
exactly the interpreter and value arguments. -/
def EmptyVisitor.visitDeployedContractValue {E : Type} (v : EmptyVisitor E)
    (interpreter : Interpreter) (value : Value) : Option E :=
  match v.deployedContractValueVisitor with
  | none => none
  | some f => some (f interpreter value)

/-- The translation of `EmptyVisitor.VisitArrayValue`: an unset slot means
continue (`true`); a set slot is invoked with exactly the interpreter
and value arguments and its result is returned unchanged. -/
def EmptyVisitor.visitArrayValue {E : Type} (v : EmptyVisitor E)
    (interpreter : Interpreter) (value : Value) : Bool :=
  match v.arrayValueVisitor with
  | none => true
  | some f => f interpreter value

/-- The translation of `EmptyVisitor.VisitCompositeValue`: an unset slot means
continue (`true`); a set slot is invoked with exactly the interpreter
and value arguments and its result is returned unchanged. -/
def EmptyVisitor.visitCompositeValue {E : Type} (v : EmptyVisitor E)
    (interpreter : Interpreter) (value : Value) : Bool :=
  match v.compositeValueVisitor with
  | none => true
  | some f => f interpreter value

/-- The translation of `EmptyVisitor.VisitDictionaryValue`: an unset slot means
continue (`true`); a set slot is invoked with exactly the interpreter
and value arguments and its result is returned unchanged. -/
def EmptyVisitor.visitDictionaryValue {E : Type} (v : EmptyVisitor E)
    (interpreter : Interpreter) (value : Value) : Bool :=
  match v.dictionaryValueVisitor with
  | none => true
  | some f => f interpreter value

/-- The translation of `EmptyVisitor.VisitSomeValue`: an unset slot means
continue (`true`); a set slot is invoked with exactly the interpreter
and value arguments and its result is returned unchanged. -/
def EmptyVisitor.visitSomeValue {E : Type} (v : EmptyVisitor E)
    (interpreter : Interpreter) (value : Value) : Bool :=
  match v.someValueVisitor with
  | none => true
  | some f => f interpreter value

/-- The leaf half of double dispatch: route a leaf value to the visit
method of its exact variant.  Container variants are dispatched by
`accept` itself and yield `none` here. -/
def leafDispatch {E : Type} (vis : EmptyVisitor E) (interpreter : Interpreter)
    (value : Value) : Option E :=
  match value with
  | .typeValue => vis.visitTypeValue interpreter value
  | .voidValue => vis.visitVoidValue interpreter value
  | .boolValue _ => vis.visitBoolValue interpreter value
  | .stringValue _ => vis.visitStringValue interpreter value
  | .intValue _ => vis.visitIntValue interpreter value
  | .int8Value _ => vis.visitInt8Value interpreter value
  | .int16Value _ => vis.visitInt16Value interpreter value
  | .int32Value _ => vis.visitInt32Value interpreter value
  | .int64Value _ => vis.visitInt64Value interpreter value
  | .int128Value _ => vis.visitInt128Value interpreter value
  | .int256Value _ => vis.visitInt256Value interpreter value
  | .uintValue _ => vis.visitUIntValue interpreter value
  | .uint8Value _ => vis.visitUInt8Value interpreter value
  | .uint16Value _ => vis.visitUInt16Value interpreter value
  | .uint32Value _ => vis.visitUInt32Value interpreter value
  | .uint64Value _ => vis.visitUInt64Value interpreter value
  | .uint128Value _ => vis.visitUInt128Value interpreter value
  | .uint256Value _ => vis.visitUInt256Value interpreter value
  | .word8Value _ => vis.visitWord8Value interpreter value
  | .word16Value _ => vis.visitWord16Value interpreter value
  | .word32Value _ => vis.visitWord32Value interpreter value
  | .word64Value _ => vis.visitWord64Value interpreter value
  | .fix64Value _ => vis.visitFix64Value interpreter value
  | .ufix64Value _ => vis.visitUFix64Value interpreter value
  | .nilValue => vis.visitNilValue interpreter value
  | .storageReferenceValue => vis.visitStorageReferenceValue interpreter value
  | .ephemeralReferenceValue => vis.visitEphemeralReferenceValue interpreter value
  | .addressValue _ => vis.visitAddressValue interpreter value
  | .authAccountValue => vis.visitAuthAccountValue interpreter value
  | .publicAccountValue => vis.visitPublicAccountValue interpreter value
  | .pathValue _ _ => vis.visitPathValue interpreter value
  | .capabilityValue => vis.visitCapabilityValue interpreter value
  | .linkValue => vis.visitLinkValue interpreter value
  | .interpretedFunctionValue => vis.visitInterpretedFunctionValue interpreter value
  | .hostFunctionValue => vis.visitHostFunctionValue interpreter value
  | .boundFunctionValue => vis.visitBoundFunctionValue interpreter value
  | .authAccountContractsValue => vis.visitAuthAccountContractsValue interpreter value
  | .deployedContractValue => vis.visitDeployedContractValue interpreter value
  | .arrayValue _ => none
  | .compositeValue _ => none
  | .dictionaryValue _ => none
  | .someValue _ => none

/- Modelled from the spec: the `Accept` methods of the value variants
(spec section 4.1; the methods themselves are not among the given
sources), instantiated at the capability-record visitor and returning
the trace of dispatched values in callback-fire order.  A leaf value
dispatches to its variant's visit method and offers no children.  A
container value dispatches first; if the callback decides to continue
— the default — the traversal recurses into each child in declared
order via the mutual helpers, otherwise the subtree is pruned. -/
mutual

def accept {E : Type} (interpreter : Interpreter) (vis : EmptyVisitor E)
    (value : Value) : List Value :=
  match value with
  | .arrayValue values =>
      let descend := vis.visitArrayValue interpreter (.arrayValue values)
      .arrayValue values ::
        (if descend then acceptList interpreter vis values else [])
  | .compositeValue fields =>
      let descend := vis.visitCompositeValue interpreter (.compositeValue fields)
      .compositeValue fields ::
        (if descend then acceptFields interpreter vis fields else [])
  | .dictionaryValue entries =>
      let descend := vis.visitDictionaryValue interpreter (.dictionaryValue entries)
      .dictionaryValue entries ::
        (if descend then acceptEntries interpreter vis entries else [])
  | .someValue inner =>
      let descend := vis.visitSomeValue interpreter (.someValue inner)
      .someValue inner ::
        (if descend then accept interpreter vis inner else [])
  | leaf =>
      let _ := leafDispatch vis interpreter leaf
      [leaf]

def acceptList {E : Type} (interpreter : Interpreter) (vis : EmptyVisitor E) :
    List Value → List Value
  | [] => []
  | v :: rest => accept interpreter vis v ++ acceptList interpreter vis rest

def acceptFields {E : Type} (interpreter : Interpreter) (vis : EmptyVisitor E) :
    List (String × Value) → List Value
  | [] => []
  | (_, v) :: rest => accept interpreter vis v ++ acceptFields interpreter vis rest

def acceptEntries {E : Type} (interpreter : Interpreter) (vis : EmptyVisitor E) :
    List (Value × Value) → List Value
  | [] => []
  | (k, v) :: rest =>
      accept interpreter vis k ++ accept interpreter vis v
        ++ acceptEntries interpreter vis rest

end

/-- The children of a value, in the declared order the spec fixes:
array elements in index order, composite fields in declaration order,
dictionary entries in entry order (key before value), the wrapped value
of an optional-present; every other variant is a leaf. -/
def children : Value → List Value
  | .arrayValue values => values
  | .compositeValue fields => fields.map Prod.snd
  | .dictionaryValue entries => entries.flatMap fun kv => [kv.1, kv.2]
  | .someValue inner => [inner]
  | _ => []

/- The preorder traversal sequence written from the spec's words, for
comparison with the dispatcher: every reachable node of the subtree
appears exactly once, a container before its children, and children in
their declared order — array index order, field declaration order,
dictionary entry order (key before value), then the wrapped value. -/
mutual

def preorderSpec : Value → List Value
  | .arrayValue values => .arrayValue values :: preorderSpecList values
  | .compositeValue fields => .compositeValue fields :: preorderSpecFields fields
  | .dictionaryValue entries => .dictionaryValue entries :: preorderSpecEntries entries
  | .someValue inner => .someValue inner :: preorderSpec inner
  | leaf => [leaf]

def preorderSpecList : List Value → List Value
  | [] => []
  | v :: rest => preorderSpec v ++ preorderSpecList rest

def preorderSpecFields : List (String × Value) → List Value
  | [] => []
  | (_, v) :: rest => preorderSpec v ++ preorderSpecFields rest

def preorderSpecEntries : List (Value × Value) → List Value
  | [] => []
  | (k, v) :: rest => preorderSpec k ++ preorderSpec v ++ preorderSpecEntries rest

end

/- The number of reachable nodes of a value's subtree. -/
mutual

def nodeCount : Value → Nat
  | .arrayValue values => 1 + nodeCountList values
  | .compositeValue fields => 1 + nodeCountFields fields
  | .dictionaryValue entries => 1 + nodeCountEntries entries
  | .someValue inner => 1 + nodeCount inner
  | _ => 1

def nodeCountList : List Value → Nat
  | [] => 0
  | v :: rest => nodeCount v + nodeCountList rest

def nodeCountFields : List (String × Value) → Nat
  | [] => 0
  | (_, v) :: rest => nodeCount v + nodeCountFields rest

def nodeCountEntries : List (Value × Value) → Nat
  | [] => 0
  | (k, v) :: rest => nodeCount k + nodeCount v + nodeCountEntries rest

end

/-- Whether a diagnostic is a destructor-consistency diagnostic. -/
def CheckerError.isDestructorConsistencyDiag : CheckerError → Bool
  | .destructorConsistency _ _ => true
  | _ => false

/-- Whether a diagnostic is an identifier-collision (redeclaration)
diagnostic. -/
def CheckerError.isRedeclarationDiag : CheckerError → Bool
  | .redeclaration _ _ _ => true
  | _ => false

/-- Whether a diagnostic is an invalid-implementation diagnostic. -/
def CheckerError.isInvalidImplementationDiag : CheckerError → Bool
  | .invalidImplementation _ _ _ => true
  | _ => false

/-- The state after the access and identifier checks of phase 2 and the
entry into the nested type scope: the three diagnostic batches are
appended and a fresh scope is pushed. -/
def phase2PreState (declaration : InterfaceDeclaration) (s : CheckerState) :
    CheckerState :=
  { s with
      diagnostics := s.diagnostics
        ++ checkDeclarationAccessModifier declaration.access
            declaration.declarationKind declaration.startPos true false
        ++ checkFieldsAccessModifier declaration.members.fields
        ++ checkNestedIdentifiers declaration.members.fields
            declaration.members.functions declaration.interfaceDeclarations
            declaration.compositeDeclarations,
      typeActivations := [] :: s.typeActivations }

/-- The diagnostics contributed for one interface function by
`checkInterfaceFunction`: the function visit itself, then — only when
the function has a body — the interface body-shape rule. -/
def interfaceFunctionDiags (function : FunctionDeclaration)
    (inResource : Bool) (declarationKind : DeclarationKind) : List CheckerError :=
  visitFunctionDeclaration function
    { mustExit := false, declareFunction := false, checkResourceLoss := false,
      allowAuthAccessModifier := inResource }
    ++ match function.functionBlock with
       | some block =>
          checkInterfaceSpecialFunctionBlock block declarationKind .functionKind
       | none => []

/-- The diagnostics contributed by `checkInterfaceFunctions` for a list
of functions. -/
def interfaceFunctionsDiags (functions : List FunctionDeclaration)
    (inResource : Bool) (declarationKind : DeclarationKind) : List CheckerError :=
  functions.flatMap fun f => interfaceFunctionDiags f inResource declarationKind

/-- The pure mirror of the nested-type declaration loop of phase 2:
given the nested types, the recorded nested declarations and the
current scope, it returns the final scope, the collision diagnostics in
order, and the internal fault, if any, that stops the loop. -/
def declareNestedPure : List (String × Nat) → List (String × NestedDeclaration) →
    List (String × Nat) →
    List (String × Nat) × List CheckerError × Option InternalError
  | [], _, scope => (scope, [], none)
  | (name, nestedTypeId) :: rest, nestedDeclarations, scope =>
      match lookupAssoc nestedDeclarations name with
      | none => (scope, [], some .nilDereference)
      | some d =>
          match d.identifier with
          | none => (scope, [], some .unreachableError)
          | some idf =>
              let errs : List CheckerError :=
                match lookupAssoc scope idf.identifier with
                | some _ =>
                    [.redeclaration d.declarationKind idf.identifier idf.pos]
                | none => []
              let r := declareNestedPure rest nestedDeclarations
                (insertAssoc scope idf.identifier nestedTypeId)
              (r.1, errs ++ r.2.1, r.2.2)

/-- The diagnostics of the member checks of phase 2 (everything after
the nested-type declaration loop), as one pure list. -/
def phase2MemberDiags (declaration : InterfaceDeclaration) (tyData : TypeData) :
    List CheckerError :=
  let mo := membersAndOrigins declaration.members.fields
    declaration.members.functions false
  let parameterTypeAnnots :=
    initializerParameterTypeAnnotationsOf declaration.members.initializers
  checkInitializers declaration.members.initializers declaration.members.fields
      declaration.declarationKind declaration.identifier.identifier
      parameterTypeAnnots .interfaceContainer
    ++ checkDestructors declaration.members.destructors
        declaration.members.fieldsByIdentifier mo.1 declaration.compositeKind
        declaration.declarationKind declaration.identifier.identifier
        .interfaceContainer
    ++ checkUnknownSpecialFunctions declaration.members.specialFunctions
    ++ interfaceFunctionsDiags declaration.members.functions
        (tyData.compositeKind = .resourceKind) declaration.declarationKind
    ++ checkResourceFieldNesting declaration.members.fieldsByIdentifier mo.1
        declaration.compositeKind
    ++ checkCompositeDeclarationSupport declaration.compositeKind
        declaration.declarationKind declaration.identifier

/-- The diagnostics emitted by one whole successful phase-2 run. -/
def phase2Diags (declaration : InterfaceDeclaration) (tyData : TypeData)
    (nestedDeclarations : List (String × NestedDeclaration)) : List CheckerError :=
  checkDeclarationAccessModifier declaration.access declaration.declarationKind
      declaration.startPos true false
    ++ checkFieldsAccessModifier declaration.members.fields
    ++ checkNestedIdentifiers declaration.members.fields
        declaration.members.functions declaration.interfaceDeclarations
        declaration.compositeDeclarations
    ++ (declareNestedPure tyData.nestedTypes nestedDeclarations []).2.1
    ++ phase2MemberDiags declaration tyData

/-- The final state of a successful phase-2 run started from `s`. -/
def phase2OkState (declaration : InterfaceDeclaration) (interfaceTypeId : Nat)
    (tyData : TypeData) (s : CheckerState) : CheckerState :=
  let mo := membersAndOrigins declaration.members.fields
    declaration.members.functions false
  let parameterTypeAnnots :=
    initializerParameterTypeAnnotationsOf declaration.members.initializers
  let nestedDeclarations :=
    (lookupAssoc s.interfaceNestedDeclarations declaration.declId).getD []
  { s with
      containerTypes := insertAssoc s.containerTypes interfaceTypeId false,
      typeHeap := insertAssoc s.typeHeap interfaceTypeId
        { tyData with
            members := some mo.1,
            initializerParameterTypeAnnotations := some parameterTypeAnnots },
      memberOrigins := insertAssoc s.memberOrigins interfaceTypeId mo.2,
      diagnostics := s.diagnostics
        ++ phase2Diags declaration tyData nestedDeclarations }


/-- The placeholder type record phase 1 creates for a nested
declaration with the given identifier. -/
def freshNestedRecord (d : NestedDeclaration) (i : Identifier) : TypeData :=
  { isInterface := d.isInterface, identifier := i.identifier,
    compositeKind := d.compositeKind, nestedTypes := [],
    containerType := none, members := none,
    initializerParameterTypeAnnotations := none }

/-- The id/declaration/identifier triples allocated by the phase-1
nested loop starting at the given fresh type id: one per identified
nested declaration, with consecutive ids. -/
def allocPairs : Nat → List NestedDeclaration →
    List (Nat × NestedDeclaration × Identifier)
  | _, [] => []
  | n, d :: rest =>
      match d.identifier with
      | none => allocPairs n rest
      | some i => (n, d, i) :: allocPairs (n + 1) rest

/-- The heap after allocating the placeholder records of the triples. -/
def heapAfterAlloc (heap : List (Nat × TypeData))
    (pairs : List (Nat × NestedDeclaration × Identifier)) : List (Nat × TypeData) :=
  pairs.foldl (fun h p => insertAssoc h p.1 (freshNestedRecord p.2.1 p.2.2)) heap

/-- The allocated ids of the nested interface declarations. -/
def interfaceIdsOf (pairs : List (Nat × NestedDeclaration × Identifier)) :
    List Nat :=
  (pairs.filter fun p => p.2.1.isInterface).map fun p => p.1

/-- The allocated ids of the nested composite declarations. -/
def compositeIdsOf (pairs : List (Nat × NestedDeclaration × Identifier)) :
    List Nat :=
  (pairs.filter fun p => !p.2.1.isInterface).map fun p => p.1

/-- The id-to-identifier pairing of allocated triples. -/
def idNamesOf (pairs : List (Nat × NestedDeclaration × Identifier)) :
    List (Nat × String) :=
  pairs.map fun p => (p.1, p.2.2.identifier)

/-- The identifiers of the identified declarations of a list. -/
def namesOf (decls : List NestedDeclaration) : List String :=
  decls.filterMap fun nd => nd.identifier.map fun i => i.identifier


/-!
Infrastructure lemmas about the association-list map model and the
checker monad, shared by the claim proofs below.
-/

@[simp]
theorem lookupAssoc_nil {α β : Type} [DecidableEq α] (k : α) :
    lookupAssoc ([] : List (α × β)) k = none := rfl

@[simp]
theorem lookupAssoc_cons {α β : Type} [DecidableEq α] (k2 : α) (v : β) (rest) (k : α) :
    lookupAssoc ((k2, v) :: rest) k = if k2 = k then some v else lookupAssoc rest k := rfl

@[simp]
theorem insertAssoc_nil {α β : Type} [DecidableEq α] (k : α) (v : β) :
    insertAssoc ([] : List (α × β)) k v = [(k, v)] := rfl

@[simp]
theorem insertAssoc_cons {α β : Type} [DecidableEq α] (k2 : α) (v2 : β) (rest) (k : α) (v : β) :
    insertAssoc ((k2, v2) :: rest) k v =
      if k2 = k then (k, v) :: rest else (k2, v2) :: insertAssoc rest k v := rfl

@[simp]
theorem lookupAssoc_insertAssoc_self {α β : Type} [DecidableEq α]
    (m : List (α × β)) (k : α) (v : β) :
    lookupAssoc (insertAssoc m k v) k = some v := by
  induction m with
  | nil => simp
  | cons h t ih =>
      obtain ⟨k2, v2⟩ := h
      by_cases hk : k2 = k <;> simp [hk, ih]

theorem lookupAssoc_insertAssoc_ne {α β : Type} [DecidableEq α]
    (m : List (α × β)) (k k' : α) (v : β) (h : k ≠ k') :
    lookupAssoc (insertAssoc m k v) k' = lookupAssoc m k' := by
  induction m with
  | nil => simp [h]
  | cons hd t ih =>
      obtain ⟨k2, v2⟩ := hd
      by_cases hk : k2 = k
      · subst hk
        simp [h]
      · simp [hk, ih]

theorem insertAssoc_insertAssoc_self {α β : Type} [DecidableEq α]
    (m : List (α × β)) (k : α) (v v' : β) :
    insertAssoc (insertAssoc m k v) k v' = insertAssoc m k v' := by
  induction m with
  | nil => simp
  | cons hd t ih =>
      obtain ⟨k2, v2⟩ := hd
      by_cases hk : k2 = k <;> simp [hk, ih]

@[simp]
theorem bind_eq_Check_bind {α β : Type} (m : Check α) (f : α → Check β) :
    (m >>= f) = Check.bind m f := rfl

@[simp]
theorem pure_eq_Check_pure {α : Type} (a : α) :
    (Pure.pure a : Check α) = Check.pure a := rfl

@[simp]
theorem Check_pure_apply {α : Type} (a : α) (s : CheckerState) :
    Check.pure a s = .ok (a, s) := rfl

theorem Check_bind_apply {α β : Type} (m : Check α) (f : α → Check β) (s : CheckerState) :
    Check.bind m f s =
      match m s with
      | .ok (a, s1) => f a s1
      | .error e => .error e := rfl

theorem Check_bind_ok {α β : Type} {m : Check α} {f : α → Check β} {s s1 : CheckerState}
    {a : α} (h : m s = .ok (a, s1)) :
    Check.bind m f s = f a s1 := by
  simp [Check.bind, h]

theorem Check_bind_error {α β : Type} {m : Check α} {f : α → Check β} {s : CheckerState}
    {e : InternalError × CheckerState} (h : m s = .error e) :
    Check.bind m f s = .error e := by
  simp [Check.bind, h]

@[simp]
theorem getState_apply (s : CheckerState) : getState s = .ok (s, s) := rfl

@[simp]
theorem modifyState_apply (f : CheckerState → CheckerState) (s : CheckerState) :
    modifyState f s = .ok ((), f s) := rfl

@[simp]
theorem fault_apply {α : Type} (e : InternalError) (s : CheckerState) :
    (fault e : Check α) s = .error (e, s) := rfl

@[simp]
theorem reportAll_apply (errs : List CheckerError) (s : CheckerState) :
    reportAll errs s = .ok ((), { s with diagnostics := s.diagnostics ++ errs }) := rfl

theorem allocType_apply (d : TypeData) (s : CheckerState) :
    allocType d s = .ok (s.nextTypeId,
      { s with
          nextTypeId := s.nextTypeId + 1,
          typeHeap := insertAssoc s.typeHeap s.nextTypeId d }) := rfl

theorem typeActivationsDeclareType_apply (identifier : Identifier)
    (typeId : Nat) (kind : DeclarationKind) (access : Access)
    (s : CheckerState) :
    typeActivationsDeclareType identifier typeId kind access s
      = .ok ((lookupAssoc (s.typeActivations.head?.getD [])
            identifier.identifier).map
          (fun _ => .redeclaration kind identifier.identifier identifier.pos),
        { s with typeActivations :=
            (insertAssoc (s.typeActivations.head?.getD []) identifier.identifier
              typeId :: s.typeActivations.tail) }) := by
  cases hcol : lookupAssoc (s.typeActivations.head?.getD [])
      identifier.identifier with
  | none => simp [typeActivationsDeclareType, hcol]
  | some e => simp [typeActivationsDeclareType, hcol]

theorem report_apply (err : Option CheckerError) (s : CheckerState) :
    report err s
      = .ok ((), { s with diagnostics := s.diagnostics ++ err.toList }) := by
  cases err <;> simp [report, reportAll]

theorem withDeferred_apply {α : Type} (body : Check α)
    (finalizer : CheckerState → CheckerState) (s : CheckerState) :
    withDeferred body finalizer s =
      match body s with
      | .ok (a, s1) => .ok (a, finalizer s1)
      | .error (e, s1) => .error (e, finalizer s1) := rfl

/-!
Claim C1: the body-shape rule of `checkInterfaceSpecialFunctionBlock`.
-/

/-- C1: for every interface function block passed to
`checkInterfaceSpecialFunctionBlock`: a block with at least one
statement yields exactly one invalid-implementation diagnostic at the
first statement's start position; a block with no statements and no
pre/post conditions yields exactly one invalid-implementation
diagnostic at the block's start position; a block with no statements
but at least one pre- or post-condition yields zero diagnostics. -/
theorem claim_C1_interface_function_block_shape
    (block : FunctionBlock) (containerKind implementedKind : DeclarationKind) :
    (∀ stmt rest, block.statements = stmt :: rest →
      checkInterfaceSpecialFunctionBlock block containerKind implementedKind
        = [.invalidImplementation stmt.startPos containerKind implementedKind])
    ∧ (block.statements = [] → block.preConditions = [] → block.postConditions = [] →
      checkInterfaceSpecialFunctionBlock block containerKind implementedKind
        = [.invalidImplementation block.startPos containerKind implementedKind])
    ∧ (block.statements = [] →
      (block.preConditions ≠ [] ∨ block.postConditions ≠ []) →
      checkInterfaceSpecialFunctionBlock block containerKind implementedKind = []) := by
  refine ⟨?_, ?_, ?_⟩
  · intro stmt rest h
    simp [checkInterfaceSpecialFunctionBlock, h]
  · intro h1 h2 h3
    simp [checkInterfaceSpecialFunctionBlock, h1, h2, h3]
  · intro h1 h2
    rcases h2 with h2 | h2 <;>
      simp [checkInterfaceSpecialFunctionBlock, h1, List.length_eq_zero, h2]

/-- C1 witness: the three cases of the body-shape rule evaluated at
concrete blocks. -/
theorem claim_C1_witness :
    (checkInterfaceSpecialFunctionBlock
        ⟨[⟨⟨5, 2, 3⟩⟩], [], [], ⟨1, 1, 1⟩⟩
        (.interfaceOf .resourceKind) .functionKind
      = [.invalidImplementation ⟨5, 2, 3⟩ (.interfaceOf .resourceKind) .functionKind])
    ∧ (checkInterfaceSpecialFunctionBlock
        ⟨[], [], [], ⟨1, 1, 1⟩⟩
        (.interfaceOf .resourceKind) .functionKind
      = [.invalidImplementation ⟨1, 1, 1⟩ (.interfaceOf .resourceKind) .functionKind])
    ∧ (checkInterfaceSpecialFunctionBlock
        ⟨[], [⟨⟨2, 1, 2⟩⟩], [], ⟨1, 1, 1⟩⟩
        (.interfaceOf .resourceKind) .functionKind = []) :=
  ⟨(claim_C1_interface_function_block_shape _ _ _).1 ⟨⟨5, 2, 3⟩⟩ [] rfl,
   (claim_C1_interface_function_block_shape _ _ _).2.1 rfl rfl rfl,
   (claim_C1_interface_function_block_shape _ _ _).2.2 rfl
     (Or.inl (by decide))⟩


/-!
Claim C3: the slot semantics of the empty visitor.
-/

/-- C3: for every `EmptyVisitor`, an unset slot of one of the four
container variants (array, composite record, dictionary,
optional-present) makes the corresponding visit method return `true`
(continue); an unset slot of a leaf variant makes the corresponding
visit method a no-op that calls nothing; a set slot is invoked with
exactly the interpreter and value arguments, and for containers its
result is returned unchanged. -/
theorem claim_C3_empty_visitor_slots {E : Type} (v : EmptyVisitor E)
    (interpreter : Interpreter) (x : Value) :
    ( v.arrayValueVisitor = none → v.visitArrayValue interpreter x = true)
    ∧ (∀ g, v.arrayValueVisitor = some g → v.visitArrayValue interpreter x = g interpreter x)
    ∧ ( v.compositeValueVisitor = none → v.visitCompositeValue interpreter x = true)
    ∧ (∀ g, v.compositeValueVisitor = some g → v.visitCompositeValue interpreter x = g interpreter x)
    ∧ ( v.dictionaryValueVisitor = none → v.visitDictionaryValue interpreter x = true)
    ∧ (∀ g, v.dictionaryValueVisitor = some g → v.visitDictionaryValue interpreter x = g interpreter x)
    ∧ ( v.someValueVisitor = none → v.visitSomeValue interpreter x = true)
    ∧ (∀ g, v.someValueVisitor = some g → v.visitSomeValue interpreter x = g interpreter x)
    ∧ (v.valueVisitor = none → v.visitValue interpreter x = none)
    ∧ (∀ g, v.valueVisitor = some g → v.visitValue interpreter x = some (g interpreter x))
    ∧ (v.typeValueVisitor = none → v.visitTypeValue interpreter x = none)
    ∧ (∀ g, v.typeValueVisitor = some g → v.visitTypeValue interpreter x = some (g interpreter x))
    ∧ (v.voidValueVisitor = none → v.visitVoidValue interpreter x = none)
    ∧ (∀ g, v.voidValueVisitor = some g → v.visitVoidValue interpreter x = some (g interpreter x))
    ∧ (v.boolValueVisitor = none → v.visitBoolValue interpreter x = none)
    ∧ (∀ g, v.boolValueVisitor = some g → v.visitBoolValue interpreter x = some (g interpreter x))
    ∧ (v.stringValueVisitor = none → v.visitStringValue interpreter x = none)
    ∧ (∀ g, v.stringValueVisitor = some g → v.visitStringValue interpreter x = some (g interpreter x))
    ∧ (v.intValueVisitor = none → v.visitIntValue interpreter x = none)
    ∧ (∀ g, v.intValueVisitor = some g → v.visitIntValue interpreter x = some (g interpreter x))
    ∧ (v.int8ValueVisitor = none → v.visitInt8Value interpreter x = none)
    ∧ (∀ g, v.int8ValueVisitor = some g → v.visitInt8Value interpreter x = some (g interpreter x))
    ∧ (v.int16ValueVisitor = none → v.visitInt16Value interpreter x = none)
    ∧ (∀ g, v.int16ValueVisitor = some g → v.visitInt16Value interpreter x = some (g interpreter x))
    ∧ (v.int32ValueVisitor = none → v.visitInt32Value interpreter x = none)
    ∧ (∀ g, v.int32ValueVisitor = some g → v.visitInt32Value interpreter x = some (g interpreter x))
    ∧ (v.int64ValueVisitor = none → v.visitInt64Value interpreter x = none)
    ∧ (∀ g, v.int64ValueVisitor = some g → v.visitInt64Value interpreter x = some (g interpreter x))
    ∧ (v.int128ValueVisitor = none → v.visitInt128Value interpreter x = none)
    ∧ (∀ g, v.int128ValueVisitor = some g → v.visitInt128Value interpreter x = some (g interpreter x))
    ∧ (v.int256ValueVisitor = none → v.visitInt256Value interpreter x = none)
    ∧ (∀ g, v.int256ValueVisitor = some g → v.visitInt256Value interpreter x = some (g interpreter x))
    ∧ (v.uintValueVisitor = none → v.visitUIntValue interpreter x = none)
    ∧ (∀ g, v.uintValueVisitor = some g → v.visitUIntValue interpreter x = some (g interpreter x))
    ∧ (v.uint8ValueVisitor = none → v.visitUInt8Value interpreter x = none)
    ∧ (∀ g, v.uint8ValueVisitor = some g → v.visitUInt8Value interpreter x = some (g interpreter x))
    ∧ (v.uint16ValueVisitor = none → v.visitUInt16Value interpreter x = none)
    ∧ (∀ g, v.uint16ValueVisitor = some g → v.visitUInt16Value interpreter x = some (g interpreter x))
    ∧ (v.uint32ValueVisitor = none → v.visitUInt32Value interpreter x = none)
    ∧ (∀ g, v.uint32ValueVisitor = some g → v.visitUInt32Value interpreter x = some (g interpreter x))
    ∧ (v.uint64ValueVisitor = none → v.visitUInt64Value interpreter x = none)
    ∧ (∀ g, v.uint64ValueVisitor = some g → v.visitUInt64Value interpreter x = some (g interpreter x))
    ∧ (v.uint128ValueVisitor = none → v.visitUInt128Value interpreter x = none)
    ∧ (∀ g, v.uint128ValueVisitor = some g → v.visitUInt128Value interpreter x = some (g interpreter x))
    ∧ (v.uint256ValueVisitor = none → v.visitUInt256Value interpreter x = none)
    ∧ (∀ g, v.uint256ValueVisitor = some g → v.visitUInt256Value interpreter x = some (g interpreter x))
    ∧ (v.word8ValueVisitor = none → v.visitWord8Value interpreter x = none)
    ∧ (∀ g, v.word8ValueVisitor = some g → v.visitWord8Value interpreter x = some (g interpreter x))
    ∧ (v.word16ValueVisitor = none → v.visitWord16Value interpreter x = none)
    ∧ (∀ g, v.word16ValueVisitor = some g → v.visitWord16Value interpreter x = some (g interpreter x))
    ∧ (v.word32ValueVisitor = none → v.visitWord32Value interpreter x = none)
    ∧ (∀ g, v.word32ValueVisitor = some g → v.visitWord32Value interpreter x = some (g interpreter x))
    ∧ (v.word64ValueVisitor = none → v.visitWord64Value interpreter x = none)
    ∧ (∀ g, v.word64ValueVisitor = some g → v.visitWord64Value interpreter x = some (g interpreter x))
    ∧ (v.fix64ValueVisitor = none → v.visitFix64Value interpreter x = none)
    ∧ (∀ g, v.fix64ValueVisitor = some g → v.visitFix64Value interpreter x = some (g interpreter x))
    ∧ (v.ufix64ValueVisitor = none → v.visitUFix64Value interpreter x = none)
    ∧ (∀ g, v.ufix64ValueVisitor = some g → v.visitUFix64Value interpreter x = some (g interpreter x))
    ∧ (v.nilValueVisitor = none → v.visitNilValue interpreter x = none)
    ∧ (∀ g, v.nilValueVisitor = some g → v.visitNilValue interpreter x = some (g interpreter x))
    ∧ (v.storageReferenceValueVisitor = none → v.visitStorageReferenceValue interpreter x = none)
    ∧ (∀ g, v.storageReferenceValueVisitor = some g → v.visitStorageReferenceValue interpreter x = some (g interpreter x))
    ∧ (v.ephemeralReferenceValueVisitor = none → v.visitEphemeralReferenceValue interpreter x = none)
    ∧ (∀ g, v.ephemeralReferenceValueVisitor = some g → v.visitEphemeralReferenceValue interpreter x = some (g interpreter x))
    ∧ (v.addressValueVisitor = none → v.visitAddressValue interpreter x = none)
    ∧ (∀ g, v.addressValueVisitor = some g → v.visitAddressValue interpreter x = some (g interpreter x))
    ∧ (v.authAccountValueVisitor = none → v.visitAuthAccountValue interpreter x = none)
    ∧ (∀ g, v.authAccountValueVisitor = some g → v.visitAuthAccountValue interpreter x = some (g interpreter x))
    ∧ (v.publicAccountValueVisitor = none → v.visitPublicAccountValue interpreter x = none)
    ∧ (∀ g, v.publicAccountValueVisitor = some g → v.visitPublicAccountValue interpreter x = some (g interpreter x))
    ∧ (v.pathValueVisitor = none → v.visitPathValue interpreter x = none)
    ∧ (∀ g, v.pathValueVisitor = some g → v.visitPathValue interpreter x = some (g interpreter x))
    ∧ (v.capabilityValueVisitor = none → v.visitCapabilityValue interpreter x = none)
    ∧ (∀ g, v.capabilityValueVisitor = some g → v.visitCapabilityValue interpreter x = some (g interpreter x))
    ∧ (v.linkValueVisitor = none → v.visitLinkValue interpreter x = none)
    ∧ (∀ g, v.linkValueVisitor = some g → v.visitLinkValue interpreter x = some (g interpreter x))
    ∧ (v.interpretedFunctionValueVisitor = none → v.visitInterpretedFunctionValue interpreter x = none)
    ∧ (∀ g, v.interpretedFunctionValueVisitor = some g → v.visitInterpretedFunctionValue interpreter x = some (g interpreter x))
    ∧ (v.hostFunctionValueVisitor = none → v.visitHostFunctionValue interpreter x = none)
    ∧ (∀ g, v.hostFunctionValueVisitor = some g → v.visitHostFunctionValue interpreter x = some (g interpreter x))
    ∧ (v.boundFunctionValueVisitor = none → v.visitBoundFunctionValue interpreter x = none)
    ∧ (∀ g, v.boundFunctionValueVisitor = some g → v.visitBoundFunctionValue interpreter x = some (g interpreter x))
    ∧ (v.authAccountContractsValueVisitor = none → v.visitAuthAccountContractsValue interpreter x = none)
    ∧ (∀ g, v.authAccountContractsValueVisitor = some g → v.visitAuthAccountContractsValue interpreter x = some (g interpreter x))
    ∧ (v.deployedContractValueVisitor = none → v.visitDeployedContractValue interpreter x = none)
    ∧ (∀ g, v.deployedContractValueVisitor = some g → v.visitDeployedContractValue interpreter x = some (g interpreter x))
    := by
  refine ⟨
    ?_, ?_, ?_, ?_, ?_, ?_, ?_, ?_, ?_, ?_, ?_, ?_, ?_, ?_, ?_, ?_, ?_, ?_, ?_, ?_, ?_, ?_, ?_, ?_, ?_, ?_, ?_, ?_, ?_, ?_, ?_, ?_, ?_, ?_, ?_, ?_, ?_, ?_, ?_, ?_, ?_, ?_, ?_, ?_, ?_, ?_, ?_, ?_, ?_, ?_, ?_, ?_, ?_, ?_, ?_, ?_, ?_, ?_, ?_, ?_, ?_, ?_, ?_, ?_, ?_, ?_, ?_, ?_, ?_, ?_, ?_, ?_, ?_, ?_, ?_, ?_, ?_, ?_, ?_, ?_, ?_, ?_, ?_, ?_, ?_, ?_⟩
  all_goals intros
  all_goals simp_all [ EmptyVisitor.visitArrayValue, EmptyVisitor.visitCompositeValue, EmptyVisitor.visitDictionaryValue, EmptyVisitor.visitSomeValue, EmptyVisitor.visitValue, EmptyVisitor.visitTypeValue, EmptyVisitor.visitVoidValue, EmptyVisitor.visitBoolValue, EmptyVisitor.visitStringValue, EmptyVisitor.visitIntValue, EmptyVisitor.visitInt8Value, EmptyVisitor.visitInt16Value, EmptyVisitor.visitInt32Value, EmptyVisitor.visitInt64Value, EmptyVisitor.visitInt128Value, EmptyVisitor.visitInt256Value, EmptyVisitor.visitUIntValue, EmptyVisitor.visitUInt8Value, EmptyVisitor.visitUInt16Value, EmptyVisitor.visitUInt32Value, EmptyVisitor.visitUInt64Value, EmptyVisitor.visitUInt128Value, EmptyVisitor.visitUInt256Value, EmptyVisitor.visitWord8Value, EmptyVisitor.visitWord16Value, EmptyVisitor.visitWord32Value, EmptyVisitor.visitWord64Value, EmptyVisitor.visitFix64Value, EmptyVisitor.visitUFix64Value, EmptyVisitor.visitNilValue, EmptyVisitor.visitStorageReferenceValue, EmptyVisitor.visitEphemeralReferenceValue, EmptyVisitor.visitAddressValue, EmptyVisitor.visitAuthAccountValue, EmptyVisitor.visitPublicAccountValue, EmptyVisitor.visitPathValue, EmptyVisitor.visitCapabilityValue, EmptyVisitor.visitLinkValue, EmptyVisitor.visitInterpretedFunctionValue, EmptyVisitor.visitHostFunctionValue, EmptyVisitor.visitBoundFunctionValue, EmptyVisitor.visitAuthAccountContractsValue, EmptyVisitor.visitDeployedContractValue]

/-- C3 witness: the slot semantics evaluated at concrete visitors — an
unset array slot continues, a set array slot's result is returned
unchanged, an unset composite slot continues. -/
theorem claim_C3_witness :
    ((@EmptyVisitor.empty Unit).visitArrayValue ⟨0⟩ (.arrayValue []) = true)
    ∧ (({ arrayValueVisitor := some fun _ _ => false } :
          EmptyVisitor Unit).visitArrayValue ⟨0⟩ (.arrayValue []) = false)
    ∧ ((@EmptyVisitor.empty Unit).visitCompositeValue ⟨0⟩ (.compositeValue []) = true) :=
  ⟨(claim_C3_empty_visitor_slots EmptyVisitor.empty ⟨0⟩ (.arrayValue [])).1 rfl,
   (claim_C3_empty_visitor_slots
      ({ arrayValueVisitor := some fun _ _ => false } : EmptyVisitor Unit)
      ⟨0⟩ (.arrayValue [])).2.1 (fun _ _ => false) rfl,
   (claim_C3_empty_visitor_slots EmptyVisitor.empty ⟨0⟩
      (.compositeValue [])).2.2.1 rfl⟩


/-!
Claim C2: the dispatcher with the all-default visitor is exactly the
spec's preorder traversal and counts every node once.
-/

theorem acceptList_congr {E : Type} (i : Interpreter) (l : List Value)
    (h : ∀ x ∈ l, accept i (@EmptyVisitor.empty E) x = preorderSpec x) :
    acceptList i (@EmptyVisitor.empty E) l = preorderSpecList l := by
  induction l with
  | nil => simp [acceptList, preorderSpecList]
  | cons v rest ih =>
      rw [acceptList, preorderSpecList, h v (by simp),
        ih (fun x hx => h x (by simp [hx]))]

theorem acceptFields_congr {E : Type} (i : Interpreter)
    (l : List (String × Value))
    (h : ∀ x ∈ l, accept i (@EmptyVisitor.empty E) x.2 = preorderSpec x.2) :
    acceptFields i (@EmptyVisitor.empty E) l = preorderSpecFields l := by
  induction l with
  | nil => simp [acceptFields, preorderSpecFields]
  | cons v rest ih =>
      obtain ⟨name, x⟩ := v
      rw [acceptFields, preorderSpecFields, h ⟨name, x⟩ (by simp),
        ih (fun y hy => h y (by simp [hy]))]

theorem acceptEntries_congr {E : Type} (i : Interpreter)
    (l : List (Value × Value))
    (h : ∀ x ∈ l, accept i (@EmptyVisitor.empty E) x.1 = preorderSpec x.1
      ∧ accept i (@EmptyVisitor.empty E) x.2 = preorderSpec x.2) :
    acceptEntries i (@EmptyVisitor.empty E) l = preorderSpecEntries l := by
  induction l with
  | nil => simp [acceptEntries, preorderSpecEntries]
  | cons v rest ih =>
      obtain ⟨k, x⟩ := v
      rw [acceptEntries, preorderSpecEntries, (h ⟨k, x⟩ (by simp)).1,
        (h ⟨k, x⟩ (by simp)).2, ih (fun y hy => h y (by simp [hy]))]

theorem accept_empty_eq_preorderSpec {E : Type} (i : Interpreter) (v : Value) :
    accept i (@EmptyVisitor.empty E) v = preorderSpec v := by
  have key : ∀ n, ∀ v : Value, sizeOf v ≤ n →
      accept i (@EmptyVisitor.empty E) v = preorderSpec v := by
    intro n
    induction n with
    | zero =>
        intro v h
        exact absurd h (by cases v <;> simp)
    | succ n ih =>
        intro v h
        cases v with
        | arrayValue values =>
            rw [accept, preorderSpec]
            have hvis : (@EmptyVisitor.empty E).visitArrayValue i
                (.arrayValue values) = true := rfl
            rw [hvis]
            simp only [if_true]
            rw [acceptList_congr]
            intro x hx
            apply ih
            have h1 := List.sizeOf_lt_of_mem hx
            have h2 : sizeOf (Value.arrayValue values) = 1 + sizeOf values := by simp
            omega
        | compositeValue fields =>
            rw [accept, preorderSpec]
            have hvis : (@EmptyVisitor.empty E).visitCompositeValue i
                (.compositeValue fields) = true := rfl
            rw [hvis]
            simp only [if_true]
            rw [acceptFields_congr]
            intro x hx
            apply ih
            have h1 := List.sizeOf_lt_of_mem hx
            have h2 : sizeOf (Value.compositeValue fields) = 1 + sizeOf fields := by
              simp
            have h3 : sizeOf x.2 < sizeOf x := by
              obtain ⟨a, b⟩ := x
              simp only [Prod.mk.sizeOf_spec]
              omega
            omega
        | dictionaryValue entries =>
            rw [accept, preorderSpec]
            have hvis : (@EmptyVisitor.empty E).visitDictionaryValue i
                (.dictionaryValue entries) = true := rfl
            rw [hvis]
            simp only [if_true]
            rw [acceptEntries_congr]
            intro x hx
            have h1 := List.sizeOf_lt_of_mem hx
            have h2 : sizeOf (Value.dictionaryValue entries) = 1 + sizeOf entries := by
              simp
            have h3 : sizeOf x.1 < sizeOf x ∧ sizeOf x.2 < sizeOf x := by
              obtain ⟨a, b⟩ := x
              refine ⟨?_, ?_⟩ <;> simp only [Prod.mk.sizeOf_spec] <;> omega
            exact ⟨ih x.1 (by omega), ih x.2 (by omega)⟩
        | someValue inner =>
            rw [accept, preorderSpec]
            have hvis : (@EmptyVisitor.empty E).visitSomeValue i
                (.someValue inner) = true := rfl
            rw [hvis]
            simp only [if_true]
            rw [ih inner (by simp at h; omega)]
        | _ => simp [accept, preorderSpec]
  exact key (sizeOf v) v (Nat.le_refl _)


theorem preorderSpecList_length_congr (l : List Value)
    (h : ∀ x ∈ l, (preorderSpec x).length = nodeCount x) :
    (preorderSpecList l).length = nodeCountList l := by
  induction l with
  | nil => simp [preorderSpecList, nodeCountList]
  | cons v rest ih =>
      rw [preorderSpecList, nodeCountList, List.length_append,
        h v (by simp), ih (fun x hx => h x (by simp [hx]))]

theorem preorderSpecFields_length_congr (l : List (String × Value))
    (h : ∀ x ∈ l, (preorderSpec x.2).length = nodeCount x.2) :
    (preorderSpecFields l).length = nodeCountFields l := by
  induction l with
  | nil => simp [preorderSpecFields, nodeCountFields]
  | cons v rest ih =>
      obtain ⟨name, x⟩ := v
      rw [preorderSpecFields, nodeCountFields, List.length_append,
        h ⟨name, x⟩ (by simp), ih (fun y hy => h y (by simp [hy]))]

theorem preorderSpecEntries_length_congr (l : List (Value × Value))
    (h : ∀ x ∈ l, (preorderSpec x.1).length = nodeCount x.1
      ∧ (preorderSpec x.2).length = nodeCount x.2) :
    (preorderSpecEntries l).length = nodeCountEntries l := by
  induction l with
  | nil => simp [preorderSpecEntries, nodeCountEntries]
  | cons v rest ih =>
      obtain ⟨k, x⟩ := v
      rw [preorderSpecEntries, nodeCountEntries, List.length_append,
        List.length_append, (h ⟨k, x⟩ (by simp)).1, (h ⟨k, x⟩ (by simp)).2,
        ih (fun y hy => h y (by simp [hy]))]

theorem preorderSpec_length (v : Value) :
    (preorderSpec v).length = nodeCount v := by
  have key : ∀ n, ∀ v : Value, sizeOf v ≤ n →
      (preorderSpec v).length = nodeCount v := by
    intro n
    induction n with
    | zero =>
        intro v h
        exact absurd h (by cases v <;> simp)
    | succ n ih =>
        intro v h
        cases v with
        | arrayValue values =>
            rw [preorderSpec, nodeCount, List.length_cons,
              preorderSpecList_length_congr]
            · omega
            · intro x hx
              apply ih
              have h1 := List.sizeOf_lt_of_mem hx
              have h2 : sizeOf (Value.arrayValue values) = 1 + sizeOf values := by
                simp
              omega
        | compositeValue fields =>
            rw [preorderSpec, nodeCount, List.length_cons,
              preorderSpecFields_length_congr]
            · omega
            · intro x hx
              apply ih
              have h1 := List.sizeOf_lt_of_mem hx
              have h2 : sizeOf (Value.compositeValue fields) = 1 + sizeOf fields := by
                simp
              have h3 : sizeOf x.2 < sizeOf x := by
                obtain ⟨a, b⟩ := x
                simp only [Prod.mk.sizeOf_spec]
                omega
              omega
        | dictionaryValue entries =>
            rw [preorderSpec, nodeCount, List.length_cons,
              preorderSpecEntries_length_congr]
            · omega
            · intro x hx
              have h1 := List.sizeOf_lt_of_mem hx
              have h2 : sizeOf (Value.dictionaryValue entries) = 1 + sizeOf entries := by
                simp
              have h3 : sizeOf x.1 < sizeOf x ∧ sizeOf x.2 < sizeOf x := by
                obtain ⟨a, b⟩ := x
                refine ⟨?_, ?_⟩ <;> simp only [Prod.mk.sizeOf_spec] <;> omega
              exact ⟨ih x.1 (by omega), ih x.2 (by omega)⟩
        | someValue inner =>
            rw [preorderSpec, nodeCount, List.length_cons,
              ih inner (by simp at h; omega)]
            omega
        | _ => simp [preorderSpec, nodeCount]
  exact key (sizeOf v) v (Nat.le_refl _)

/-- C2: for every value, running the dispatcher with the all-default
(empty) visitor — so that every continuation decision defaults to
continue — dispatches exactly the spec's fixed preorder sequence of the
value's subtree (the container's callback fires before its children;
children in array index order, dictionary entry order, field
declaration order), and the number of dispatches equals the number of
reachable nodes, so every node is visited exactly once; the traversal
is a total function and raises no fault. -/
theorem claim_C2_dispatcher_preorder {E : Type} (interpreter : Interpreter)
    (v : Value) :
    accept interpreter (@EmptyVisitor.empty E) v = preorderSpec v
    ∧ (accept interpreter (@EmptyVisitor.empty E) v).length = nodeCount v :=
  ⟨accept_empty_eq_preorderSpec interpreter v,
   by rw [accept_empty_eq_preorderSpec interpreter v]; exact preorderSpec_length v⟩


/-!
Claim C4: the container-checking flag is set at entry and cleared on
every exit path of phase 2, including the panicking one.
-/

/-- C4: for every interface declaration checked by
`VisitInterfaceDeclaration` (one whose phase-1 type association
exists), the container-checking flag for the interface type is true in
the state built at entry, and after the call exits — normally or by
unwinding from a panic — the flag for that type is false. -/
theorem claim_C4_container_flag_cleared (declaration : InterfaceDeclaration)
    (s : CheckerState) (interfaceTypeId : Nat)
    (h : lookupAssoc s.interfaceDeclarationTypes declaration.declId
      = some interfaceTypeId) :
    (lookupAssoc (setContainerFlag interfaceTypeId true s).containerTypes
        interfaceTypeId = some true)
    ∧ (∀ s', VisitInterfaceDeclaration declaration s = .ok ((), s') →
        lookupAssoc s'.containerTypes interfaceTypeId = some false)
    ∧ (∀ e s', VisitInterfaceDeclaration declaration s = .error (e, s') →
        lookupAssoc s'.containerTypes interfaceTypeId = some false) := by
  have hrun : VisitInterfaceDeclaration declaration s =
      withDeferred
        (visitInterfaceDeclarationBody declaration interfaceTypeId)
        (setContainerFlag interfaceTypeId false)
        (setContainerFlag interfaceTypeId true s) := by
    simp [VisitInterfaceDeclaration, Check.bind, h]
  refine ⟨by simp [setContainerFlag], ?_, ?_⟩
  · intro s' hok
    rw [hrun, withDeferred_apply] at hok
    cases hbody : visitInterfaceDeclarationBody declaration interfaceTypeId
        (setContainerFlag interfaceTypeId true s) with
    | ok r =>
        obtain ⟨a, s1⟩ := r
        rw [hbody] at hok
        simp at hok
        rw [← hok]
        simp [setContainerFlag]
    | error r =>
        obtain ⟨e1, s1⟩ := r
        rw [hbody] at hok
        simp at hok
  · intro e s' herr
    rw [hrun, withDeferred_apply] at herr
    cases hbody : visitInterfaceDeclarationBody declaration interfaceTypeId
        (setContainerFlag interfaceTypeId true s) with
    | ok r =>
        obtain ⟨a, s1⟩ := r
        rw [hbody] at herr
        simp at herr
    | error r =>
        obtain ⟨e1, s1⟩ := r
        rw [hbody] at herr
        simp at herr
        rw [← herr.2]
        simp [setContainerFlag]


/-- C4 witness: a concrete interface declaration and checker state; the
flag for type 0 is true in the entry state and false in the final state
of the (here panicking) run. -/
theorem claim_C4_witness :
    (lookupAssoc
      (setContainerFlag 0 true
        { nextTypeId := 1, typeHeap := [], containerTypes := [],
          typeActivations := [[]], valueActivations := [[]], diagnostics := [],
          interfaceDeclarationTypes := [(0, 0)],
          interfaceNestedDeclarations := [], memberOrigins := [],
          occurrences := [] }).containerTypes 0 = some true)
    ∧ lookupAssoc
        ({ nextTypeId := 1, typeHeap := [], containerTypes := [(0, false)],
           typeActivations := [[]], valueActivations := [[]], diagnostics := [],
           interfaceDeclarationTypes := [(0, 0)],
           interfaceNestedDeclarations := [], memberOrigins := [],
           occurrences := [] } : CheckerState).containerTypes 0 = some false :=
  ⟨(claim_C4_container_flag_cleared
      { declId := 0, access := .notSpecified, compositeKind := .resourceKind,
        identifier := ⟨"X", ⟨0, 0, 0⟩⟩,
        members := { fields := [], functions := [], specialFunctions := [] },
        interfaceDeclarations := [], compositeDeclarations := [],
        startPos := ⟨0, 0, 0⟩ }
      { nextTypeId := 1, typeHeap := [], containerTypes := [],
        typeActivations := [[]], valueActivations := [[]], diagnostics := [],
        interfaceDeclarationTypes := [(0, 0)],
        interfaceNestedDeclarations := [], memberOrigins := [],
        occurrences := [] } 0 rfl).1,
   (claim_C4_container_flag_cleared
      { declId := 0, access := .notSpecified, compositeKind := .resourceKind,
        identifier := ⟨"X", ⟨0, 0, 0⟩⟩,
        members := { fields := [], functions := [], specialFunctions := [] },
        interfaceDeclarations := [], compositeDeclarations := [],
        startPos := ⟨0, 0, 0⟩ }
      { nextTypeId := 1, typeHeap := [], containerTypes := [],
        typeActivations := [[]], valueActivations := [[]], diagnostics := [],
        interfaceDeclarationTypes := [(0, 0)],
        interfaceNestedDeclarations := [], memberOrigins := [],
        occurrences := [] } 0 rfl).2.2 .nilDereference
      { nextTypeId := 1, typeHeap := [], containerTypes := [(0, false)],
        typeActivations := [[]], valueActivations := [[]], diagnostics := [],
        interfaceDeclarationTypes := [(0, 0)],
        interfaceNestedDeclarations := [], memberOrigins := [],
        occurrences := [] } rfl⟩


/-!
Claim C8: a recorded nested declaration without an identifier aborts
phase 2 with an unreachable-error internal fault.
-/

theorem declareNestedTypesLoop_unreachable
    (nestedDeclarations : List (String × NestedDeclaration))
    (name : String) (nid : Nat) (nd : NestedDeclaration)
    (hname : lookupAssoc nestedDeclarations name = some nd)
    (hid : nd.identifier = none) :
    ∀ (before : List (String × Nat)) (after : List (String × Nat)),
    (∀ p ∈ before, ∃ d idf, lookupAssoc nestedDeclarations p.1 = some d
        ∧ d.identifier = some idf) →
    ∀ s : CheckerState, ∃ s',
      declareNestedTypesLoop (before ++ (name, nid) :: after) nestedDeclarations s
        = .error (.unreachableError, s')
      ∧ s'.typeHeap = s.typeHeap
      ∧ s'.nextTypeId = s.nextTypeId
      ∧ s'.containerTypes = s.containerTypes
      ∧ s'.memberOrigins = s.memberOrigins
      ∧ s'.interfaceDeclarationTypes = s.interfaceDeclarationTypes
      ∧ s'.interfaceNestedDeclarations = s.interfaceNestedDeclarations
      ∧ s'.valueActivations = s.valueActivations
      ∧ s'.occurrences = s.occurrences := by
  intro before
  induction before with
  | nil =>
      intro after _ s
      refine ⟨s, ?_, rfl, rfl, rfl, rfl, rfl, rfl, rfl, rfl⟩
      simp [declareNestedTypesLoop, hname, hid]
  | cons p rest ih =>
      intro after hbefore s
      obtain ⟨n1, t1⟩ := p
      obtain ⟨d, idf, hd, hidf⟩ := hbefore (n1, t1) (by simp)
      have hd' : lookupAssoc nestedDeclarations n1 = some d := hd
      cases hscope : lookupAssoc (s.typeActivations.head?.getD []) idf.identifier with
      | none =>
          have hstep : declareNestedTypesLoop
              (((n1, t1) :: rest) ++ (name, nid) :: after) nestedDeclarations s
              = declareNestedTypesLoop (rest ++ (name, nid) :: after)
                  nestedDeclarations
                  { s with typeActivations :=
                      insertAssoc (s.typeActivations.headD []) idf.identifier t1
                        :: s.typeActivations.tail } := by
            simp [declareNestedTypesLoop, hd', hidf, Check.bind,
              typeActivationsDeclareType, hscope, report]
          obtain ⟨s', hrun, h2, h3, h4, h5, h6, h7, h8, h9⟩ :=
            ih after (fun q hq => hbefore q (by simp [hq]))
              { s with typeActivations :=
                  insertAssoc (s.typeActivations.headD []) idf.identifier t1
                    :: s.typeActivations.tail }
          rw [hstep]
          exact ⟨s', hrun, by simp [h2], by simp [h3], by simp [h4],
            by simp [h5], by simp [h6], by simp [h7], by simp [h8],
            by simp [h9]⟩
      | some e0 =>
          have hstep : declareNestedTypesLoop
              (((n1, t1) :: rest) ++ (name, nid) :: after) nestedDeclarations s
              = declareNestedTypesLoop (rest ++ (name, nid) :: after)
                  nestedDeclarations
                  { s with
                      typeActivations :=
                        insertAssoc (s.typeActivations.headD []) idf.identifier t1
                          :: s.typeActivations.tail,
                      diagnostics := s.diagnostics ++
                        [CheckerError.redeclaration d.declarationKind
                          idf.identifier idf.pos] } := by
            simp [declareNestedTypesLoop, hd', hidf, Check.bind,
              typeActivationsDeclareType, hscope, report, reportAll]
          obtain ⟨s', hrun, h2, h3, h4, h5, h6, h7, h8, h9⟩ :=
            ih after (fun q hq => hbefore q (by simp [hq]))
              { s with
                  typeActivations :=
                    insertAssoc (s.typeActivations.headD []) idf.identifier t1
                      :: s.typeActivations.tail,
                  diagnostics := s.diagnostics ++
                    [CheckerError.redeclaration d.declarationKind
                      idf.identifier idf.pos] }
          rw [hstep]
          exact ⟨s', hrun, by simp [h2], by simp [h3], by simp [h4],
            by simp [h5], by simp [h6], by simp [h7], by simp [h8],
            by simp [h9]⟩


/-!
Run lemmas: closed forms for the monadic checker functions, used to
settle the whole-run claims.
-/

theorem visitInterfaceDeclarationBody_run (declaration : InterfaceDeclaration)
    (interfaceTypeId : Nat) (s : CheckerState) :
    visitInterfaceDeclarationBody declaration interfaceTypeId s
      = withDeferred (visitInterfaceDeclarationInner declaration interfaceTypeId)
          typeActivationsLeaveState (phase2PreState declaration s) := by
  simp [visitInterfaceDeclarationBody, phase2PreState, Check.bind,
    typeActivationsEnter]

theorem declareNestedTypesLoop_ok
    (nestedDeclarations : List (String × NestedDeclaration)) :
    ∀ (nestedTypes : List (String × Nat)) (scope : List (String × Nat))
      (rest : List (List (String × Nat))) (s : CheckerState),
    s.typeActivations = scope :: rest →
    (declareNestedPure nestedTypes nestedDeclarations scope).2.2 = none →
    declareNestedTypesLoop nestedTypes nestedDeclarations s
      = .ok ((),
        { s with
            typeActivations :=
              (declareNestedPure nestedTypes nestedDeclarations scope).1 :: rest,
            diagnostics := s.diagnostics
              ++ (declareNestedPure nestedTypes nestedDeclarations scope).2.1 }) := by
  intro nestedTypes
  induction nestedTypes with
  | nil =>
      intro scope rest s hact _
      obtain ⟨f1, f2, f3, f4, f5, f6, f7, f8, f9, f10⟩ := s
      simp only at hact
      subst hact
      simp [declareNestedTypesLoop, declareNestedPure]
  | cons p restNT ih =>
      intro scope rest s hact hfault
      obtain ⟨name, nestedTypeId⟩ := p
      cases hname : lookupAssoc nestedDeclarations name with
      | none =>
          rw [declareNestedPure] at hfault
          simp [hname] at hfault
      | some d =>
          cases hidf : d.identifier with
          | none =>
              rw [declareNestedPure] at hfault
              simp [hname, hidf] at hfault
          | some idf =>
              have hfault' : (declareNestedPure restNT nestedDeclarations
                  (insertAssoc scope idf.identifier nestedTypeId)).2.2 = none := by
                rw [declareNestedPure] at hfault
                simp only [hname, hidf] at hfault
                exact hfault
              have hscopehead : s.typeActivations.head?.getD [] = scope := by
                rw [hact]; rfl
              have htail : s.typeActivations.tail = rest := by
                rw [hact]; rfl
              cases hscope : lookupAssoc scope idf.identifier with
              | none =>
                  have hstep : declareNestedTypesLoop
                      ((name, nestedTypeId) :: restNT) nestedDeclarations s
                      = declareNestedTypesLoop restNT nestedDeclarations
                        { s with typeActivations :=
                            insertAssoc scope idf.identifier nestedTypeId
                              :: rest } := by
                    simp [declareNestedTypesLoop, hname, hidf, Check.bind,
                      typeActivationsDeclareType, hscopehead, htail, hscope,
                      report]
                  rw [hstep, ih (insertAssoc scope idf.identifier nestedTypeId)
                    rest _ (by simp) hfault']
                  rw [declareNestedPure]
                  simp [hname, hidf, hscope]
              | some e0 =>
                  have hstep : declareNestedTypesLoop
                      ((name, nestedTypeId) :: restNT) nestedDeclarations s
                      = declareNestedTypesLoop restNT nestedDeclarations
                        { s with
                            typeActivations :=
                              insertAssoc scope idf.identifier nestedTypeId
                                :: rest,
                            diagnostics := s.diagnostics ++
                              [CheckerError.redeclaration d.declarationKind
                                idf.identifier idf.pos] } := by
                    simp [declareNestedTypesLoop, hname, hidf, Check.bind,
                      typeActivationsDeclareType, hscopehead, htail, hscope,
                      report, reportAll]
                  rw [hstep, ih (insertAssoc scope idf.identifier nestedTypeId)
                    rest _ (by simp) hfault']
                  rw [declareNestedPure]
                  simp [hname, hidf, hscope]


theorem checkInterfaceFunction_run (function : FunctionDeclaration)
    (interfaceTypeId : Nat) (inResource : Bool)
    (declarationKind : DeclarationKind) (s : CheckerState) :
    checkInterfaceFunction function interfaceTypeId inResource declarationKind s
      = .ok ((),
        { s with diagnostics := s.diagnostics
            ++ interfaceFunctionDiags function inResource declarationKind }) := by
  obtain ⟨f1, f2, f3, f4, f5, f6, f7, f8, f9, f10⟩ := s
  cases hfb : function.functionBlock with
  | none =>
      simp [checkInterfaceFunction, interfaceFunctionDiags, hfb, Check.bind,
        valueActivationsEnter, declareSelfValue, withDeferred,
        valueActivationsLeaveState]
  | some block =>
      simp [checkInterfaceFunction, interfaceFunctionDiags, hfb, Check.bind,
        valueActivationsEnter, declareSelfValue, withDeferred,
        valueActivationsLeaveState]

theorem checkInterfaceFunctionsLoop_run (interfaceTypeId : Nat)
    (inResource : Bool) (declarationKind : DeclarationKind) :
    ∀ (functions : List FunctionDeclaration) (s : CheckerState),
    checkInterfaceFunctionsLoop functions interfaceTypeId inResource
        declarationKind s
      = .ok ((),
        { s with diagnostics := s.diagnostics
            ++ interfaceFunctionsDiags functions inResource declarationKind }) := by
  intro functions
  induction functions with
  | nil =>
      intro s
      obtain ⟨f1, f2, f3, f4, f5, f6, f7, f8, f9, f10⟩ := s
      simp [checkInterfaceFunctionsLoop, interfaceFunctionsDiags]
  | cons f restF ih =>
      intro s
      rw [checkInterfaceFunctionsLoop]
      simp only [bind_eq_Check_bind]
      rw [Check_bind_ok (checkInterfaceFunction_run f interfaceTypeId inResource
        declarationKind s), ih]
      simp [interfaceFunctionsDiags]

theorem checkInterfaceFunctions_run (functions : List FunctionDeclaration)
    (interfaceTypeId : Nat) (declarationKind : DeclarationKind)
    (s : CheckerState) (tyData : TypeData)
    (h : lookupAssoc s.typeHeap interfaceTypeId = some tyData) :
    checkInterfaceFunctions functions interfaceTypeId declarationKind s
      = .ok ((),
        { s with diagnostics := (s.diagnostics
            ++ interfaceFunctionsDiags functions
                (tyData.compositeKind = .resourceKind) declarationKind) }) := by
  rw [checkInterfaceFunctions]
  simp only [bind_eq_Check_bind]
  rw [Check_bind_ok (show heapGet interfaceTypeId s = .ok (tyData, s) by
    simp [heapGet, h])]
  exact checkInterfaceFunctionsLoop_run interfaceTypeId _ declarationKind
    functions s


theorem phase2PreState_typeHeap (d : InterfaceDeclaration) (s : CheckerState) :
    (phase2PreState d s).typeHeap = s.typeHeap := rfl

theorem phase2PreState_typeActivations (d : InterfaceDeclaration) (s : CheckerState) :
    (phase2PreState d s).typeActivations = [] :: s.typeActivations := rfl

theorem phase2PreState_interfaceNestedDeclarations (d : InterfaceDeclaration)
    (s : CheckerState) :
    (phase2PreState d s).interfaceNestedDeclarations
      = s.interfaceNestedDeclarations := rfl

theorem phase2PreState_memberOrigins (d : InterfaceDeclaration) (s : CheckerState) :
    (phase2PreState d s).memberOrigins = s.memberOrigins := rfl

theorem phase2PreState_containerTypes (d : InterfaceDeclaration) (s : CheckerState) :
    (phase2PreState d s).containerTypes = s.containerTypes := rfl

theorem phase2PreState_diagnostics (d : InterfaceDeclaration) (s : CheckerState) :
    (phase2PreState d s).diagnostics = s.diagnostics
      ++ checkDeclarationAccessModifier d.access d.declarationKind d.startPos
          true false
      ++ checkFieldsAccessModifier d.members.fields
      ++ checkNestedIdentifiers d.members.fields d.members.functions
          d.interfaceDeclarations d.compositeDeclarations := rfl

theorem setContainerFlag_typeHeap (tid : Nat) (b : Bool) (s : CheckerState) :
    (setContainerFlag tid b s).typeHeap = s.typeHeap := rfl

theorem setContainerFlag_typeActivations (tid : Nat) (b : Bool) (s : CheckerState) :
    (setContainerFlag tid b s).typeActivations = s.typeActivations := rfl

theorem setContainerFlag_interfaceNestedDeclarations (tid : Nat) (b : Bool)
    (s : CheckerState) :
    (setContainerFlag tid b s).interfaceNestedDeclarations
      = s.interfaceNestedDeclarations := rfl

theorem setContainerFlag_diagnostics (tid : Nat) (b : Bool) (s : CheckerState) :
    (setContainerFlag tid b s).diagnostics = s.diagnostics := rfl

theorem setContainerFlag_memberOrigins (tid : Nat) (b : Bool) (s : CheckerState) :
    (setContainerFlag tid b s).memberOrigins = s.memberOrigins := rfl

theorem setContainerFlag_containerTypes (tid : Nat) (b : Bool) (s : CheckerState) :
    (setContainerFlag tid b s).containerTypes
      = insertAssoc s.containerTypes tid b := rfl

theorem VisitInterfaceDeclaration_run_ok (declaration : InterfaceDeclaration)
    (s : CheckerState) (interfaceTypeId : Nat) (tyData : TypeData)
    (h1 : lookupAssoc s.interfaceDeclarationTypes declaration.declId
      = some interfaceTypeId)
    (h2 : lookupAssoc s.typeHeap interfaceTypeId = some tyData)
    (hfault : (declareNestedPure tyData.nestedTypes
      ((lookupAssoc s.interfaceNestedDeclarations declaration.declId).getD [])
      []).2.2 = none) :
    VisitInterfaceDeclaration declaration s
      = .ok ((), phase2OkState declaration interfaceTypeId tyData s) := by
  have hvisit : VisitInterfaceDeclaration declaration s =
      withDeferred
        (visitInterfaceDeclarationBody declaration interfaceTypeId)
        (setContainerFlag interfaceTypeId false)
        (setContainerFlag interfaceTypeId true s) := by
    simp [VisitInterfaceDeclaration, Check.bind, h1]
  have hloop := declareNestedTypesLoop_ok
    ((lookupAssoc s.interfaceNestedDeclarations declaration.declId).getD [])
    tyData.nestedTypes [] s.typeActivations
    (phase2PreState declaration (setContainerFlag interfaceTypeId true s))
    (by simp [phase2PreState_typeActivations, setContainerFlag_typeActivations])
    hfault
  rw [hvisit, withDeferred_apply, visitInterfaceDeclarationBody_run,
    withDeferred_apply]
  simp only [visitInterfaceDeclarationInner, bind_eq_Check_bind, Check.bind,
    heapGet, phase2PreState_typeHeap, setContainerFlag_typeHeap, h2,
    phase2PreState_interfaceNestedDeclarations,
    setContainerFlag_interfaceNestedDeclarations, getState, hloop,
    heapModify, modifyState, reportAll, checkInterfaceFunctions,
    checkInterfaceFunctionsLoop_run, lookupAssoc_insertAssoc_self,
    insertAssoc_insertAssoc_self]
  simp [phase2OkState, phase2Diags, phase2MemberDiags,
    typeActivationsLeaveState, phase2PreState, setContainerFlag,
    insertAssoc_insertAssoc_self, Check.pure]


/-- C8: if, during phase-2 checking, the nested declaration recorded
for one of the interface type's nested types has no identifier — all
entries before it being well formed — the checker aborts immediately
with an unreachable-error internal fault (the error branch, not a
diagnostic): the run unwinds without populating members (the type heap
and member origins are untouched), and the fault does not flow through
the diagnostics sink. -/
theorem claim_C8_missing_nested_identifier_panics
    (declaration : InterfaceDeclaration) (s : CheckerState)
    (interfaceTypeId : Nat) (tyData : TypeData) (nd : NestedDeclaration)
    (name : String) (nid : Nat) (before after : List (String × Nat))
    (h1 : lookupAssoc s.interfaceDeclarationTypes declaration.declId
      = some interfaceTypeId)
    (h2 : lookupAssoc s.typeHeap interfaceTypeId = some tyData)
    (h3 : tyData.nestedTypes = before ++ (name, nid) :: after)
    (h4 : ∀ p ∈ before, ∃ d idf,
      lookupAssoc
        ((lookupAssoc s.interfaceNestedDeclarations declaration.declId).getD [])
        p.1 = some d ∧ d.identifier = some idf)
    (h5 : lookupAssoc
        ((lookupAssoc s.interfaceNestedDeclarations declaration.declId).getD [])
        name = some nd)
    (h6 : nd.identifier = none) :
    ∃ s', VisitInterfaceDeclaration declaration s
        = .error (.unreachableError, s')
      ∧ s'.typeHeap = s.typeHeap
      ∧ s'.memberOrigins = s.memberOrigins := by
  have hvisit : VisitInterfaceDeclaration declaration s =
      withDeferred
        (visitInterfaceDeclarationBody declaration interfaceTypeId)
        (setContainerFlag interfaceTypeId false)
        (setContainerFlag interfaceTypeId true s) := by
    simp [VisitInterfaceDeclaration, Check.bind, h1]
  obtain ⟨s5, hloop, hph, hpn, hpc, hpm, hpi, hpnd, hpv, hpo⟩ :=
    declareNestedTypesLoop_unreachable _ name nid nd h5 h6 before after h4
      (phase2PreState declaration (setContainerFlag interfaceTypeId true s))
  have hloop' : declareNestedTypesLoop tyData.nestedTypes
      ((lookupAssoc s.interfaceNestedDeclarations declaration.declId).getD [])
      (phase2PreState declaration (setContainerFlag interfaceTypeId true s))
      = .error (.unreachableError, s5) := by
    rw [h3]; exact hloop
  refine ⟨setContainerFlag interfaceTypeId false (typeActivationsLeaveState s5),
    ?_, ?_, ?_⟩
  · rw [hvisit, withDeferred_apply, visitInterfaceDeclarationBody_run,
      withDeferred_apply]
    simp only [visitInterfaceDeclarationInner, bind_eq_Check_bind, Check.bind,
      heapGet, phase2PreState_typeHeap, setContainerFlag_typeHeap, h2,
      phase2PreState_interfaceNestedDeclarations,
      setContainerFlag_interfaceNestedDeclarations, getState, hloop']
  · simp only [setContainerFlag, typeActivationsLeaveState]
    simp [hph, phase2PreState_typeHeap, setContainerFlag_typeHeap]
  · simp only [setContainerFlag, typeActivationsLeaveState]
    simp [hpm, phase2PreState_memberOrigins, setContainerFlag_memberOrigins]


/-- C8 witness: a concrete state whose recorded nested declaration for
nested type `A` has no identifier; phase 2 panics with the unreachable
error and populates nothing. -/
theorem claim_C8_witness :
    ∃ s', VisitInterfaceDeclaration
        { declId := 0, access := .notSpecified,
          compositeKind := .resourceKind,
          identifier := ⟨"X", ⟨0, 0, 0⟩⟩,
          members := { fields := [], functions := [], specialFunctions := [] },
          interfaceDeclarations := [], compositeDeclarations := [],
          startPos := ⟨0, 0, 0⟩ }
        { nextTypeId := 2,
          typeHeap := [(0,
            { isInterface := true, identifier := "X",
              compositeKind := .resourceKind, nestedTypes := [("A", 1)],
              containerType := none, members := none,
              initializerParameterTypeAnnotations := none })],
          containerTypes := [], typeActivations := [[]],
          valueActivations := [[]], diagnostics := [],
          interfaceDeclarationTypes := [(0, 0)],
          interfaceNestedDeclarations := [(0,
            [("A", { identifier := none, isInterface := true,
                     compositeKind := .resourceKind,
                     access := .notSpecified })])],
          memberOrigins := [], occurrences := [] }
        = .error (.unreachableError, s')
      ∧ s'.typeHeap = [(0,
          { isInterface := true, identifier := "X",
            compositeKind := .resourceKind, nestedTypes := [("A", 1)],
            containerType := none, members := none,
            initializerParameterTypeAnnotations := none })]
      ∧ s'.memberOrigins = [] :=
  claim_C8_missing_nested_identifier_panics
    { declId := 0, access := .notSpecified, compositeKind := .resourceKind,
      identifier := ⟨"X", ⟨0, 0, 0⟩⟩,
      members := { fields := [], functions := [], specialFunctions := [] },
      interfaceDeclarations := [], compositeDeclarations := [],
      startPos := ⟨0, 0, 0⟩ }
    { nextTypeId := 2,
      typeHeap := [(0,
        { isInterface := true, identifier := "X",
          compositeKind := .resourceKind, nestedTypes := [("A", 1)],
          containerType := none, members := none,
          initializerParameterTypeAnnotations := none })],
      containerTypes := [], typeActivations := [[]],
      valueActivations := [[]], diagnostics := [],
      interfaceDeclarationTypes := [(0, 0)],
      interfaceNestedDeclarations := [(0,
        [("A", { identifier := none, isInterface := true,
                 compositeKind := .resourceKind,
                 access := .notSpecified })])],
      memberOrigins := [], occurrences := [] }
    0
    { isInterface := true, identifier := "X", compositeKind := .resourceKind,
      nestedTypes := [("A", 1)], containerType := none, members := none,
      initializerParameterTypeAnnotations := none }
    { identifier := none, isInterface := true, compositeKind := .resourceKind,
      access := .notSpecified }
    "A" 1 [] [] rfl rfl rfl (by simp) rfl rfl


/-!
Claim C10: an absent function block skips the body-shape rule.
-/

/-- C10: for every function declared in an interface, if its function
block is absent the per-function check runs only the function visit —
which never produces an invalid-implementation diagnostic — and the
body-shape rule is skipped entirely; when the block is present, exactly
the body-shape diagnostics of that block are added after the function
visit. -/
theorem claim_C10_absent_function_block_skips_body_shape
    (function : FunctionDeclaration) (interfaceTypeId : Nat) (inResource : Bool)
    (declarationKind : DeclarationKind) (s : CheckerState) :
    (function.functionBlock = none →
      checkInterfaceFunction function interfaceTypeId inResource
          declarationKind s
        = .ok ((), { s with diagnostics := (s.diagnostics
            ++ visitFunctionDeclaration function
              { mustExit := false, declareFunction := false,
                checkResourceLoss := false,
                allowAuthAccessModifier := inResource }) })
      ∧ (visitFunctionDeclaration function
          { mustExit := false, declareFunction := false,
            checkResourceLoss := false,
            allowAuthAccessModifier := inResource }).filter
          CheckerError.isInvalidImplementationDiag = [])
    ∧ (∀ block, function.functionBlock = some block →
      checkInterfaceFunction function interfaceTypeId inResource
          declarationKind s
        = .ok ((), { s with diagnostics := (s.diagnostics
            ++ visitFunctionDeclaration function
              { mustExit := false, declareFunction := false,
                checkResourceLoss := false,
                allowAuthAccessModifier := inResource }
            ++ checkInterfaceSpecialFunctionBlock block declarationKind
                .functionKind) })) := by
  constructor
  · intro hnone
    constructor
    · rw [checkInterfaceFunction_run]
      simp [interfaceFunctionDiags, hnone]
    · rw [visitFunctionDeclaration]
      split
      · simp [CheckerError.isInvalidImplementationDiag]
      · simp
  · intro block hsome
    rw [checkInterfaceFunction_run]
    simp [interfaceFunctionDiags, hsome]

/-- C10 witness: a body-less interface function checked concretely —
only the function visit runs and yields no invalid-implementation
diagnostic — and a function with a statement body checked concretely. -/
theorem claim_C10_witness :
    (checkInterfaceFunction
        { access := .notSpecified, identifier := ⟨"f", ⟨0, 0, 0⟩⟩,
          functionBlock := none, startPos := ⟨0, 0, 0⟩ }
        0 false (.interfaceOf .resourceKind)
        { nextTypeId := 0, typeHeap := [], containerTypes := [],
          typeActivations := [[]], valueActivations := [[]],
          diagnostics := [], interfaceDeclarationTypes := [],
          interfaceNestedDeclarations := [], memberOrigins := [],
          occurrences := [] }
      = .ok ((),
        { nextTypeId := 0, typeHeap := [], containerTypes := [],
          typeActivations := [[]], valueActivations := [[]],
          diagnostics := [], interfaceDeclarationTypes := [],
          interfaceNestedDeclarations := [], memberOrigins := [],
          occurrences := [] }))
    ∧ (visitFunctionDeclaration
        { access := .notSpecified, identifier := ⟨"f", ⟨0, 0, 0⟩⟩,
          functionBlock := none, startPos := ⟨0, 0, 0⟩ }
        { mustExit := false, declareFunction := false,
          checkResourceLoss := false, allowAuthAccessModifier := false }).filter
        CheckerError.isInvalidImplementationDiag = [] := by
  have h := claim_C10_absent_function_block_skips_body_shape
    { access := .notSpecified, identifier := ⟨"f", ⟨0, 0, 0⟩⟩,
      functionBlock := none, startPos := ⟨0, 0, 0⟩ }
    0 false (.interfaceOf .resourceKind)
    { nextTypeId := 0, typeHeap := [], containerTypes := [],
      typeActivations := [[]], valueActivations := [[]],
      diagnostics := [], interfaceDeclarationTypes := [],
      interfaceNestedDeclarations := [], memberOrigins := [],
      occurrences := [] }
  obtain ⟨h1, _⟩ := h
  obtain ⟨hrun, hfilter⟩ := h1 rfl
  constructor
  · rw [hrun]
    rfl
  · exact hfilter


/-!
Claim C5: destructor-consistency checking runs exactly for the
resource kind.  The lemmas below show no other check produces a
destructor-consistency diagnostic.
-/

theorem filter_DC_shape (b : FunctionBlock) (k1 k2 : DeclarationKind) :
    (checkInterfaceSpecialFunctionBlock b k1 k2).filter
      CheckerError.isDestructorConsistencyDiag = [] := by
  rw [checkInterfaceSpecialFunctionBlock]
  split
  · simp [CheckerError.isDestructorConsistencyDiag]
  · split <;> simp [CheckerError.isDestructorConsistencyDiag]

theorem filter_DC_accessMod (a : Access) (k : DeclarationKind) (p : Position)
    (c f : Bool) :
    (checkDeclarationAccessModifier a k p c f).filter
      CheckerError.isDestructorConsistencyDiag = [] := by
  rw [checkDeclarationAccessModifier]
  split <;> simp [CheckerError.isDestructorConsistencyDiag]

theorem filter_DC_fieldsAccess (fs : List FieldDeclaration) :
    (checkFieldsAccessModifier fs).filter
      CheckerError.isDestructorConsistencyDiag = [] := by
  induction fs with
  | nil => simp [checkFieldsAccessModifier]
  | cons f rest ih =>
      rw [checkFieldsAccessModifier] at ih ⊢
      rw [List.flatMap_cons, List.filter_append, ih]
      split <;> simp [CheckerError.isDestructorConsistencyDiag]

theorem filter_DC_duplicates (seen : List String)
    (entries : List (String × DeclarationKind × Position)) :
    (reportDuplicateEntries seen entries).filter
      CheckerError.isDestructorConsistencyDiag = [] := by
  induction entries generalizing seen with
  | nil => simp [reportDuplicateEntries]
  | cons e rest ih =>
      obtain ⟨n, k, p⟩ := e
      rw [reportDuplicateEntries, List.filter_append, ih]
      split <;> simp [CheckerError.isDestructorConsistencyDiag]

theorem filter_DC_declareNestedPure (nds : List (String × NestedDeclaration)) :
    ∀ (nt : List (String × Nat)) (scope : List (String × Nat)),
    ((declareNestedPure nt nds scope).2.1).filter
      CheckerError.isDestructorConsistencyDiag = [] := by
  intro nt
  induction nt with
  | nil => intro scope; simp [declareNestedPure]
  | cons p rest ih =>
      intro scope
      obtain ⟨name, tid⟩ := p
      rw [declareNestedPure]
      cases hname : lookupAssoc nds name with
      | none => simp
      | some d =>
          cases hidf : d.identifier with
          | none => simp [hidf]
          | some idf =>
              simp only [hidf]
              rw [List.filter_append, ih]
              split <;> simp [CheckerError.isDestructorConsistencyDiag]

theorem filter_DC_initializers (initializers : List SpecialFunctionDeclaration)
    (fields : List FieldDeclaration) (k : DeclarationKind) (ti : String)
    (pta : List TypeAnnot) (ck : ContainerKind) :
    (checkInitializers initializers fields k ti pta ck).filter
      CheckerError.isDestructorConsistencyDiag = [] := by
  have hflat : ∀ l : List SpecialFunctionDeclaration,
      (l.flatMap (specialFunctionBodyShapeDiags k .initializerKind ck)).filter
        CheckerError.isDestructorConsistencyDiag = [] := by
    intro l
    induction l with
    | nil => simp
    | cons i rest ih =>
        rw [List.flatMap_cons, List.filter_append, ih]
        rw [specialFunctionBodyShapeDiags]
        cases hfb : i.functionBlock with
        | none => simp
        | some block => cases ck <;> simp [filter_DC_shape]
  have h1 : (duplicateInitializerDiags initializers).filter
      CheckerError.isDestructorConsistencyDiag = [] := by
    cases initializers with
    | nil => simp [duplicateInitializerDiags]
    | cons a t =>
        cases t with
        | nil => simp [duplicateInitializerDiags]
        | cons b r =>
            simp [duplicateInitializerDiags,
              CheckerError.isDestructorConsistencyDiag]
  rw [checkInitializers, List.filter_append, h1, hflat]
  simp

theorem filter_DC_unknownSpecial (sf : List SpecialFunctionDeclaration) :
    (checkUnknownSpecialFunctions sf).filter
      CheckerError.isDestructorConsistencyDiag = [] := by
  induction sf with
  | nil => simp [checkUnknownSpecialFunctions]
  | cons f rest ih =>
      rw [checkUnknownSpecialFunctions] at ih ⊢
      rw [List.filterMap_cons]
      by_cases hc : f.declarationKind = DeclarationKind.initializerKind
          ∨ f.declarationKind = DeclarationKind.destructorKind
      · simp only [if_pos hc]
        exact ih
      · simp only [if_neg hc]
        rw [List.filter_cons]
        simp [CheckerError.isDestructorConsistencyDiag, ih]

theorem filter_DC_visitFunction (f : FunctionDeclaration)
    (o : FunctionDeclarationOptions) :
    (visitFunctionDeclaration f o).filter
      CheckerError.isDestructorConsistencyDiag = [] := by
  rw [visitFunctionDeclaration]
  split <;> simp [CheckerError.isDestructorConsistencyDiag]

theorem filter_DC_interfaceFunctionsDiags (fns : List FunctionDeclaration)
    (inResource : Bool) (k : DeclarationKind) :
    (interfaceFunctionsDiags fns inResource k).filter
      CheckerError.isDestructorConsistencyDiag = [] := by
  induction fns with
  | nil => simp [interfaceFunctionsDiags]
  | cons f rest ih =>
      rw [interfaceFunctionsDiags] at ih ⊢
      rw [List.flatMap_cons, List.filter_append, ih,
        interfaceFunctionDiags, List.filter_append, filter_DC_visitFunction]
      cases hfb : f.functionBlock <;> simp [filter_DC_shape]

theorem filter_DC_resourceNesting (fields : List (String × FieldDeclaration))
    (members : List (String × MemberInfo)) (ck : CompositeKind) :
    (checkResourceFieldNesting fields members ck).filter
      CheckerError.isDestructorConsistencyDiag = [] := by
  rw [checkResourceFieldNesting]
  split
  · induction fields with
    | nil => simp
    | cons f rest ih =>
        rw [List.filterMap_cons]
        by_cases hc : f.2.typeAnnot.nestsResourceBadly = true
        · simp only [if_pos hc]
          rw [List.filter_cons]
          simp [CheckerError.isDestructorConsistencyDiag, ih]
        · simp only [if_neg hc]
          exact ih
  · simp

theorem filter_DC_support (ck : CompositeKind) (k : DeclarationKind)
    (i : Identifier) :
    (checkCompositeDeclarationSupport ck k i).filter
      CheckerError.isDestructorConsistencyDiag = [] := by
  cases ck <;>
    simp [checkCompositeDeclarationSupport,
      CheckerError.isDestructorConsistencyDiag]

theorem filter_DC_phase2Diags (declaration : InterfaceDeclaration)
    (tyData : TypeData) (nds : List (String × NestedDeclaration)) :
    (phase2Diags declaration tyData nds).filter
      CheckerError.isDestructorConsistencyDiag
      = (if declaration.compositeKind = .resourceKind
         then (checkDestructorConsistency declaration.members.destructors
                declaration.members.fieldsByIdentifier
                declaration.declarationKind .interfaceContainer).filter
                CheckerError.isDestructorConsistencyDiag
         else []) := by
  rw [phase2Diags, phase2MemberDiags]
  simp only [List.filter_append]
  rw [filter_DC_accessMod, filter_DC_fieldsAccess, filter_DC_declareNestedPure,
    filter_DC_initializers, filter_DC_unknownSpecial,
    filter_DC_interfaceFunctionsDiags, filter_DC_resourceNesting,
    filter_DC_support]
  have hnested : (checkNestedIdentifiers declaration.members.fields
      declaration.members.functions declaration.interfaceDeclarations
      declaration.compositeDeclarations).filter
      CheckerError.isDestructorConsistencyDiag = [] := by
    rw [checkNestedIdentifiers]
    exact filter_DC_duplicates _ _
  rw [hnested]
  rw [checkDestructors]
  split
  · simp
  · simp


theorem phase2OkState_diagnostics (d : InterfaceDeclaration) (tid : Nat)
    (tyData : TypeData) (s : CheckerState) :
    (phase2OkState d tid tyData s).diagnostics
      = s.diagnostics ++ phase2Diags d tyData
          ((lookupAssoc s.interfaceNestedDeclarations d.declId).getD []) := rfl

/-- C5: during phase-2 checking of an interface declaration (a run
that completes), the destructor-consistency diagnostics added to the
sink are exactly those of the destructor-consistency check when the
declaration's composite kind is the resource kind, and none otherwise:
the consistency check against the field set runs if and only if the
kind is the resource kind. -/
theorem claim_C5_destructor_consistency_iff_resource
    (declaration : InterfaceDeclaration) (s : CheckerState)
    (interfaceTypeId : Nat) (tyData : TypeData)
    (h1 : lookupAssoc s.interfaceDeclarationTypes declaration.declId
      = some interfaceTypeId)
    (h2 : lookupAssoc s.typeHeap interfaceTypeId = some tyData)
    (hfault : (declareNestedPure tyData.nestedTypes
      ((lookupAssoc s.interfaceNestedDeclarations declaration.declId).getD [])
      []).2.2 = none) :
    ∃ s', VisitInterfaceDeclaration declaration s = .ok ((), s')
      ∧ s'.diagnostics.filter CheckerError.isDestructorConsistencyDiag
        = s.diagnostics.filter CheckerError.isDestructorConsistencyDiag
          ++ (if declaration.compositeKind = .resourceKind
              then (checkDestructorConsistency declaration.members.destructors
                  declaration.members.fieldsByIdentifier
                  declaration.declarationKind .interfaceContainer).filter
                  CheckerError.isDestructorConsistencyDiag
              else []) := by
  refine ⟨phase2OkState declaration interfaceTypeId tyData s,
    VisitInterfaceDeclaration_run_ok declaration s interfaceTypeId tyData
      h1 h2 hfault, ?_⟩
  rw [phase2OkState_diagnostics, List.filter_append, filter_DC_phase2Diags]

/-- C5 witness: a concrete resource-kind interface with two destructor
signatures, checked from a concrete phase-1 state. -/
theorem claim_C5_witness :
    ∃ s', VisitInterfaceDeclaration
        { declId := 0, access := .notSpecified,
          compositeKind := .resourceKind,
          identifier := ⟨"X", ⟨0, 0, 0⟩⟩,
          members := ⟨[], [],
            [⟨.destructorKind, [], none, ⟨1, 1, 1⟩⟩,
             ⟨.destructorKind, [], none, ⟨2, 2, 2⟩⟩]⟩,
          interfaceDeclarations := [], compositeDeclarations := [],
          startPos := ⟨0, 0, 0⟩ }
        { nextTypeId := 1,
          typeHeap := [(0,
            { isInterface := true, identifier := "X",
              compositeKind := .resourceKind, nestedTypes := [],
              containerType := none, members := none,
              initializerParameterTypeAnnotations := none })],
          containerTypes := [], typeActivations := [[]],
          valueActivations := [[]], diagnostics := [],
          interfaceDeclarationTypes := [(0, 0)],
          interfaceNestedDeclarations := [(0, [])],
          memberOrigins := [], occurrences := [] }
        = .ok ((), s')
      ∧ s'.diagnostics.filter CheckerError.isDestructorConsistencyDiag
        = [].filter CheckerError.isDestructorConsistencyDiag
          ++ (if CompositeKind.resourceKind = CompositeKind.resourceKind
              then (checkDestructorConsistency
                  [⟨.destructorKind, [], none, ⟨1, 1, 1⟩⟩,
                   ⟨.destructorKind, [], none, ⟨2, 2, 2⟩⟩]
                  [] (.interfaceOf .resourceKind) .interfaceContainer).filter
                  CheckerError.isDestructorConsistencyDiag
              else []) :=
  claim_C5_destructor_consistency_iff_resource
    { declId := 0, access := .notSpecified, compositeKind := .resourceKind,
      identifier := ⟨"X", ⟨0, 0, 0⟩⟩,
      members := ⟨[], [],
        [⟨.destructorKind, [], none, ⟨1, 1, 1⟩⟩,
         ⟨.destructorKind, [], none, ⟨2, 2, 2⟩⟩]⟩,
      interfaceDeclarations := [], compositeDeclarations := [],
      startPos := ⟨0, 0, 0⟩ }
    { nextTypeId := 1,
      typeHeap := [(0,
        { isInterface := true, identifier := "X",
          compositeKind := .resourceKind, nestedTypes := [],
          containerType := none, members := none,
          initializerParameterTypeAnnotations := none })],
      containerTypes := [], typeActivations := [[]],
      valueActivations := [[]], diagnostics := [],
      interfaceDeclarationTypes := [(0, 0)],
      interfaceNestedDeclarations := [(0, [])],
      memberOrigins := [], occurrences := [] }
    0
    { isInterface := true, identifier := "X",
      compositeKind := .resourceKind, nestedTypes := [],
      containerType := none, members := none,
      initializerParameterTypeAnnotations := none }
    rfl rfl rfl


/-!
Claim C9: phase 2 is idempotent on an already-finalized interface type.
-/

theorem phase2OkState_interfaceDeclarationTypes (d : InterfaceDeclaration)
    (tid : Nat) (tyData : TypeData) (s : CheckerState) :
    (phase2OkState d tid tyData s).interfaceDeclarationTypes
      = s.interfaceDeclarationTypes := rfl

theorem phase2OkState_interfaceNestedDeclarations (d : InterfaceDeclaration)
    (tid : Nat) (tyData : TypeData) (s : CheckerState) :
    (phase2OkState d tid tyData s).interfaceNestedDeclarations
      = s.interfaceNestedDeclarations := rfl

theorem phase2OkState_typeHeap (d : InterfaceDeclaration)
    (tid : Nat) (tyData : TypeData) (s : CheckerState) :
    (phase2OkState d tid tyData s).typeHeap
      = insertAssoc s.typeHeap tid
          { tyData with
              members := some (membersAndOrigins d.members.fields
                d.members.functions false).1,
              initializerParameterTypeAnnotations :=
                some (initializerParameterTypeAnnotationsOf
                  d.members.initializers) } := rfl

/-- C9: running phase-2 checking a second time on the already-finalized
interface type, with the same declaration and the state produced by the
first run, succeeds, emits exactly the same diagnostic list as the
first run, and leaves the same member set on the type. -/
theorem claim_C9_phase2_idempotent (declaration : InterfaceDeclaration)
    (s : CheckerState) (interfaceTypeId : Nat) (tyData : TypeData)
    (h1 : lookupAssoc s.interfaceDeclarationTypes declaration.declId
      = some interfaceTypeId)
    (h2 : lookupAssoc s.typeHeap interfaceTypeId = some tyData)
    (hfault : (declareNestedPure tyData.nestedTypes
      ((lookupAssoc s.interfaceNestedDeclarations declaration.declId).getD [])
      []).2.2 = none) :
    ∃ emitted s1 s2,
      VisitInterfaceDeclaration declaration s = .ok ((), s1)
      ∧ s1.diagnostics = s.diagnostics ++ emitted
      ∧ VisitInterfaceDeclaration declaration s1 = .ok ((), s2)
      ∧ s2.diagnostics = s1.diagnostics ++ emitted
      ∧ lookupAssoc s2.typeHeap interfaceTypeId
        = lookupAssoc s1.typeHeap interfaceTypeId
      ∧ (lookupAssoc s1.typeHeap interfaceTypeId).map TypeData.members
        = some (some (membersAndOrigins declaration.members.fields
            declaration.members.functions false).1) := by
  have h1' : lookupAssoc (phase2OkState declaration interfaceTypeId tyData
      s).interfaceDeclarationTypes declaration.declId = some interfaceTypeId := by
    rw [phase2OkState_interfaceDeclarationTypes]; exact h1
  have h2' : lookupAssoc (phase2OkState declaration interfaceTypeId tyData
      s).typeHeap interfaceTypeId
      = some { tyData with
          members := some (membersAndOrigins declaration.members.fields
            declaration.members.functions false).1,
          initializerParameterTypeAnnotations :=
            some (initializerParameterTypeAnnotationsOf
              declaration.members.initializers) } := by
    rw [phase2OkState_typeHeap]
    exact lookupAssoc_insertAssoc_self _ _ _
  have hfault' : (declareNestedPure
      ({ tyData with
          members := some (membersAndOrigins declaration.members.fields
            declaration.members.functions false).1,
          initializerParameterTypeAnnotations :=
            some (initializerParameterTypeAnnotationsOf
              declaration.members.initializers) } : TypeData).nestedTypes
      ((lookupAssoc (phase2OkState declaration interfaceTypeId tyData
          s).interfaceNestedDeclarations declaration.declId).getD [])
      []).2.2 = none := by
    rw [phase2OkState_interfaceNestedDeclarations]
    exact hfault
  refine ⟨phase2Diags declaration tyData
      ((lookupAssoc s.interfaceNestedDeclarations declaration.declId).getD []),
    phase2OkState declaration interfaceTypeId tyData s, _,
    VisitInterfaceDeclaration_run_ok declaration s interfaceTypeId tyData
      h1 h2 hfault,
    phase2OkState_diagnostics declaration interfaceTypeId tyData s,
    VisitInterfaceDeclaration_run_ok declaration
      (phase2OkState declaration interfaceTypeId tyData s) interfaceTypeId
      _ h1' h2' hfault', ?_, ?_, ?_⟩
  · rw [phase2OkState_diagnostics, phase2OkState_interfaceNestedDeclarations]
    rfl
  · rw [phase2OkState_typeHeap, phase2OkState_typeHeap,
      lookupAssoc_insertAssoc_self, lookupAssoc_insertAssoc_self]
  · rw [phase2OkState_typeHeap, lookupAssoc_insertAssoc_self]
    rfl


/-- C9 witness: phase 2 run twice on a concrete declaration and state. -/
theorem claim_C9_witness :
    ∃ emitted s1 s2,
      VisitInterfaceDeclaration
        { declId := 7, access := .publicAccess,
          compositeKind := .structureKind,
          identifier := ⟨"Y", ⟨3, 1, 1⟩⟩,
          members := ⟨[], [], []⟩,
          interfaceDeclarations := [], compositeDeclarations := [],
          startPos := ⟨3, 1, 1⟩ }
        { nextTypeId := 4,
          typeHeap := [(3,
            { isInterface := true, identifier := "Y",
              compositeKind := .structureKind, nestedTypes := [],
              containerType := none, members := none,
              initializerParameterTypeAnnotations := none })],
          containerTypes := [], typeActivations := [[("Y", 3)]],
          valueActivations := [[]], diagnostics := [],
          interfaceDeclarationTypes := [(7, 3)],
          interfaceNestedDeclarations := [(7, [])],
          memberOrigins := [], occurrences := [("Y", 3)] }
        = .ok ((), s1)
      ∧ s1.diagnostics = [] ++ emitted
      ∧ VisitInterfaceDeclaration
          { declId := 7, access := .publicAccess,
            compositeKind := .structureKind,
            identifier := ⟨"Y", ⟨3, 1, 1⟩⟩,
            members := ⟨[], [], []⟩,
            interfaceDeclarations := [], compositeDeclarations := [],
            startPos := ⟨3, 1, 1⟩ } s1 = .ok ((), s2)
      ∧ s2.diagnostics = s1.diagnostics ++ emitted
      ∧ lookupAssoc s2.typeHeap 3 = lookupAssoc s1.typeHeap 3
      ∧ (lookupAssoc s1.typeHeap 3).map TypeData.members
        = some (some (membersAndOrigins [] [] false).1) :=
  claim_C9_phase2_idempotent
    { declId := 7, access := .publicAccess, compositeKind := .structureKind,
      identifier := ⟨"Y", ⟨3, 1, 1⟩⟩,
      members := ⟨[], [], []⟩,
      interfaceDeclarations := [], compositeDeclarations := [],
      startPos := ⟨3, 1, 1⟩ }
    { nextTypeId := 4,
      typeHeap := [(3,
        { isInterface := true, identifier := "Y",
          compositeKind := .structureKind, nestedTypes := [],
          containerType := none, members := none,
          initializerParameterTypeAnnotations := none })],
      containerTypes := [], typeActivations := [[("Y", 3)]],
      valueActivations := [[]], diagnostics := [],
      interfaceDeclarationTypes := [(7, 3)],
      interfaceNestedDeclarations := [(7, [])],
      memberOrigins := [], occurrences := [("Y", 3)] }
    3
    { isInterface := true, identifier := "Y",
      compositeKind := .structureKind, nestedTypes := [],
      containerType := none, members := none,
      initializerParameterTypeAnnotations := none }
    rfl rfl rfl


/-!
Claim C7: two same-named sibling interface declarations produce exactly
one identifier-collision diagnostic and are both checked fully.
-/

theorem declareInterfaceDeclaration_run_simple
    (declaration : InterfaceDeclaration) (s : CheckerState)
    (hI : declaration.interfaceDeclarations = [])
    (hC : declaration.compositeDeclarations = []) :
    declareInterfaceDeclaration declaration s = .ok (s.nextTypeId,
      { s with
          nextTypeId := s.nextTypeId + 1,
          typeHeap := insertAssoc s.typeHeap s.nextTypeId
            { isInterface := true,
              identifier := declaration.identifier.identifier,
              compositeKind := declaration.compositeKind, nestedTypes := [],
              containerType := none, members := none,
              initializerParameterTypeAnnotations := none },
          typeActivations :=
            insertAssoc (s.typeActivations.headD [])
              declaration.identifier.identifier s.nextTypeId
              :: s.typeActivations.tail,
          diagnostics := s.diagnostics
            ++ (match lookupAssoc (s.typeActivations.headD [])
                  declaration.identifier.identifier with
                | some _ =>
                    [CheckerError.redeclaration declaration.declarationKind
                      declaration.identifier.identifier
                      declaration.identifier.pos]
                | none => []),
          occurrences := s.occurrences
            ++ [(declaration.identifier.identifier, s.nextTypeId)],
          interfaceNestedDeclarations :=
            insertAssoc s.interfaceNestedDeclarations declaration.declId [],
          interfaceDeclarationTypes :=
            insertAssoc s.interfaceDeclarationTypes declaration.declId
              s.nextTypeId }) := by
  cases hcol : lookupAssoc (s.typeActivations.head?.getD [])
      declaration.identifier.identifier with
  | none =>
      simp [declareInterfaceDeclaration, Check.bind, allocType,
        typeActivationsDeclareType, report, reportAll,
        recordVariableDeclarationOccurrence, modifyState, typeActivationsEnter,
        valueActivationsEnter, withDeferred, visitNestedDeclarations,
        visitNestedDeclarationsLoop, attachNestedTypes,
        typeActivationsLeaveState, valueActivationsLeaveState, hI, hC, hcol]
  | some e0 =>
      simp [declareInterfaceDeclaration, Check.bind, allocType,
        typeActivationsDeclareType, report, reportAll,
        recordVariableDeclarationOccurrence, modifyState, typeActivationsEnter,
        valueActivationsEnter, withDeferred, visitNestedDeclarations,
        visitNestedDeclarationsLoop, attachNestedTypes,
        typeActivationsLeaveState, valueActivationsLeaveState, hI, hC, hcol]


theorem filter_redecl_accessMod (a : Access) (k : DeclarationKind) (p : Position)
    (c f : Bool) :
    (checkDeclarationAccessModifier a k p c f).filter
      CheckerError.isRedeclarationDiag = [] := by
  rw [checkDeclarationAccessModifier]
  split <;> simp [CheckerError.isRedeclarationDiag]

theorem filter_redecl_support (ck : CompositeKind) (k : DeclarationKind)
    (i : Identifier) :
    (checkCompositeDeclarationSupport ck k i).filter
      CheckerError.isRedeclarationDiag = [] := by
  cases ck <;>
    simp [checkCompositeDeclarationSupport, CheckerError.isRedeclarationDiag]

theorem filter_redecl_phase2Diags_emptyMembers (d : InterfaceDeclaration)
    (tyData : TypeData) (nds : List (String × NestedDeclaration))
    (hf : d.members.fields = []) (hfn : d.members.functions = [])
    (hsf : d.members.specialFunctions = [])
    (hI : d.interfaceDeclarations = []) (hC : d.compositeDeclarations = [])
    (hnt : tyData.nestedTypes = []) :
    (phase2Diags d tyData nds).filter CheckerError.isRedeclarationDiag = [] := by
  simp [phase2Diags, phase2MemberDiags, hf, hfn, hsf, hI, hC, hnt,
    checkFieldsAccessModifier, checkNestedIdentifiers, nestedIdentifierEntries,
    reportDuplicateEntries, declareNestedPure, checkInitializers,
    duplicateInitializerDiags, Members.initializers, Members.destructors,
    Members.fieldsByIdentifier, checkDestructors, checkDestructorConsistency,
    duplicateDestructorDiags, checkUnknownSpecialFunctions,
    interfaceFunctionsDiags, checkResourceFieldNesting,
    List.filter_append, filter_redecl_accessMod, filter_redecl_support]


theorem claim_C7_sibling_collision_single_diagnostic (name : String)
    (p1 p2 q1 q2 : Position) (ck : CompositeKind) (a1 a2 : Access) :
    ∃ sA sB s1 s2,
      declareInterfaceDeclaration
          ⟨10, a1, ck, ⟨name, p1⟩, ⟨[], [], []⟩, [], [], q1⟩
          ⟨0, [], [], [[]], [[]], [], [], [], [], []⟩ = .ok (0, sA)
      ∧ declareInterfaceDeclaration
          ⟨11, a2, ck, ⟨name, p2⟩, ⟨[], [], []⟩, [], [], q2⟩ sA = .ok (1, sB)
      ∧ VisitInterfaceDeclaration
          ⟨10, a1, ck, ⟨name, p1⟩, ⟨[], [], []⟩, [], [], q1⟩ sB = .ok ((), s1)
      ∧ VisitInterfaceDeclaration
          ⟨11, a2, ck, ⟨name, p2⟩, ⟨[], [], []⟩, [], [], q2⟩ s1 = .ok ((), s2)
      ∧ s2.diagnostics.filter CheckerError.isRedeclarationDiag
        = [.redeclaration (.interfaceOf ck) name p2]
      ∧ (lookupAssoc s2.typeHeap 0).map TypeData.members = some (some [])
      ∧ (lookupAssoc s2.typeHeap 1).map TypeData.members = some (some []) := by
  have e1 : declareInterfaceDeclaration
      ⟨10, a1, ck, ⟨name, p1⟩, ⟨[], [], []⟩, [], [], q1⟩
      ⟨0, [], [], [[]], [[]], [], [], [], [], []⟩
      = .ok (0, ⟨1, [(0, ⟨true, name, ck, [], none, none, none⟩)], [],
          [[(name, 0)]], [[]], [], [(10, 0)], [(10, [])], [], [(name, 0)]⟩) := by
    rw [declareInterfaceDeclaration_run_simple _ _ rfl rfl]
    simp
  have e2 : declareInterfaceDeclaration
      ⟨11, a2, ck, ⟨name, p2⟩, ⟨[], [], []⟩, [], [], q2⟩
      ⟨1, [(0, ⟨true, name, ck, [], none, none, none⟩)], [],
        [[(name, 0)]], [[]], [], [(10, 0)], [(10, [])], [], [(name, 0)]⟩
      = .ok (1, ⟨2,
          [(0, ⟨true, name, ck, [], none, none, none⟩),
           (1, ⟨true, name, ck, [], none, none, none⟩)], [],
          [[(name, 1)]], [[]],
          [.redeclaration (.interfaceOf ck) name p2],
          [(10, 0), (11, 1)], [(10, []), (11, [])], [],
          [(name, 0), (name, 1)]⟩) := by
    rw [declareInterfaceDeclaration_run_simple _ _ rfl rfl]
    simp [InterfaceDeclaration.declarationKind]
  have e3 : VisitInterfaceDeclaration
      ⟨10, a1, ck, ⟨name, p1⟩, ⟨[], [], []⟩, [], [], q1⟩
      ⟨2, [(0, ⟨true, name, ck, [], none, none, none⟩),
           (1, ⟨true, name, ck, [], none, none, none⟩)], [],
        [[(name, 1)]], [[]],
        [.redeclaration (.interfaceOf ck) name p2],
        [(10, 0), (11, 1)], [(10, []), (11, [])], [],
        [(name, 0), (name, 1)]⟩
      = .ok ((), phase2OkState
          ⟨10, a1, ck, ⟨name, p1⟩, ⟨[], [], []⟩, [], [], q1⟩ 0
          ⟨true, name, ck, [], none, none, none⟩
          ⟨2, [(0, ⟨true, name, ck, [], none, none, none⟩),
               (1, ⟨true, name, ck, [], none, none, none⟩)], [],
            [[(name, 1)]], [[]],
            [.redeclaration (.interfaceOf ck) name p2],
            [(10, 0), (11, 1)], [(10, []), (11, [])], [],
            [(name, 0), (name, 1)]⟩) :=
    VisitInterfaceDeclaration_run_ok _ _ _ _ (by simp) (by simp) rfl
  have h1' : lookupAssoc (phase2OkState
      ⟨10, a1, ck, ⟨name, p1⟩, ⟨[], [], []⟩, [], [], q1⟩ 0
      ⟨true, name, ck, [], none, none, none⟩
      ⟨2, [(0, ⟨true, name, ck, [], none, none, none⟩),
           (1, ⟨true, name, ck, [], none, none, none⟩)], [],
        [[(name, 1)]], [[]],
        [.redeclaration (.interfaceOf ck) name p2],
        [(10, 0), (11, 1)], [(10, []), (11, [])], [],
        [(name, 0), (name, 1)]⟩).interfaceDeclarationTypes 11 = some 1 := by
    rw [phase2OkState_interfaceDeclarationTypes]
    simp
  have h2' : lookupAssoc (phase2OkState
      ⟨10, a1, ck, ⟨name, p1⟩, ⟨[], [], []⟩, [], [], q1⟩ 0
      ⟨true, name, ck, [], none, none, none⟩
      ⟨2, [(0, ⟨true, name, ck, [], none, none, none⟩),
           (1, ⟨true, name, ck, [], none, none, none⟩)], [],
        [[(name, 1)]], [[]],
        [.redeclaration (.interfaceOf ck) name p2],
        [(10, 0), (11, 1)], [(10, []), (11, [])], [],
        [(name, 0), (name, 1)]⟩).typeHeap 1
      = some ⟨true, name, ck, [], none, none, none⟩ := by
    rw [phase2OkState_typeHeap]
    simp
  have hfault' : (declareNestedPure
      (⟨true, name, ck, [], none, none, none⟩ : TypeData).nestedTypes
      ((lookupAssoc (phase2OkState
          ⟨10, a1, ck, ⟨name, p1⟩, ⟨[], [], []⟩, [], [], q1⟩ 0
          ⟨true, name, ck, [], none, none, none⟩
          ⟨2, [(0, ⟨true, name, ck, [], none, none, none⟩),
               (1, ⟨true, name, ck, [], none, none, none⟩)], [],
            [[(name, 1)]], [[]],
            [.redeclaration (.interfaceOf ck) name p2],
            [(10, 0), (11, 1)], [(10, []), (11, [])], [],
            [(name, 0), (name, 1)]⟩).interfaceNestedDeclarations 11).getD [])
      []).2.2 = none := by
    rw [phase2OkState_interfaceNestedDeclarations]
    simp [declareNestedPure]
  have e4 := VisitInterfaceDeclaration_run_ok
    ⟨11, a2, ck, ⟨name, p2⟩, ⟨[], [], []⟩, [], [], q2⟩
    (phase2OkState
      ⟨10, a1, ck, ⟨name, p1⟩, ⟨[], [], []⟩, [], [], q1⟩ 0
      ⟨true, name, ck, [], none, none, none⟩
      ⟨2, [(0, ⟨true, name, ck, [], none, none, none⟩),
           (1, ⟨true, name, ck, [], none, none, none⟩)], [],
        [[(name, 1)]], [[]],
        [.redeclaration (.interfaceOf ck) name p2],
        [(10, 0), (11, 1)], [(10, []), (11, [])], [],
        [(name, 0), (name, 1)]⟩)
    1 ⟨true, name, ck, [], none, none, none⟩ h1' h2' hfault'
  refine ⟨_, _, _, _, e1, e2, e3, e4, ?_, ?_, ?_⟩
  · rw [phase2OkState_diagnostics, phase2OkState_interfaceNestedDeclarations,
      phase2OkState_diagnostics, List.filter_append, List.filter_append,
      filter_redecl_phase2Diags_emptyMembers _ _ _ rfl rfl rfl rfl rfl rfl,
      filter_redecl_phase2Diags_emptyMembers _ _ _ rfl rfl rfl rfl rfl rfl]
    simp [CheckerError.isRedeclarationDiag]
  · rw [phase2OkState_typeHeap, phase2OkState_typeHeap]
    simp [membersAndOrigins]
  · rw [phase2OkState_typeHeap, phase2OkState_typeHeap]
    simp [membersAndOrigins]


/-!
Claim C6: round-trip of nested types through phase 1.  Run lemmas for
the nested-declaration loop and the attach loops of
`declareInterfaceDeclaration`.
-/

theorem visitNestedDeclarationsLoop_run :
    ∀ (decls : List NestedDeclaration)
      (declMap : List (String × NestedDeclaration)) (accI accC : List Nat)
      (s : CheckerState) (scope : List (String × Nat))
      (rest : List (List (String × Nat))),
    s.typeActivations = scope :: rest →
    ∃ declMap' scope' errs,
      visitNestedDeclarationsLoop decls declMap accI accC s
        = .ok ((declMap',
            accI ++ interfaceIdsOf (allocPairs s.nextTypeId decls),
            accC ++ compositeIdsOf (allocPairs s.nextTypeId decls)),
          { s with
              nextTypeId :=
                s.nextTypeId + (allocPairs s.nextTypeId decls).length,
              typeHeap := heapAfterAlloc s.typeHeap
                (allocPairs s.nextTypeId decls),
              typeActivations := scope' :: rest,
              diagnostics := s.diagnostics ++ errs }) := by
  intro decls
  induction decls with
  | nil =>
      intro declMap accI accC s scope rest hact
      refine ⟨declMap, scope, [], ?_⟩
      obtain ⟨f1, f2, f3, f4, f5, f6, f7, f8, f9, f10⟩ := s
      simp only at hact
      subst hact
      simp [visitNestedDeclarationsLoop, allocPairs, heapAfterAlloc,
        interfaceIdsOf, compositeIdsOf]
  | cons d restD ih =>
      intro declMap accI accC s scope rest hact
      cases hident : d.identifier with
      | none =>
          obtain ⟨declMap', scope', errs, hrun⟩ :=
            ih declMap accI accC s scope rest hact
          refine ⟨declMap', scope', errs, ?_⟩
          rw [visitNestedDeclarationsLoop]
          simp only [hident]
          rw [hrun]
          simp only [allocPairs, hident]
      | some i =>
          have hscopehead : s.typeActivations.head?.getD [] = scope := by
            rw [hact]; rfl
          have htail : s.typeActivations.tail = rest := by
            rw [hact]; rfl
          cases hscope : lookupAssoc scope i.identifier with
          | none =>
              have hstep : visitNestedDeclarationsLoop (d :: restD) declMap
                  accI accC s
                  = visitNestedDeclarationsLoop restD
                      (insertAssoc declMap i.identifier d)
                      (if d.isInterface then accI ++ [s.nextTypeId] else accI)
                      (if d.isInterface then accC else accC ++ [s.nextTypeId])
                      { s with
                          nextTypeId := s.nextTypeId + 1,
                          typeHeap := insertAssoc s.typeHeap s.nextTypeId
                            (freshNestedRecord d i),
                          typeActivations :=
                            insertAssoc scope i.identifier s.nextTypeId
                              :: rest } := by
                rw [visitNestedDeclarationsLoop]
                simp [hident, Check.bind, allocType,
                  typeActivationsDeclareType, hscopehead, htail, hscope,
                  report, freshNestedRecord]
              obtain ⟨declMap', scope', errs, hrun⟩ :=
                ih (insertAssoc declMap i.identifier d)
                  (if d.isInterface then accI ++ [s.nextTypeId] else accI)
                  (if d.isInterface then accC else accC ++ [s.nextTypeId])
                  { s with
                      nextTypeId := s.nextTypeId + 1,
                      typeHeap := insertAssoc s.typeHeap s.nextTypeId
                        (freshNestedRecord d i),
                      typeActivations :=
                        insertAssoc scope i.identifier s.nextTypeId :: rest }
                  (insertAssoc scope i.identifier s.nextTypeId) rest rfl
              refine ⟨declMap', scope', errs, ?_⟩
              rw [hstep, hrun]
              simp only [allocPairs, hident, interfaceIdsOf, compositeIdsOf,
                heapAfterAlloc, List.filter_cons, List.length_cons,
                List.foldl_cons]
              cases hisI : d.isInterface <;>
                simp [hisI, List.append_assoc, Nat.add_comm, Nat.add_assoc,
                  Nat.add_left_comm]
          | some e0 =>
              have hstep : visitNestedDeclarationsLoop (d :: restD) declMap
                  accI accC s
                  = visitNestedDeclarationsLoop restD
                      (insertAssoc declMap i.identifier d)
                      (if d.isInterface then accI ++ [s.nextTypeId] else accI)
                      (if d.isInterface then accC else accC ++ [s.nextTypeId])
                      { s with
                          nextTypeId := s.nextTypeId + 1,
                          typeHeap := insertAssoc s.typeHeap s.nextTypeId
                            (freshNestedRecord d i),
                          typeActivations :=
                            insertAssoc scope i.identifier s.nextTypeId
                              :: rest,
                          diagnostics := s.diagnostics ++
                            [CheckerError.redeclaration d.declarationKind
                              i.identifier i.pos] } := by
                rw [visitNestedDeclarationsLoop]
                simp [hident, Check.bind, allocType,
                  typeActivationsDeclareType, hscopehead, htail, hscope,
                  report, reportAll, freshNestedRecord]
              obtain ⟨declMap', scope', errs, hrun⟩ :=
                ih (insertAssoc declMap i.identifier d)
                  (if d.isInterface then accI ++ [s.nextTypeId] else accI)
                  (if d.isInterface then accC else accC ++ [s.nextTypeId])
                  { s with
                      nextTypeId := s.nextTypeId + 1,
                      typeHeap := insertAssoc s.typeHeap s.nextTypeId
                        (freshNestedRecord d i),
                      typeActivations :=
                        insertAssoc scope i.identifier s.nextTypeId :: rest,
                      diagnostics := s.diagnostics ++
                        [CheckerError.redeclaration d.declarationKind
                          i.identifier i.pos] }
                  (insertAssoc scope i.identifier s.nextTypeId) rest rfl
              refine ⟨declMap',  scope',
                [CheckerError.redeclaration d.declarationKind i.identifier
                  i.pos] ++ errs, ?_⟩
              rw [hstep, hrun]
              simp only [allocPairs, hident, interfaceIdsOf, compositeIdsOf,
                heapAfterAlloc, List.filter_cons, List.length_cons,
                List.foldl_cons]
              cases hisI : d.isInterface <;>
                simp [hisI, List.append_assoc, Nat.add_comm, Nat.add_assoc,
                  Nat.add_left_comm]


theorem attachNestedTypes_run :
    ∀ (idName : List (Nat × String)) (tid : Nat) (s : CheckerState),
    (∀ p ∈ idName, ∃ rec, lookupAssoc s.typeHeap p.1 = some rec
        ∧ rec.identifier = p.2) →
    tid ∉ idName.map Prod.fst →
    (idName.map Prod.fst).Nodup →
    (∃ trec0, lookupAssoc s.typeHeap tid = some trec0) →
    ∃ s',
      attachNestedTypes tid (idName.map Prod.fst) s = .ok ((), s')
      ∧ (∀ k, k ∉ idName.map Prod.fst → k ≠ tid →
          lookupAssoc s'.typeHeap k = lookupAssoc s.typeHeap k)
      ∧ (∀ p ∈ idName, ∃ rec, lookupAssoc s.typeHeap p.1 = some rec
          ∧ rec.identifier = p.2
          ∧ lookupAssoc s'.typeHeap p.1
            = some { rec with containerType := some tid })
      ∧ (∀ trec, lookupAssoc s.typeHeap tid = some trec →
          lookupAssoc s'.typeHeap tid = some
            { trec with nestedTypes := (idName.foldl
                (fun m p => insertAssoc m p.2 p.1) trec.nestedTypes) })
      ∧ s'.nextTypeId = s.nextTypeId
      ∧ s'.typeActivations = s.typeActivations
      ∧ s'.valueActivations = s.valueActivations
      ∧ s'.diagnostics = s.diagnostics
      ∧ s'.interfaceDeclarationTypes = s.interfaceDeclarationTypes
      ∧ s'.interfaceNestedDeclarations = s.interfaceNestedDeclarations
      ∧ s'.containerTypes = s.containerTypes
      ∧ s'.memberOrigins = s.memberOrigins
      ∧ s'.occurrences = s.occurrences := by
  intro idName
  induction idName with
  | nil =>
      intro tid s _ _ _ _
      refine ⟨s, ?_, ?_, ?_, ?_, rfl, rfl, rfl, rfl, rfl, rfl, rfl, rfl, rfl⟩
      · simp [attachNestedTypes]
      · intro k _ _; rfl
      · intro p hp; cases hp
      · intro trec htrec
        simp [htrec]
  | cons q restIN ih =>
      intro tid s h htid hnodup htrec
      obtain ⟨nid, nm⟩ := q
      obtain ⟨rec, hrec, hrecid⟩ := h (nid, nm) (by simp)
      obtain ⟨trec0, htrec0⟩ := htrec
      have htidne : tid ≠ nid := by
        intro hcontra
        exact htid (by simp [hcontra])
      have hnidnotrest : nid ∉ restIN.map Prod.fst := by
        have := hnodup
        simp only [List.map_cons, List.nodup_cons] at this
        exact this.1
      have hstep : attachNestedTypes tid (((nid, nm) :: restIN).map Prod.fst) s
          = attachNestedTypes tid (restIN.map Prod.fst)
            { s with typeHeap :=
                (insertAssoc
                  (insertAssoc s.typeHeap tid
                    { trec0 with nestedTypes :=
                        (insertAssoc trec0.nestedTypes nm nid) })
                  nid { rec with containerType := some tid }) } := by
        simp only [List.map_cons]
        rw [attachNestedTypes]
        simp [Check.bind, heapGet, hrec, heapModify, modifyState, htrec0,
          lookupAssoc_insertAssoc_ne _ _ _ _ htidne, hrecid]
      set s2 : CheckerState :=
        { s with typeHeap :=
            (insertAssoc
              (insertAssoc s.typeHeap tid
                { trec0 with nestedTypes :=
                    (insertAssoc trec0.nestedTypes nm nid) })
              nid { rec with containerType := some tid }) } with hs2
      have hlook2 : ∀ k, k ≠ nid → k ≠ tid →
          lookupAssoc s2.typeHeap k = lookupAssoc s.typeHeap k := by
        intro k hk1 hk2
        rw [hs2]
        simp only
        rw [lookupAssoc_insertAssoc_ne _ _ _ _ (fun hcontra => hk1 hcontra.symm),
          lookupAssoc_insertAssoc_ne _ _ _ _ (fun hcontra => hk2 hcontra.symm)]
      obtain ⟨s', hrun, hpres, hcont, htidc, hn1, hn2, hn3, hn4, hn5, hn6,
        hn7, hn8, hn9⟩ :=
        ih tid s2
          (by
            intro p hp
            obtain ⟨recp, hrecp, hrecpid⟩ := h p (by simp [hp])
            have hpne : p.1 ≠ nid := by
              intro hcontra
              exact hnidnotrest (by
                rw [← hcontra]
                exact List.mem_map_of_mem Prod.fst hp)
            have hpnet : p.1 ≠ tid := by
              intro hcontra
              exact htid (by
                simp only [List.map_cons]
                exact List.mem_cons_of_mem _ (by
                  rw [← hcontra]
                  exact List.mem_map_of_mem Prod.fst hp))
            exact ⟨recp, by rw [hlook2 p.1 hpne hpnet]; exact hrecp, hrecpid⟩)
          (by
            intro hcontra
            exact htid (by simp only [List.map_cons]; exact .tail _ hcontra))
          (by
            simp only [List.map_cons, List.nodup_cons] at hnodup
            exact hnodup.2)
          (by
            refine ⟨{ trec0 with nestedTypes :=
              (insertAssoc trec0.nestedTypes nm nid) }, ?_⟩
            rw [hs2]
            simp only
            rw [lookupAssoc_insertAssoc_ne _ _ _ _ (fun hcontra =>
              htidne hcontra.symm)]
            exact lookupAssoc_insertAssoc_self _ _ _)
      refine ⟨s', ?_, ?_, ?_, ?_, by rw [hn1], by rw [hn2], by rw [hn3],
        by rw [hn4], by rw [hn5], by rw [hn6], by rw [hn7], by rw [hn8],
        by rw [hn9]⟩
      · rw [hstep]
        exact hrun
      · intro k hk1 hk2
        have hknid : k ≠ nid := by
          intro hcontra
          exact hk1 (by simp [hcontra])
        have hkrest : k ∉ restIN.map Prod.fst := by
          intro hcontra
          exact hk1 (by simp only [List.map_cons]; exact .tail _ hcontra)
        rw [hpres k hkrest hk2, hlook2 k hknid hk2]
      · intro p hp
        rcases List.mem_cons.mp hp with heq | hp
        · subst heq
          refine ⟨rec, hrec, hrecid, ?_⟩
          have hnidlook : lookupAssoc s'.typeHeap nid
              = lookupAssoc s2.typeHeap nid :=
            hpres nid hnidnotrest (fun hcontra => htidne hcontra.symm)
          rw [hnidlook, hs2]
          simp only
          exact lookupAssoc_insertAssoc_self _ _ _
        · obtain ⟨recp, hrecp2, hrecpid, hrecp'⟩ := hcont p hp
          have hpne : p.1 ≠ nid := by
            intro hcontra
            exact hnidnotrest (by
              rw [← hcontra]
              exact List.mem_map_of_mem Prod.fst hp)
          have hpnet : p.1 ≠ tid := by
            intro hcontra
            exact htid (by
              simp only [List.map_cons]
              exact List.mem_cons_of_mem _ (by
                rw [← hcontra]
                exact List.mem_map_of_mem Prod.fst hp))
          refine ⟨recp, ?_, hrecpid, hrecp'⟩
          rw [← hlook2 p.1 hpne hpnet]
          exact hrecp2
      · intro trec htrecS
        rw [htrecS] at htrec0
        injection htrec0 with htrec0
        subst htrec0
        have hfinal := htidc { trec with nestedTypes :=
            (insertAssoc trec.nestedTypes nm nid) }
          (by
            rw [hs2]
            simp only
            rw [lookupAssoc_insertAssoc_ne _ _ _ _ (fun hcontra =>
              htidne hcontra.symm)]
            exact lookupAssoc_insertAssoc_self _ _ _)
        rw [List.foldl_cons]
        exact hfinal

theorem allocPairs_fst_bounds :
    ∀ (decls : List NestedDeclaration) (n : Nat),
    ∀ p ∈ allocPairs n decls,
      n ≤ p.1 ∧ p.1 < n + (allocPairs n decls).length := by
  intro decls
  induction decls with
  | nil => intro n p hp; cases hp
  | cons d rest ih =>
      intro n p hp
      cases hident : d.identifier with
      | none =>
          simp only [allocPairs, hident] at hp ⊢
          exact ih n p hp
      | some i =>
          simp only [allocPairs, hident, List.length_cons] at hp ⊢
          rcases List.mem_cons.mp hp with heq | hmem
          · subst heq; omega
          · obtain ⟨h1, h2⟩ := ih (n + 1) p hmem
            omega

theorem allocPairs_fst_nodup :
    ∀ (decls : List NestedDeclaration) (n : Nat),
    ((allocPairs n decls).map Prod.fst).Nodup := by
  intro decls
  induction decls with
  | nil => intro n; simp [allocPairs]
  | cons d rest ih =>
      intro n
      cases hident : d.identifier with
      | none => simp only [allocPairs, hident]; exact ih n
      | some i =>
          simp only [allocPairs, hident, List.map_cons, List.nodup_cons]
          refine ⟨?_, ih (n + 1)⟩
          intro hmem
          obtain ⟨p, hp, hfst⟩ := List.mem_map.mp hmem
          obtain ⟨h1, _⟩ := allocPairs_fst_bounds rest (n + 1) p hp
          omega

theorem allocPairs_decl_mem :
    ∀ (decls : List NestedDeclaration) (n : Nat),
    ∀ p ∈ allocPairs n decls, p.2.1 ∈ decls := by
  intro decls
  induction decls with
  | nil => intro n p hp; cases hp
  | cons d rest ih =>
      intro n p hp
      cases hident : d.identifier with
      | none =>
          simp only [allocPairs, hident] at hp
          exact List.mem_cons_of_mem _ (ih n p hp)
      | some i =>
          simp only [allocPairs, hident] at hp
          rcases List.mem_cons.mp hp with heq | hmem
          · subst heq; exact List.mem_cons_self _ _
          · exact List.mem_cons_of_mem _ (ih (n + 1) p hmem)

theorem allocPairs_complete :
    ∀ (decls : List NestedDeclaration) (n : Nat) (nd : NestedDeclaration)
      (i : Identifier), nd ∈ decls → nd.identifier = some i →
    ∃ k, (k, nd, i) ∈ allocPairs n decls := by
  intro decls
  induction decls with
  | nil => intro n nd i hmem; cases hmem
  | cons d rest ih =>
      intro n nd i hmem hident
      rcases List.mem_cons.mp hmem with heq | hmem
      · subst heq
        refine ⟨n, ?_⟩
        simp only [allocPairs, hident]
        exact List.mem_cons_self _ _
      · cases hd : d.identifier with
        | none =>
            obtain ⟨k, hk⟩ := ih n nd i hmem hident
            exact ⟨k, by simp only [allocPairs, hd]; exact hk⟩
        | some j =>
            obtain ⟨k, hk⟩ := ih (n + 1) nd i hmem hident
            exact ⟨k, by
              simp only [allocPairs, hd]
              exact List.mem_cons_of_mem _ hk⟩

theorem allocPairs_names :
    ∀ (decls : List NestedDeclaration) (n : Nat),
    (allocPairs n decls).map (fun p => p.2.2.identifier) = namesOf decls := by
  intro decls
  induction decls with
  | nil => intro n; simp [allocPairs, namesOf]
  | cons d rest ih =>
      intro n
      cases hident : d.identifier with
      | none => simp [allocPairs, hident, namesOf, List.filterMap_cons, ih n]
      | some i => simp [allocPairs, hident, namesOf, List.filterMap_cons, ih (n + 1)]

theorem idNamesOf_fst (pairs : List (Nat × NestedDeclaration × Identifier)) :
    (idNamesOf pairs).map Prod.fst = pairs.map Prod.fst := by
  simp [idNamesOf, List.map_map]

theorem idNamesOf_snd (pairs : List (Nat × NestedDeclaration × Identifier)) :
    (idNamesOf pairs).map Prod.snd = pairs.map (fun p => p.2.2.identifier) := by
  simp [idNamesOf, List.map_map]

theorem heapAfterAlloc_not_mem :
    ∀ (pairs : List (Nat × NestedDeclaration × Identifier))
      (heap : List (Nat × TypeData)) (k : Nat),
    k ∉ pairs.map Prod.fst →
    lookupAssoc (heapAfterAlloc heap pairs) k = lookupAssoc heap k := by
  intro pairs
  induction pairs with
  | nil => intro heap k _; rfl
  | cons q rest ih =>
      intro heap k hk
      simp only [List.map_cons] at hk
      have hk1 : k ≠ q.1 := fun hcontra => hk (by simp [hcontra])
      have hk2 : k ∉ rest.map Prod.fst :=
        fun hcontra => hk (List.mem_cons_of_mem _ hcontra)
      have hstep : heapAfterAlloc heap (q :: rest)
          = heapAfterAlloc
              (insertAssoc heap q.1 (freshNestedRecord q.2.1 q.2.2)) rest := rfl
      rw [hstep, ih _ k hk2,
        lookupAssoc_insertAssoc_ne _ _ _ _ (fun hcontra => hk1 hcontra.symm)]

theorem heapAfterAlloc_mem :
    ∀ (pairs : List (Nat × NestedDeclaration × Identifier))
      (heap : List (Nat × TypeData))
      (p : Nat × NestedDeclaration × Identifier),
    (pairs.map Prod.fst).Nodup → p ∈ pairs →
    lookupAssoc (heapAfterAlloc heap pairs) p.1
      = some (freshNestedRecord p.2.1 p.2.2) := by
  intro pairs
  induction pairs with
  | nil => intro heap p _ hp; cases hp
  | cons q rest ih =>
      intro heap p hnodup hp
      simp only [List.map_cons, List.nodup_cons] at hnodup
      have hstep : heapAfterAlloc heap (q :: rest)
          = heapAfterAlloc
              (insertAssoc heap q.1 (freshNestedRecord q.2.1 q.2.2)) rest := rfl
      rw [hstep]
      rcases List.mem_cons.mp hp with heq | hmem
      · subst heq
        rw [heapAfterAlloc_not_mem rest _ p.1 hnodup.1]
        exact lookupAssoc_insertAssoc_self _ _ _
      · exact ih _ p hnodup.2 hmem

theorem foldl_insert_not_mem :
    ∀ (idName : List (Nat × String)) (init : List (String × Nat)) (nm : String),
    nm ∉ idName.map Prod.snd →
    lookupAssoc (idName.foldl (fun m p => insertAssoc m p.2 p.1) init) nm
      = lookupAssoc init nm := by
  intro idName
  induction idName with
  | nil => intro init nm _; rfl
  | cons q rest ih =>
      intro init nm hnm
      simp only [List.map_cons] at hnm
      have h1 : nm ≠ q.2 := fun hcontra => hnm (by simp [hcontra])
      have h2 : nm ∉ rest.map Prod.snd :=
        fun hcontra => hnm (List.mem_cons_of_mem _ hcontra)
      simp only [List.foldl_cons]
      rw [ih _ nm h2,
        lookupAssoc_insertAssoc_ne _ _ _ _ (fun hcontra => h1 hcontra.symm)]

theorem foldl_insert_mem :
    ∀ (idName : List (Nat × String)) (init : List (String × Nat))
      (nid : Nat) (nm : String),
    (idName.map Prod.snd).Nodup → (nid, nm) ∈ idName →
    lookupAssoc (idName.foldl (fun m p => insertAssoc m p.2 p.1) init) nm
      = some nid := by
  intro idName
  induction idName with
  | nil => intro init nid nm _ hp; cases hp
  | cons q rest ih =>
      intro init nid nm hnodup hp
      simp only [List.map_cons, List.nodup_cons] at hnodup
      simp only [List.foldl_cons]
      rcases List.mem_cons.mp hp with heq | hmem
      · have hq : q = (nid, nm) := heq.symm
        subst hq
        rw [foldl_insert_not_mem rest _ nm hnodup.1]
        exact lookupAssoc_insertAssoc_self _ _ _
      · exact ih _ nid nm hnodup.2 hmem

theorem interfaceIdsOf_all (pairs : List (Nat × NestedDeclaration × Identifier))
    (h : ∀ p ∈ pairs, p.2.1.isInterface = true) :
    interfaceIdsOf pairs = pairs.map Prod.fst := by
  unfold interfaceIdsOf
  rw [List.filter_eq_self.mpr]
  intro p hp
  simp [h p hp]

theorem compositeIdsOf_nil_of_all (pairs : List (Nat × NestedDeclaration × Identifier))
    (h : ∀ p ∈ pairs, p.2.1.isInterface = true) :
    compositeIdsOf pairs = [] := by
  unfold compositeIdsOf
  rw [List.filter_eq_nil_iff.mpr]
  · rfl
  · intro p hp
    simp [h p hp]

theorem compositeIdsOf_all (pairs : List (Nat × NestedDeclaration × Identifier))
    (h : ∀ p ∈ pairs, p.2.1.isInterface = false) :
    compositeIdsOf pairs = pairs.map Prod.fst := by
  unfold compositeIdsOf
  rw [List.filter_eq_self.mpr]
  intro p hp
  simp [h p hp]

theorem interfaceIdsOf_nil_of_all (pairs : List (Nat × NestedDeclaration × Identifier))
    (h : ∀ p ∈ pairs, p.2.1.isInterface = false) :
    interfaceIdsOf pairs = [] := by
  unfold interfaceIdsOf
  rw [List.filter_eq_nil_iff.mpr]
  · rfl
  · intro p hp
    simp [h p hp]

theorem nestedBodyChain_run
    (declId tid : Nat) (ck : CompositeKind) (dk : DeclarationKind)
    (comps intfs : List NestedDeclaration) (pl : TypeData)
    (t : CheckerState) (rest6 : List (List (String × Nat)))
    (hact : t.typeActivations = [] :: rest6)
    (hheap : lookupAssoc t.typeHeap tid = some pl)
    (hpl : pl.nestedTypes = [])
    (htid : tid < t.nextTypeId)
    (hIflag : ∀ nd ∈ intfs, nd.isInterface = true)
    (hCflag : ∀ nd ∈ comps, nd.isInterface = false) :
    ∃ t',
      ((visitNestedDeclarations ck dk comps intfs).bind fun __discr =>
        ((modifyState fun s =>
            { s with interfaceNestedDeclarations :=
                (insertAssoc s.interfaceNestedDeclarations declId
                  __discr.1) }).bind
          fun _ =>
            ((attachNestedTypes tid __discr.2.1).bind fun _ =>
              attachNestedTypes tid __discr.2.2))) t
        = .ok ((), t')
      ∧ lookupAssoc t'.typeHeap tid = some
          { pl with nestedTypes :=
              ((idNamesOf (allocPairs
                      (t.nextTypeId + (allocPairs t.nextTypeId comps).length)
                      intfs)
                  ++ idNamesOf (allocPairs t.nextTypeId comps)).foldl
                (fun m p => insertAssoc m p.2 p.1) []) }
      ∧ (∀ q ∈ allocPairs t.nextTypeId comps
            ++ allocPairs
              (t.nextTypeId + (allocPairs t.nextTypeId comps).length) intfs,
          lookupAssoc t'.typeHeap q.1 = some
            { freshNestedRecord q.2.1 q.2.2 with
                containerType := some tid }) := by
  obtain ⟨declMap1, scope1, errs1, hloop1⟩ :=
    visitNestedDeclarationsLoop_run comps [] [] [] t [] rest6 hact
  obtain ⟨declMap2, scope2, errs2, hloop2⟩ :=
    visitNestedDeclarationsLoop_run intfs declMap1
      ([] ++ interfaceIdsOf (allocPairs t.nextTypeId comps))
      ([] ++ compositeIdsOf (allocPairs t.nextTypeId comps))
      { t with
          nextTypeId := t.nextTypeId + (allocPairs t.nextTypeId comps).length,
          typeHeap := heapAfterAlloc t.typeHeap (allocPairs t.nextTypeId comps),
          typeActivations := scope1 :: rest6,
          diagnostics := t.diagnostics ++ errs1 }
      scope1 rest6 rfl
  have hflagC : ∀ p ∈ allocPairs t.nextTypeId comps,
      p.2.1.isInterface = false :=
    fun p hp => hCflag _ (allocPairs_decl_mem comps t.nextTypeId p hp)
  have hflagI : ∀ p ∈ allocPairs
      (t.nextTypeId + (allocPairs t.nextTypeId comps).length) intfs,
      p.2.1.isInterface = true :=
    fun p hp => hIflag _ (allocPairs_decl_mem intfs _ p hp)
  have htidCnot : tid ∉ (allocPairs t.nextTypeId comps).map Prod.fst := by
    intro hmem
    obtain ⟨p, hp, hfst⟩ := List.mem_map.mp hmem
    obtain ⟨h1, _⟩ := allocPairs_fst_bounds comps t.nextTypeId p hp
    omega
  have htidInot : tid ∉ (allocPairs
      (t.nextTypeId + (allocPairs t.nextTypeId comps).length) intfs).map
        Prod.fst := by
    intro hmem
    obtain ⟨p, hp, hfst⟩ := List.mem_map.mp hmem
    obtain ⟨h1, _⟩ := allocPairs_fst_bounds intfs _ p hp
    omega
  have hdisj : ∀ k ∈ (allocPairs t.nextTypeId comps).map Prod.fst,
      k ∉ (allocPairs
        (t.nextTypeId + (allocPairs t.nextTypeId comps).length) intfs).map
          Prod.fst := by
    intro k hkC hkI
    obtain ⟨p, hp, hpf⟩ := List.mem_map.mp hkC
    obtain ⟨q, hq, hqf⟩ := List.mem_map.mp hkI
    obtain ⟨_, h2⟩ := allocPairs_fst_bounds comps t.nextTypeId p hp
    obtain ⟨h3, _⟩ := allocPairs_fst_bounds intfs _ q hq
    omega
  have hv : visitNestedDeclarations ck dk comps intfs t
      = .ok ((declMap2,
          (allocPairs (t.nextTypeId + (allocPairs t.nextTypeId comps).length)
            intfs).map Prod.fst,
          (allocPairs t.nextTypeId comps).map Prod.fst),
        { t with
            nextTypeId := t.nextTypeId + (allocPairs t.nextTypeId comps).length
              + (allocPairs
                  (t.nextTypeId + (allocPairs t.nextTypeId comps).length)
                  intfs).length,
            typeHeap := heapAfterAlloc
              (heapAfterAlloc t.typeHeap (allocPairs t.nextTypeId comps))
              (allocPairs
                (t.nextTypeId + (allocPairs t.nextTypeId comps).length) intfs),
            typeActivations := scope2 :: rest6,
            diagnostics := t.diagnostics ++ errs1 ++ errs2 }) := by
    simp only [visitNestedDeclarations, bind_eq_Check_bind]
    rw [Check_bind_ok hloop1]
    simp only []
    rw [hloop2]
    simp only [interfaceIdsOf_nil_of_all _ hflagC, compositeIdsOf_all _ hflagC,
      interfaceIdsOf_all _ hflagI, compositeIdsOf_nil_of_all _ hflagI,
      List.nil_append, List.append_nil]
  obtain ⟨sA, hrunA, hpresA, hcontA, htidcA, hA1, hA2, hA3, hA4, hA5, hA6,
    hA7, hA8, hA9⟩ :=
    attachNestedTypes_run
      (idNamesOf (allocPairs
        (t.nextTypeId + (allocPairs t.nextTypeId comps).length) intfs))
      tid
      { t with
          nextTypeId := t.nextTypeId + (allocPairs t.nextTypeId comps).length
            + (allocPairs
                (t.nextTypeId + (allocPairs t.nextTypeId comps).length)
                intfs).length,
          typeHeap := heapAfterAlloc
            (heapAfterAlloc t.typeHeap (allocPairs t.nextTypeId comps))
            (allocPairs
              (t.nextTypeId + (allocPairs t.nextTypeId comps).length) intfs),
          typeActivations := scope2 :: rest6,
          diagnostics := t.diagnostics ++ errs1 ++ errs2,
          interfaceNestedDeclarations :=
            (insertAssoc t.interfaceNestedDeclarations declId declMap2) }
      (by
        intro p hp
        simp only [idNamesOf, List.mem_map] at hp
        obtain ⟨q, hq, rfl⟩ := hp
        refine ⟨freshNestedRecord q.2.1 q.2.2, ?_, rfl⟩
        exact heapAfterAlloc_mem _ _ q (allocPairs_fst_nodup intfs _) hq)
      (by rw [idNamesOf_fst]; exact htidInot)
      (by rw [idNamesOf_fst]; exact allocPairs_fst_nodup intfs _)
      (by
        refine ⟨pl, ?_⟩
        show lookupAssoc
          (heapAfterAlloc
            (heapAfterAlloc t.typeHeap (allocPairs t.nextTypeId comps))
            (allocPairs
              (t.nextTypeId + (allocPairs t.nextTypeId comps).length) intfs))
          tid = some pl
        rw [heapAfterAlloc_not_mem _ _ _ htidInot,
          heapAfterAlloc_not_mem _ _ _ htidCnot]
        exact hheap)
  obtain ⟨sB, hrunB, hpresB, hcontB, htidcB, hB1, hB2, hB3, hB4, hB5, hB6,
    hB7, hB8, hB9⟩ :=
    attachNestedTypes_run (idNamesOf (allocPairs t.nextTypeId comps)) tid sA
      (by
        intro p hp
        simp only [idNamesOf, List.mem_map] at hp
        obtain ⟨q, hq, rfl⟩ := hp
        refine ⟨freshNestedRecord q.2.1 q.2.2, ?_, rfl⟩
        obtain ⟨hqlo, hqhi⟩ := allocPairs_fst_bounds comps t.nextTypeId q hq
        rw [hpresA q.1
          (by rw [idNamesOf_fst]; exact hdisj q.1 (List.mem_map_of_mem _ hq))
          (by omega)]
        show lookupAssoc
          (heapAfterAlloc
            (heapAfterAlloc t.typeHeap (allocPairs t.nextTypeId comps))
            (allocPairs
              (t.nextTypeId + (allocPairs t.nextTypeId comps).length) intfs))
          q.1 = _
        rw [heapAfterAlloc_not_mem _ _ _
          (hdisj q.1 (List.mem_map_of_mem _ hq))]
        exact heapAfterAlloc_mem _ _ q (allocPairs_fst_nodup comps _) hq)
      (by rw [idNamesOf_fst]; exact htidCnot)
      (by rw [idNamesOf_fst]; exact allocPairs_fst_nodup comps _)
      (by
        refine ⟨{ pl with nestedTypes :=
          ((idNamesOf (allocPairs
              (t.nextTypeId + (allocPairs t.nextTypeId comps).length)
              intfs)).foldl (fun m p => insertAssoc m p.2 p.1)
            pl.nestedTypes) }, ?_⟩
        refine htidcA pl ?_
        show lookupAssoc
          (heapAfterAlloc
            (heapAfterAlloc t.typeHeap (allocPairs t.nextTypeId comps))
            (allocPairs
              (t.nextTypeId + (allocPairs t.nextTypeId comps).length) intfs))
          tid = some pl
        rw [heapAfterAlloc_not_mem _ _ _ htidInot,
          heapAfterAlloc_not_mem _ _ _ htidCnot]
        exact hheap)
  rw [idNamesOf_fst] at hrunA
  rw [idNamesOf_fst] at hrunB
  refine ⟨sB, ?_, ?_, ?_⟩
  · rw [Check_bind_ok hv]
    simp only []
    rw [Check_bind_ok (modifyState_apply _ _)]
    simp only []
    rw [Check_bind_ok hrunA]
    exact hrunB
  · have hS9tid : lookupAssoc
        (heapAfterAlloc
          (heapAfterAlloc t.typeHeap (allocPairs t.nextTypeId comps))
          (allocPairs
            (t.nextTypeId + (allocPairs t.nextTypeId comps).length) intfs))
        tid = some pl := by
      rw [heapAfterAlloc_not_mem _ _ _ htidInot,
        heapAfterAlloc_not_mem _ _ _ htidCnot]
      exact hheap
    have hsAtid := htidcA pl hS9tid
    have h0 := htidcB
      ({ pl with nestedTypes :=
          ((idNamesOf (allocPairs
              (t.nextTypeId + (allocPairs t.nextTypeId comps).length)
              intfs)).foldl (fun m p => insertAssoc m p.2 p.1)
            pl.nestedTypes) }) hsAtid
    rw [hpl] at h0
    rw [List.foldl_append]
    exact h0
  · intro q hq
    rcases List.mem_append.mp hq with hqC | hqI
    · obtain ⟨hqlo, hqhi⟩ := allocPairs_fst_bounds comps t.nextTypeId q hqC
      have hmemB : (q.1, q.2.2.identifier)
          ∈ idNamesOf (allocPairs t.nextTypeId comps) := by
        simp only [idNamesOf, List.mem_map]
        exact ⟨q, hqC, rfl⟩
      obtain ⟨rec, hrecA, hrecid, hrecB⟩ := hcontB _ hmemB
      have hrecA' : lookupAssoc sA.typeHeap q.1
          = some (freshNestedRecord q.2.1 q.2.2) := by
        rw [hpresA q.1
          (by rw [idNamesOf_fst]; exact hdisj q.1 (List.mem_map_of_mem _ hqC))
          (by omega)]
        show lookupAssoc
          (heapAfterAlloc
            (heapAfterAlloc t.typeHeap (allocPairs t.nextTypeId comps))
            (allocPairs
              (t.nextTypeId + (allocPairs t.nextTypeId comps).length) intfs))
          q.1 = _
        rw [heapAfterAlloc_not_mem _ _ _
          (hdisj q.1 (List.mem_map_of_mem _ hqC))]
        exact heapAfterAlloc_mem _ _ q (allocPairs_fst_nodup comps _) hqC
      rw [hrecA'] at hrecA
      injection hrecA with hrecA
      rw [← hrecA] at hrecB
      exact hrecB
    · obtain ⟨hqlo, hqhi⟩ := allocPairs_fst_bounds intfs _ q hqI
      have hmemA : (q.1, q.2.2.identifier)
          ∈ idNamesOf (allocPairs
            (t.nextTypeId + (allocPairs t.nextTypeId comps).length) intfs) := by
        simp only [idNamesOf, List.mem_map]
        exact ⟨q, hqI, rfl⟩
      obtain ⟨rec, hrecS9, hrecid, hrecA⟩ := hcontA _ hmemA
      have hrecS9' : lookupAssoc
          (heapAfterAlloc
            (heapAfterAlloc t.typeHeap (allocPairs t.nextTypeId comps))
            (allocPairs
              (t.nextTypeId + (allocPairs t.nextTypeId comps).length) intfs))
          q.1 = some (freshNestedRecord q.2.1 q.2.2) :=
        heapAfterAlloc_mem _ _ q (allocPairs_fst_nodup intfs _) hqI
      rw [hrecS9'] at hrecS9
      injection hrecS9 with hrecS9
      rw [← hrecS9] at hrecA
      rw [hpresB q.1
        (by
          rw [idNamesOf_fst]
          intro hmem
          obtain ⟨p, hp, hpf⟩ := List.mem_map.mp hmem
          obtain ⟨_, hphi⟩ := allocPairs_fst_bounds comps t.nextTypeId p hp
          omega)
        (by omega)]
      exact hrecA

theorem declareInterfaceDeclaration_nested_run
    (declaration : InterfaceDeclaration) (s : CheckerState)
    (hIflag : ∀ nd ∈ declaration.interfaceDeclarations, nd.isInterface = true)
    (hCflag : ∀ nd ∈ declaration.compositeDeclarations,
      nd.isInterface = false) :
    ∃ s',
      declareInterfaceDeclaration declaration s = .ok (s.nextTypeId, s')
      ∧ lookupAssoc s'.typeHeap s.nextTypeId = some
          { isInterface := true,
            identifier := declaration.identifier.identifier,
            compositeKind := declaration.compositeKind,
            nestedTypes :=
              ((idNamesOf (allocPairs
                    (s.nextTypeId + 1
                      + (allocPairs (s.nextTypeId + 1)
                          declaration.compositeDeclarations).length)
                    declaration.interfaceDeclarations)
                  ++ idNamesOf (allocPairs (s.nextTypeId + 1)
                      declaration.compositeDeclarations)).foldl
                (fun m p => insertAssoc m p.2 p.1) []),
            containerType := none, members := none,
            initializerParameterTypeAnnotations := none }
      ∧ (∀ q ∈ allocPairs (s.nextTypeId + 1) declaration.compositeDeclarations
            ++ allocPairs (s.nextTypeId + 1
                + (allocPairs (s.nextTypeId + 1)
                    declaration.compositeDeclarations).length)
              declaration.interfaceDeclarations,
          lookupAssoc s'.typeHeap q.1 = some
            { freshNestedRecord q.2.1 q.2.2 with
                containerType := some s.nextTypeId }) := by
  obtain ⟨t', hbody, htidlook, hqlook⟩ :=
    nestedBodyChain_run declaration.declId s.nextTypeId
      declaration.compositeKind declaration.declarationKind
      declaration.compositeDeclarations declaration.interfaceDeclarations
      ⟨true, declaration.identifier.identifier, declaration.compositeKind, [],
        none, none, none⟩
      { s with
          nextTypeId := s.nextTypeId + 1,
          typeHeap := (insertAssoc s.typeHeap s.nextTypeId
            ⟨true, declaration.identifier.identifier,
              declaration.compositeKind, [], none, none, none⟩),
          typeActivations := ([] ::
            insertAssoc (s.typeActivations.head?.getD [])
              declaration.identifier.identifier s.nextTypeId
              :: s.typeActivations.tail),
          valueActivations := ([] :: s.valueActivations),
          diagnostics := (s.diagnostics ++
            (Option.map
              (fun _ => CheckerError.redeclaration declaration.declarationKind
                declaration.identifier.identifier declaration.identifier.pos)
              (lookupAssoc (s.typeActivations.head?.getD [])
                declaration.identifier.identifier)).toList),
          occurrences := (s.occurrences
            ++ [(declaration.identifier.identifier, s.nextTypeId)]) }
      (insertAssoc (s.typeActivations.head?.getD [])
        declaration.identifier.identifier s.nextTypeId
        :: s.typeActivations.tail)
      rfl
      (lookupAssoc_insertAssoc_self _ _ _)
      rfl
      (Nat.lt_succ_self _)
      hIflag hCflag
  refine ⟨{ typeActivationsLeaveState (valueActivationsLeaveState t') with
      interfaceDeclarationTypes :=
        (insertAssoc (typeActivationsLeaveState
            (valueActivationsLeaveState t')).interfaceDeclarationTypes
          declaration.declId s.nextTypeId) }, ?_, ?_, ?_⟩
  · simp only [declareInterfaceDeclaration, bind_eq_Check_bind,
      Check_bind_apply, allocType_apply, typeActivationsDeclareType_apply,
      report_apply, modifyState_apply, recordVariableDeclarationOccurrence,
      typeActivationsEnter, valueActivationsEnter, Check_pure_apply]
    rw [withDeferred_apply, hbody]
  · exact htidlook
  · exact hqlook

/-- Claim C6 (amended): for every nested interface or composite declaration
inside an interface declaration whose nested declarations carry pairwise
distinct identifiers, after phase 1 (`declareInterfaceDeclaration`)
completes, the produced nested type is retrievable from the enclosing
interface type's nested-type mapping under the nested declaration's
original identifier, and that nested type's container back-reference is
the enclosing interface type.  The two flag hypotheses record the facts,
fixed by the Go AST types, that the entries of `InterfaceDeclarations`
are interface declarations and those of `CompositeDeclarations` are
composite declarations.  Without the distinctness hypothesis the claim
is false: see the counterexample. -/
theorem claim_C6_nested_type_round_trip
    (declaration : InterfaceDeclaration) (s : CheckerState)
    (hIflag : ∀ nd ∈ declaration.interfaceDeclarations, nd.isInterface = true)
    (hCflag : ∀ nd ∈ declaration.compositeDeclarations,
      nd.isInterface = false)
    (hnodup : (namesOf (declaration.compositeDeclarations
        ++ declaration.interfaceDeclarations)).Nodup) :
    ∃ s',
      declareInterfaceDeclaration declaration s = .ok (s.nextTypeId, s')
      ∧ ∀ nd ∈ declaration.compositeDeclarations
            ++ declaration.interfaceDeclarations,
          ∀ i, nd.identifier = some i →
          ∃ trec nid nrec,
            lookupAssoc s'.typeHeap s.nextTypeId = some trec
            ∧ lookupAssoc trec.nestedTypes i.identifier = some nid
            ∧ lookupAssoc s'.typeHeap nid = some nrec
            ∧ nrec.containerType = some s.nextTypeId
            ∧ nrec.identifier = i.identifier
            ∧ nrec.isInterface = nd.isInterface
            ∧ nrec.compositeKind = nd.compositeKind := by
  obtain ⟨s', hrun, htid, hq⟩ :=
    declareInterfaceDeclaration_nested_run declaration s hIflag hCflag
  have hnames : (namesOf declaration.compositeDeclarations
      ++ namesOf declaration.interfaceDeclarations).Nodup := by
    have hsplit : namesOf (declaration.compositeDeclarations
          ++ declaration.interfaceDeclarations)
        = namesOf declaration.compositeDeclarations
          ++ namesOf declaration.interfaceDeclarations := by
      simp [namesOf, List.filterMap_append]
    rwa [hsplit] at hnodup
  obtain ⟨hnodC, hnodI, hdisjN⟩ := List.nodup_append.mp hnames
  have hCnames : ((idNamesOf (allocPairs (s.nextTypeId + 1)
        declaration.compositeDeclarations)).map Prod.snd)
      = namesOf declaration.compositeDeclarations := by
    rw [idNamesOf_snd, allocPairs_names]
  have hInames : ((idNamesOf (allocPairs (s.nextTypeId + 1
          + (allocPairs (s.nextTypeId + 1)
              declaration.compositeDeclarations).length)
        declaration.interfaceDeclarations)).map Prod.snd)
      = namesOf declaration.interfaceDeclarations := by
    rw [idNamesOf_snd, allocPairs_names]
  refine ⟨s', hrun, ?_⟩
  intro nd hmem i hident
  rcases List.mem_append.mp hmem with hC | hI
  · obtain ⟨k, hk⟩ := allocPairs_complete declaration.compositeDeclarations
      (s.nextTypeId + 1) nd i hC hident
    have hkmem : ((k, i.identifier) : Nat × String)
        ∈ idNamesOf (allocPairs (s.nextTypeId + 1)
          declaration.compositeDeclarations) := by
      simp only [idNamesOf, List.mem_map]
      exact ⟨(k, nd, i), hk, rfl⟩
    refine ⟨_, k, _, htid, ?_,
      hq (k, nd, i) (List.mem_append.mpr (Or.inl hk)), rfl, rfl, rfl, rfl⟩
    simp only []
    rw [List.foldl_append]
    exact foldl_insert_mem _ _ k i.identifier
      (by rw [hCnames]; exact hnodC) hkmem
  · obtain ⟨k, hk⟩ := allocPairs_complete declaration.interfaceDeclarations
      (s.nextTypeId + 1 + (allocPairs (s.nextTypeId + 1)
        declaration.compositeDeclarations).length) nd i hI hident
    have hkmem : ((k, i.identifier) : Nat × String)
        ∈ idNamesOf (allocPairs (s.nextTypeId + 1
            + (allocPairs (s.nextTypeId + 1)
                declaration.compositeDeclarations).length)
          declaration.interfaceDeclarations) := by
      simp only [idNamesOf, List.mem_map]
      exact ⟨(k, nd, i), hk, rfl⟩
    have hiI : i.identifier ∈ namesOf declaration.interfaceDeclarations :=
      List.mem_filterMap.mpr ⟨nd, hI, by rw [hident]; rfl⟩
    have hnotinC : i.identifier
        ∉ ((idNamesOf (allocPairs (s.nextTypeId + 1)
            declaration.compositeDeclarations)).map Prod.snd) := by
      rw [hCnames]
      exact fun hmem2 => hdisjN hmem2 hiI
    refine ⟨_, k, _, htid, ?_,
      hq (k, nd, i) (List.mem_append.mpr (Or.inr hk)), rfl, rfl, rfl, rfl⟩
    simp only []
    rw [List.foldl_append, foldl_insert_not_mem _ _ i.identifier hnotinC]
    exact foldl_insert_mem _ _ k i.identifier
      (by rw [hInames]; exact hnodI) hkmem

/-- Witness for claim C6 (amended): an interface `C` with one nested
interface declaration `I` and one nested composite declaration `S`
satisfies the hypotheses, and the round-trip theorem applies to it. -/
theorem claim_C6_witness :
    (∀ nd ∈ [(⟨some ⟨"I", ⟨1, 1, 1⟩⟩, true, .resourceKind,
        .notSpecified⟩ : NestedDeclaration)], nd.isInterface = true)
    ∧ (∀ nd ∈ [(⟨some ⟨"S", ⟨2, 2, 2⟩⟩, false, .structureKind,
        .notSpecified⟩ : NestedDeclaration)], nd.isInterface = false)
    ∧ (namesOf ([(⟨some ⟨"S", ⟨2, 2, 2⟩⟩, false, .structureKind,
          .notSpecified⟩ : NestedDeclaration)]
        ++ [(⟨some ⟨"I", ⟨1, 1, 1⟩⟩, true, .resourceKind,
          .notSpecified⟩ : NestedDeclaration)])).Nodup
    ∧ (∃ s',
        declareInterfaceDeclaration
            ⟨7, .notSpecified, .structureKind, ⟨"C", ⟨0, 0, 0⟩⟩,
              ⟨[], [], []⟩,
              [⟨some ⟨"I", ⟨1, 1, 1⟩⟩, true, .resourceKind, .notSpecified⟩],
              [⟨some ⟨"S", ⟨2, 2, 2⟩⟩, false, .structureKind,
                .notSpecified⟩],
              ⟨0, 0, 0⟩⟩
            ⟨0, [], [], [[]], [[]], [], [], [], [], []⟩ = .ok (0, s')
        ∧ ∀ nd ∈ [(⟨some ⟨"S", ⟨2, 2, 2⟩⟩, false, .structureKind,
              .notSpecified⟩ : NestedDeclaration)]
            ++ [(⟨some ⟨"I", ⟨1, 1, 1⟩⟩, true, .resourceKind,
              .notSpecified⟩ : NestedDeclaration)],
          ∀ i, nd.identifier = some i →
          ∃ trec nid nrec,
            lookupAssoc s'.typeHeap 0 = some trec
            ∧ lookupAssoc trec.nestedTypes i.identifier = some nid
            ∧ lookupAssoc s'.typeHeap nid = some nrec
            ∧ nrec.containerType = some 0
            ∧ nrec.identifier = i.identifier
            ∧ nrec.isInterface = nd.isInterface
            ∧ nrec.compositeKind = nd.compositeKind) :=
  ⟨by decide, by decide, by decide,
    claim_C6_nested_type_round_trip
      ⟨7, .notSpecified, .structureKind, ⟨"C", ⟨0, 0, 0⟩⟩, ⟨[], [], []⟩,
        [⟨some ⟨"I", ⟨1, 1, 1⟩⟩, true, .resourceKind, .notSpecified⟩],
        [⟨some ⟨"S", ⟨2, 2, 2⟩⟩, false, .structureKind, .notSpecified⟩],
        ⟨0, 0, 0⟩⟩
      ⟨0, [], [], [[]], [[]], [], [], [], [], []⟩
      (by decide) (by decide) (by decide)⟩

/-- Claim C6, counterexample to the unamended claim: when two nested
declarations share the identifier `A`, the second attach overwrites the
first in the enclosing type's nested-type mapping.  The first nested
declaration (a structure interface) still produces a type — heap id 1,
with its container back-reference set — but the mapping's only entry
under `A` is the second declaration's type (heap id 2, a resource
interface), so the first declaration's produced type is not retrievable
under its original identifier. -/
theorem claim_C6_counterexample :
    ∃ s' trec,
      declareInterfaceDeclaration
          ⟨5, .notSpecified, .structureKind, ⟨"Outer", ⟨0, 0, 0⟩⟩,
            ⟨[], [], []⟩,
            [⟨some ⟨"A", ⟨1, 1, 1⟩⟩, true, .structureKind, .notSpecified⟩,
             ⟨some ⟨"A", ⟨2, 2, 2⟩⟩, true, .resourceKind, .notSpecified⟩],
            [], ⟨0, 0, 0⟩⟩
          ⟨0, [], [], [[]], [[]], [], [], [], [], []⟩ = .ok (0, s')
      ∧ lookupAssoc s'.typeHeap 0 = some trec
      ∧ trec.nestedTypes = [("A", 2)]
      ∧ lookupAssoc s'.typeHeap 1
          = some ⟨true, "A", .structureKind, [], some 0, none, none⟩
      ∧ lookupAssoc s'.typeHeap 2
          = some ⟨true, "A", .resourceKind, [], some 0, none, none⟩ := by
  obtain ⟨s', hrun, htid, hq⟩ :=
    declareInterfaceDeclaration_nested_run
      ⟨5, .notSpecified, .structureKind, ⟨"Outer", ⟨0, 0, 0⟩⟩,
        ⟨[], [], []⟩,
        [⟨some ⟨"A", ⟨1, 1, 1⟩⟩, true, .structureKind, .notSpecified⟩,
         ⟨some ⟨"A", ⟨2, 2, 2⟩⟩, true, .resourceKind, .notSpecified⟩],
        [], ⟨0, 0, 0⟩⟩
      ⟨0, [], [], [[]], [[]], [], [], [], [], []⟩
      (by decide) (by decide)
  have h1 := hq (1, ⟨some ⟨"A", ⟨1, 1, 1⟩⟩, true, .structureKind,
    .notSpecified⟩, ⟨"A", ⟨1, 1, 1⟩⟩) (by decide)
  have h2 := hq (2, ⟨some ⟨"A", ⟨2, 2, 2⟩⟩, true, .resourceKind,
    .notSpecified⟩, ⟨"A", ⟨2, 2, 2⟩⟩) (by decide)
  exact ⟨s', _, hrun, htid, by decide, h1, h2⟩

end Cadence
